import Mathlib

/-!
# The SDP negotiation agent of kms-core (`src/gst-plugins/commons/kmssdpagent.c`)

A shallow embedding of the agent: the private state of `KmsSdpAgent` is a record that
every operation takes and returns, GLib containers are lists, the media handlers
(`KmsSdpMediaHandler`, a GObject with virtual `create_offer` / `create_answer`) are
records of functions, and the counters `hids` / `gids` are `guint` values kept
modulo `2 ^ 32`.  The mutex is not part of the state: every operation below is the
body that runs between `SDP_AGENT_LOCK` and `SDP_AGENT_UNLOCK`.
-/

namespace KmsSdp

/-! ## GLib -/

/-- A `GHashTable` keyed by strings (`g_str_hash`, `g_str_equal`), kept as the list of
its entries.  Only `g_hash_table_lookup` observes it, so the order of the list is
not observable. -/
abbrev GHashTable (β : Type) := List (String × β)

/-- The call `g_hash_table_lookup (table, key)`: the value stored under `key`, or NULL. -/
def g_hash_table_lookup {β : Type} : GHashTable β → String → Option β
  | [], _ => none
  | (k, v) :: rest, key => if k = key then some v else g_hash_table_lookup rest key

/-- The call `g_hash_table_insert (table, key, value)`.  A key that is not yet in the
table is added and TRUE is returned.  For a key that is already in the table GLib
keeps the old key, REPLACES the value by the new one and returns FALSE. -/
def g_hash_table_insert {β : Type} : GHashTable β → String → β → GHashTable β × Bool
  | [], key, value => ([(key, value)], true)
  | (k, v) :: rest, key, value =>
    if k = key then ((k, value) :: rest, false)
    else ((k, v) :: (g_hash_table_insert rest key value).1,
          (g_hash_table_insert rest key value).2)

/-- One more than `G_MAXUINT`: `guint` arithmetic is modulo this number. -/
def GUINT_MODULUS : Nat := 4294967296

/-- Conversion of a `guint` to `gint` (two's complement), as in `id = agent->priv->hids++`
with `gint id`. -/
def guint_to_gint (n : Nat) : Int :=
  if n % GUINT_MODULUS < 2147483648 then ((n % GUINT_MODULUS : Nat) : Int)
  else ((n % GUINT_MODULUS : Nat) : Int) - 4294967296

/-- A `GError`: error domain, the name of the error code and the message. -/
structure GError where
  domain : String
  code : String
  message : String
deriving DecidableEq

/-! ## The SDP document model of GStreamer (`gst/sdp`) -/

/-- Result code of the setters of the document model. -/
inductive GstSDPResult where
  | GST_SDP_OK
  | GST_SDP_EINVAL
deriving DecidableEq

/-- The `o=` line. -/
structure GstSDPOrigin where
  username : String
  sess_id : String
  sess_version : String
  nettype : String
  addrtype : String
  addr : String
deriving DecidableEq

/-- A `c=` line. -/
structure GstSDPConnection where
  nettype : String
  addrtype : String
  address : String
  ttl : Nat
  addr_number : Nat
deriving DecidableEq

/-- A `b=` line. -/
structure GstSDPBandwidth where
  bwtype : String
  bandwidth : Nat
deriving DecidableEq

/-- A `k=` line. -/
structure GstSDPKey where
  type : Option String
  data : Option String
deriving DecidableEq

/-- An `a=` line. -/
structure GstSDPAttribute where
  key : String
  value : Option String
deriving DecidableEq

/-- A `t=` line with its repeat times. -/
structure GstSDPTime where
  start : String
  stop : String
  repeat_times : List String
deriving DecidableEq

/-- A media line (`m=`) with everything that hangs below it.  `media` and `proto` are
the media type and the transport protocol of the line; a line of a parsed document
carries both. -/
structure GstSDPMedia where
  media : String
  port : Nat
  num_ports : Nat
  proto : String
  fmts : List String
  information : Option String
  connections : List GstSDPConnection
  bandwidths : List GstSDPBandwidth
  key : GstSDPKey
  attributes : List GstSDPAttribute
deriving DecidableEq

/-- A session description.  A session-level field that has not been set is `none`. -/
structure GstSDPMessage where
  version : Option String
  origin : Option GstSDPOrigin
  session_name : Option String
  connection : Option GstSDPConnection
  times : List GstSDPTime
  medias : List GstSDPMedia
deriving DecidableEq

/-- The verdicts of the document model on the four session-level setters the agent
calls.  GStreamer decides them; the agent only tests the result against `GST_SDP_OK`. -/
structure GstSDPModel where
  set_version : GstSDPMessage → String → GstSDPResult
  set_origin : GstSDPMessage → GstSDPOrigin → GstSDPResult
  set_session_name : GstSDPMessage → String → GstSDPResult
  set_connection : GstSDPMessage → GstSDPConnection → GstSDPResult

/-- An empty message, as left by `gst_sdp_message_new`. -/
def gst_sdp_message_new : GstSDPMessage :=
  { version := none, origin := none, session_name := none, connection := none,
    times := [], medias := [] }

/-- The setter `gst_sdp_message_set_version`: the field is written when the model accepts it. -/
def gst_sdp_message_set_version (model : GstSDPModel) (msg : GstSDPMessage)
    (version : String) : GstSDPMessage × GstSDPResult :=
  match model.set_version msg version with
  | .GST_SDP_OK => ({ msg with version := some version }, .GST_SDP_OK)
  | r => (msg, r)

/-- The setter `gst_sdp_message_set_origin`. -/
def gst_sdp_message_set_origin (model : GstSDPModel) (msg : GstSDPMessage)
    (username sess_id sess_version nettype addrtype addr : String) :
    GstSDPMessage × GstSDPResult :=
  match model.set_origin msg ⟨username, sess_id, sess_version, nettype, addrtype, addr⟩ with
  | .GST_SDP_OK =>
    ({ msg with origin := some ⟨username, sess_id, sess_version, nettype, addrtype, addr⟩ },
      .GST_SDP_OK)
  | r => (msg, r)

/-- The setter `gst_sdp_message_set_session_name`. -/
def gst_sdp_message_set_session_name (model : GstSDPModel) (msg : GstSDPMessage)
    (session_name : String) : GstSDPMessage × GstSDPResult :=
  match model.set_session_name msg session_name with
  | .GST_SDP_OK => ({ msg with session_name := some session_name }, .GST_SDP_OK)
  | r => (msg, r)

/-- The setter `gst_sdp_message_set_connection`. -/
def gst_sdp_message_set_connection (model : GstSDPModel) (msg : GstSDPMessage)
    (nettype addrtype address : String) (ttl addr_number : Nat) :
    GstSDPMessage × GstSDPResult :=
  match model.set_connection msg ⟨nettype, addrtype, address, ttl, addr_number⟩ with
  | .GST_SDP_OK =>
    ({ msg with connection := some ⟨nettype, addrtype, address, ttl, addr_number⟩ },
      .GST_SDP_OK)
  | r => (msg, r)

/-- The call `gst_sdp_message_add_media`: the media line is appended to the message. -/
def gst_sdp_message_add_media (msg : GstSDPMessage) (media : GstSDPMedia) : GstSDPMessage :=
  { msg with medias := msg.medias ++ [media] }

/-- The call `gst_sdp_message_add_time`: a timing entry is appended to the message. -/
def gst_sdp_message_add_time (msg : GstSDPMessage) (start stop : String)
    (repeat_times : List String) : GstSDPMessage :=
  { msg with times := msg.times ++ [⟨start, stop, repeat_times⟩] }

/-- An empty media line, as left by `gst_sdp_media_new` (the strings are NULL there;
`reject_media_answer` overwrites both before the line is used). -/
def gst_sdp_media_new : GstSDPMedia :=
  { media := "", port := 0, num_ports := 0, proto := "", fmts := [], information := none,
    connections := [], bandwidths := [], key := ⟨none, none⟩, attributes := [] }

def gst_sdp_media_get_media (media : GstSDPMedia) : String := media.media

def gst_sdp_media_get_proto (media : GstSDPMedia) : String := media.proto

def gst_sdp_media_set_media (media : GstSDPMedia) (med : String) : GstSDPMedia :=
  { media with media := med }

def gst_sdp_media_set_port_info (media : GstSDPMedia) (port num_ports : Nat) : GstSDPMedia :=
  { media with port := port, num_ports := num_ports }

def gst_sdp_media_set_proto (media : GstSDPMedia) (proto : String) : GstSDPMedia :=
  { media with proto := proto }

def gst_sdp_media_formats_len (media : GstSDPMedia) : Nat := media.fmts.length

/-- The call `gst_sdp_media_get_format (media, idx)` for an index below the length. -/
def gst_sdp_media_get_format (media : GstSDPMedia) (idx : Nat) : String :=
  media.fmts.getD idx ""

/-- The call `gst_sdp_media_insert_format (media, idx, format)`: the format is inserted
at position `idx` of the format array. -/
def gst_sdp_media_insert_format (media : GstSDPMedia) (idx : Nat) (format : String) :
    GstSDPMedia :=
  { media with fmts := media.fmts.take idx ++ format :: media.fmts.drop idx }

/-! ## Media handlers -/

/-- A `KmsSdpMediaHandler` as the agent sees it: the value of its `proto` property
(NULL when the handler has none) and its two virtual methods.  Each method returns
a media pointer (possibly NULL) and may set an error; nothing ties the two together. -/
structure KmsSdpMediaHandler where
  proto : Option String
  create_offer : String → Option GstSDPMedia × Option GError
  create_answer : GstSDPMedia → Option GstSDPMedia × Option GError

def kms_sdp_media_handler_create_offer (handler : KmsSdpMediaHandler) (media : String) :
    Option GstSDPMedia × Option GError :=
  handler.create_offer media

def kms_sdp_media_handler_create_answer (handler : KmsSdpMediaHandler)
    (offer : GstSDPMedia) : Option GstSDPMedia × Option GError :=
  handler.create_answer offer

/-! ## The agent state -/

/-- The struct `SdpHandler`: an entry of the ordered handler list. -/
structure SdpHandler where
  id : Nat
  media : String
  handler : KmsSdpMediaHandler

/-- The struct `SdpHandlerGroup`: a bundle group and its members. -/
structure SdpHandlerGroup where
  id : Nat
  handlers : List SdpHandler

/-- The struct `_KmsSdpAgentPrivate` without its mutex. -/
structure KmsSdpAgentPrivate where
  local_description : Option GstSDPMessage
  remote_description : Option GstSDPMessage
  use_ipv6 : Bool
  bundle : Bool
  medias : GHashTable (GHashTable KmsSdpMediaHandler)
  handlers : List SdpHandler
  groups : List SdpHandlerGroup
  hids : Nat
  gids : Nat

/-- The agent after `kms_sdp_agent_new`: `kms_sdp_agent_init` creates the empty `medias`
table, everything else is zero, and both properties have their FALSE default. -/
def kms_sdp_agent_new : KmsSdpAgentPrivate :=
  { local_description := none, remote_description := none, use_ipv6 := false,
    bundle := false, medias := [], handlers := [], groups := [], hids := 0, gids := 0 }

def kms_sdp_context_new_sdp_handler (id : Nat) (media : String)
    (handler : KmsSdpMediaHandler) : SdpHandler :=
  { id := id, media := media, handler := handler }

def ORIGIN_ATTR_NETTYPE : String := "IN"
def ORIGIN_ATTR_ADDR_TYPE_IP4 : String := "IP4"
def ORIGIN_ATTR_ADDR_TYPE_IP6 : String := "IP6"
def DEFAULT_IP4_ADDR : String := "0.0.0.0"
def DEFAULT_IP6_ADDR : String := "::"
def KMS_SDP_AGENT_ERROR : String := "KMS_SDP_AGENT_ERROR"

/-- What `g_set_error` leaves at the `error:` label of
`kms_sdp_agent_set_default_session_attributes`. -/
def session_attr_error (err_attr : String) : GError :=
  { domain := KMS_SDP_AGENT_ERROR, code := "SDP_AGENT_INVALID_PARAMETER",
    message := "Can not set attr: " ++ err_attr }

/-- The function `kms_sdp_agent_set_default_session_attributes`: the message as the
function leaves it, and the error it sets (`none` when it returns TRUE). -/
def kms_sdp_agent_set_default_session_attributes (model : GstSDPModel)
    (agent : KmsSdpAgentPrivate) (offer : GstSDPMessage) : GstSDPMessage × Option GError :=
  let addrtype := if agent.use_ipv6 then ORIGIN_ATTR_ADDR_TYPE_IP6 else ORIGIN_ATTR_ADDR_TYPE_IP4
  let addr := if agent.use_ipv6 then DEFAULT_IP6_ADDR else DEFAULT_IP4_ADDR
  let r1 := gst_sdp_message_set_version model offer "0"
  if r1.2 ≠ .GST_SDP_OK then (r1.1, some (session_attr_error "version")) else
  let r2 := gst_sdp_message_set_origin model r1.1 "-" "0" "0" ORIGIN_ATTR_NETTYPE addrtype addr
  if r2.2 ≠ .GST_SDP_OK then (r2.1, some (session_attr_error "origin")) else
  let r3 := gst_sdp_message_set_session_name model r2.1 "Kurento Media Server"
  if r3.2 ≠ .GST_SDP_OK then (r3.1, some (session_attr_error "session")) else
  let r4 := gst_sdp_message_set_connection model r3.1 ORIGIN_ATTR_NETTYPE addrtype addr 0 0
  if r4.2 ≠ .GST_SDP_OK then (r4.1, some (session_attr_error "connection")) else
  (r4.1, none)

/-- The function `kms_sdp_agent_add_proto_handler_impl`: the agent afterwards and the
returned `gint`.  The per-media table is a pointer in C, so the insertion into it is
seen through `medias`: the table stored under `media` is the one after the insertion. -/
def kms_sdp_agent_add_proto_handler_impl (agent : KmsSdpAgentPrivate) (media : String)
    (handler : KmsSdpMediaHandler) : KmsSdpAgentPrivate × Int :=
  match handler.proto with
  | none => (agent, -1)
  | some proto =>
    let handlers : GHashTable KmsSdpMediaHandler :=
      match g_hash_table_lookup agent.medias media with
      | some handlers => handlers
      | none => []
    let inserted := g_hash_table_insert handlers proto handler
    let medias := (g_hash_table_insert agent.medias media inserted.1).1
    if inserted.2 then
      let id := agent.hids % GUINT_MODULUS
      ({ agent with
          medias := medias,
          hids := (agent.hids + 1) % GUINT_MODULUS,
          handlers := agent.handlers ++ [kms_sdp_context_new_sdp_handler id media handler] },
        guint_to_gint id)
    else
      ({ agent with medias := medias }, -1)

/-! ## The message context (`kmssdpcontext.c`) and `sdp_utils.c` -/

/-- Modelled from the spec: the struct `SdpMediaConfig` of `kmssdpcontext.c`, which is not
among the sources.  It is the opaque media handle the context gives out for a media
description appended to it: the position of the media in the context and the media
pointer the context was given. -/
structure SdpMediaConfig where
  id : Nat
  media : Option GstSDPMedia
deriving DecidableEq

/-- Modelled from the spec: the struct `SdpMediaGroup` of `kmssdpcontext.c`, the
per-document group context keyed by a group id, with the media handles associated
with it. -/
structure SdpMediaGroup where
  id : Nat
  medias : List SdpMediaConfig
deriving DecidableEq

/-- Modelled from the spec: the struct `SdpMessageContext` of `kmssdpcontext.c`, the
output document context: the media appended so far and the group contexts. -/
structure SdpMessageContext where
  medias : List SdpMediaConfig
  groups : List SdpMediaGroup
deriving DecidableEq

/-- Modelled from the spec: `kms_sdp_context_new_message_context` of `kmssdpcontext.c`
creates an empty output document context. -/
def kms_sdp_context_new_message_context : SdpMessageContext :=
  { medias := [], groups := [] }

/-- Modelled from the spec: `kms_sdp_context_add_media` of `kmssdpcontext.c` appends the
media description to the output document and returns the media handle. -/
def kms_sdp_context_add_media (ctx : SdpMessageContext) (media : Option GstSDPMedia) :
    SdpMessageContext × SdpMediaConfig :=
  ({ ctx with medias := ctx.medias ++ [⟨ctx.medias.length, media⟩] },
    ⟨ctx.medias.length, media⟩)

/-- Modelled from the spec: `kms_sdp_context_get_group` of `kmssdpcontext.c` fetches the
group context keyed by the group id, NULL when the document has none yet. -/
def kms_sdp_context_get_group (ctx : SdpMessageContext) (gid : Nat) : Option SdpMediaGroup :=
  ctx.groups.find? (fun g => g.id = gid)

/-- Modelled from the spec: `kms_sdp_context_create_group` of `kmssdpcontext.c` creates the
(empty) group context keyed by the group id. -/
def kms_sdp_context_create_group (ctx : SdpMessageContext) (gid : Nat) : SdpMessageContext :=
  { ctx with groups := ctx.groups ++ [⟨gid, []⟩] }

/-- The group contexts after one of them has been given one more media handle: the
first group context keyed by `gid` is the one a group pointer obtained from
`kms_sdp_context_get_group` or `kms_sdp_context_create_group` designates. -/
def group_add_media (gid : Nat) (m_conf : SdpMediaConfig) :
    List SdpMediaGroup → List SdpMediaGroup
  | [] => []
  | g :: rest =>
    if g.id = gid then { g with medias := g.medias ++ [m_conf] } :: rest
    else g :: group_add_media gid m_conf rest

/-- Modelled from the spec: `kms_sdp_context_add_media_to_group` of `kmssdpcontext.c`
associates the media handle with the group context; the group pointer of the C
code is the group id here. -/
def kms_sdp_context_add_media_to_group (ctx : SdpMessageContext) (gid : Nat)
    (m_conf : SdpMediaConfig) : SdpMessageContext :=
  { ctx with groups := group_add_media gid m_conf ctx.groups }

/-- Modelled from the spec: `sdp_mesage_context_pack` of `kmssdpcontext.c` serialises the
context into a document: the media lines of the context, in the order in which they
were appended.  How group contexts become attribute lines is the affair of the
document model and is not part of this document. -/
def sdp_mesage_context_pack (ctx : SdpMessageContext) : GstSDPMessage :=
  { gst_sdp_message_new with medias := ctx.medias.filterMap (fun m_conf => m_conf.media) }

/-- Modelled from the spec: `sdp_utils_for_each_media` of `sdp_utils.c`, which is not among
the sources, hands the media lines of the message to the callback one by one, in the
order of the message; it stops and returns FALSE as soon as the callback returns
FALSE, and returns TRUE when every line has been visited. -/
def for_each_media_from {σ : Type} (func : GstSDPMedia → σ → σ × Bool) :
    List GstSDPMedia → σ → σ × Bool
  | [], user_data => (user_data, true)
  | media :: rest, user_data =>
    if (func media user_data).2 then for_each_media_from func rest (func media user_data).1
    else ((func media user_data).1, false)

/-- Modelled from the spec: `sdp_utils_for_each_media (msg, func, user_data)`, see
`for_each_media_from`. -/
def sdp_utils_for_each_media {σ : Type} (msg : GstSDPMessage)
    (func : GstSDPMedia → σ → σ × Bool) (user_data : σ) : σ × Bool :=
  for_each_media_from func msg.medias user_data

/-! ## Offers -/

/-- The struct `sdp_offer_data`. -/
structure sdp_offer_data where
  ctx : SdpMessageContext
  agent : KmsSdpAgentPrivate

/-- The inner loop of `create_media_offers` over the members of one group: every member
with the id of `sdp_handler` attaches the media handle to the group context of
`group`, which is created when the document has none. -/
def create_media_offers_members (sdp_handler : SdpHandler) (m_conf : SdpMediaConfig)
    (group : SdpHandlerGroup) : List SdpHandler → SdpMessageContext → SdpMessageContext
  | [], ctx => ctx
  | h :: ll, ctx =>
    if sdp_handler.id ≠ h.id then
      create_media_offers_members sdp_handler m_conf group ll ctx
    else
      let ctx1 :=
        match kms_sdp_context_get_group ctx group.id with
        | some _ => ctx
        | none => kms_sdp_context_create_group ctx group.id
      create_media_offers_members sdp_handler m_conf group ll
        (kms_sdp_context_add_media_to_group ctx1 group.id m_conf)

/-- The outer loop of `create_media_offers` over the groups of the agent. -/
def create_media_offers_groups (sdp_handler : SdpHandler) (m_conf : SdpMediaConfig) :
    List SdpHandlerGroup → SdpMessageContext → SdpMessageContext
  | [], ctx => ctx
  | group :: l, ctx =>
    create_media_offers_groups sdp_handler m_conf l
      (create_media_offers_members sdp_handler m_conf group group.handlers ctx)

/-- The function `create_media_offers`, the callback of `g_slist_foreach` over the handler
list: the offer data as the callback leaves it. -/
def create_media_offers (sdp_handler : SdpHandler) (data : sdp_offer_data) : sdp_offer_data :=
  let r := kms_sdp_media_handler_create_offer sdp_handler.handler sdp_handler.media
  match r.2 with
  | some _ => data
  | none =>
    let added := kms_sdp_context_add_media data.ctx r.1
    { data with
        ctx := create_media_offers_groups sdp_handler added.2 data.agent.groups added.1 }

/-- The call `g_slist_foreach (list, func, user_data)`: the callback runs on every element,
first to last. -/
def g_slist_foreach {α σ : Type} (list : List α) (func : α → σ → σ) (user_data : σ) : σ :=
  list.foldl (fun data x => func x data) user_data

/-- The context `kms_sdp_agent_create_offer_impl` hands to `sdp_mesage_context_pack`. -/
def create_offer_context (agent : KmsSdpAgentPrivate) : SdpMessageContext :=
  (g_slist_foreach agent.handlers create_media_offers
    { ctx := kms_sdp_context_new_message_context, agent := agent }).ctx

/-- The function `kms_sdp_agent_create_offer_impl`.  The call of
`kms_sdp_agent_set_default_session_attributes` is commented out in the source, the
function never touches `error`, and it returns what the context packs to. -/
def kms_sdp_agent_create_offer_impl (agent : KmsSdpAgentPrivate) : Except GError GstSDPMessage :=
  .ok (sdp_mesage_context_pack (create_offer_context agent))

/-! ## Answers -/

/-- The struct `sdp_answer_data`. -/
structure sdp_answer_data where
  agent : KmsSdpAgentPrivate
  answer : GstSDPMessage

/-- The function `reject_media_answer`. -/
def reject_media_answer (offered : GstSDPMedia) : GstSDPMedia :=
  let media := gst_sdp_media_new
  let media := gst_sdp_media_set_media media (gst_sdp_media_get_media offered)
  let media := gst_sdp_media_set_port_info media 0 1
  let media := gst_sdp_media_set_proto media (gst_sdp_media_get_proto offered)
  let len := gst_sdp_media_formats_len offered
  (List.range len).foldl
    (fun media i => gst_sdp_media_insert_format media i (gst_sdp_media_get_format offered i))
    media

/-- The handler `create_media_answer` finds for the offered line under the agent lock:
the two lookups, by media type and then by protocol. -/
def lookup_handler (agent : KmsSdpAgentPrivate) (media : GstSDPMedia) :
    Option KmsSdpMediaHandler :=
  match g_hash_table_lookup agent.medias (gst_sdp_media_get_media media) with
  | none => none
  | some handlers => g_hash_table_lookup handlers (gst_sdp_media_get_proto media)

/-- The value of `answer_media` when `create_media_answer` reaches
`gst_sdp_message_add_media`: what the handler found for the line returned, and the
rejection line when no handler was found or the handler returned NULL.  An error set
by the handler is logged and freed; `answer_media` stays what the handler returned. -/
def answer_media_of (agent : KmsSdpAgentPrivate) (media : GstSDPMedia) : GstSDPMedia :=
  let answer_media : Option GstSDPMedia :=
    match lookup_handler agent media with
    | none => none
    | some handler => (kms_sdp_media_handler_create_answer handler media).1
  match answer_media with
  | none => reject_media_answer media
  | some m => m

/-- The function `create_media_answer`, the callback of `sdp_utils_for_each_media`: the
answer data as the callback leaves it, and the returned `gboolean`. -/
def create_media_answer (media : GstSDPMedia) (data : sdp_answer_data) :
    sdp_answer_data × Bool :=
  let agent := data.agent
  let answer := data.answer
  ({ data with answer := gst_sdp_message_add_media answer (answer_media_of agent media) },
    true)

/-- The macro `GLIB_SIZEOF_VOID_P` of a 64-bit platform: the bytes of a pointer. -/
def GLIB_SIZEOF_VOID_P : Nat := 8

/-- A `GArray`: the number of its elements (`len`) and the bytes of its data, one `gchar`
each, in memory order.  `none` is a byte the embedding does not know, such as a byte
of a pointer to a string on the heap. -/
structure GArray where
  len : Nat
  data : List (Option Char)
deriving DecidableEq

/-- The `repeat` array of a `GstSDPTime`: one pointer to a string for every repeat time.
The bytes of these pointers are heap addresses, which the embedding does not know. -/
def GstSDPTime.repeat_array (time : GstSDPTime) : GArray :=
  { len := time.repeat_times.length,
    data := List.replicate (GLIB_SIZEOF_VOID_P * time.repeat_times.length) none }

/-- A `gchar *` in a string vector: NULL, a string, or what `g_strdup` returned after
reading a byte the embedding does not know or a byte behind the end of the data. -/
inductive StrPointer where
  | null
  | string (s : String)
  | unknown
deriving DecidableEq

/-- The bytes a reader of a NUL-terminated string finds from the first byte of `data` up to
the first NUL byte; `none` when it meets an unknown byte or the end of the data
before a NUL byte. -/
def c_string : List (Option Char) → Option (List Char)
  | [] => none
  | none :: _ => none
  | some c :: rest =>
    if c.toNat = 0 then some [] else (c_string rest).map (fun cs => c :: cs)

/-- The two statements `val = &g_array_index (array, gchar, i); g_strdup (val)`:
`g_array_index (array, gchar, i)` is byte `i` of the array data, whatever the size of
the elements of the array, so the copy is that of the string that starts at byte `i`. -/
def g_strdup_byte (array : GArray) (i : Nat) : StrPointer :=
  match c_string (array.data.drop i) with
  | some cs => .string (String.mk cs)
  | none => .unknown

/-- A string vector under construction: the slots of the allocation (`none` is a slot
that has not been written) and the indices of the stores that fell outside the
allocation. -/
structure StrVector where
  slots : List (Option StrPointer)
  out_of_bounds : List Nat
deriving DecidableEq

/-- The store `str_array[i] = x`. -/
def StrVector.store (v : StrVector) (i : Nat) (x : StrPointer) : StrVector :=
  if i < v.slots.length then { v with slots := v.slots.set i (some x) }
  else { v with out_of_bounds := v.out_of_bounds ++ [i] }

/-- The function `array_to_strvector`: `g_new (gchar *, n)` gives `n` unwritten slots,
`n` is a `guint`, the store of NULL goes to the index `n`, and the loop stores at the
index `i` what `g_strdup` returns for the address of byte `i` of the array data. -/
def array_to_strvector (array : GArray) : StrVector :=
  let n := (array.len + 1) % GUINT_MODULUS
  let str_array : StrVector := { slots := List.replicate n none, out_of_bounds := [] }
  let str_array := str_array.store n .null
  (List.range array.len).foldl
    (fun str_array i => str_array.store i (g_strdup_byte array i)) str_array

/-- The strings a reader of a NULL-terminated vector finds from the first slot up to the
first NULL; `none`, no defined result, when it meets a slot that was never written or
an unknown pointer, or the end of the allocation, before a NULL. -/
def read_strv : List (Option StrPointer) → Option (List String)
  | [] => none
  | some .null :: _ => some []
  | some (.string s) :: rest => (read_strv rest).map (fun strings => s :: strings)
  | some .unknown :: _ => none
  | none :: _ => none

/-- What the readers of the vector (`gst_sdp_message_add_time`, `g_strfreev`) get from it:
no defined result after a store outside the allocation, and otherwise what `read_strv`
finds in the slots. -/
def StrVector.strings (v : StrVector) : Option (List String) :=
  if v.out_of_bounds = [] then read_strv v.slots else none

/-- The function `sdp_copy_timming_attrs`: the message `dest` after the loop over the
timing entries of `src`, `none` when a call of the loop body has no defined result. -/
def sdp_copy_timming_attrs (src dest : GstSDPMessage) : Option GstSDPMessage :=
  src.times.foldl
    (fun dest time =>
      match dest with
      | none => none
      | some dest =>
        match (array_to_strvector time.repeat_array).strings with
        | none => none
        | some repeat_times =>
          some (gst_sdp_message_add_time dest time.start time.stop repeat_times))
    (some dest)

/-- The error `kms_sdp_agent_create_answer_impl` sets when the media iteration fails. -/
def create_answer_unexpected_error : GError :=
  { domain := KMS_SDP_AGENT_ERROR, code := "SDP_AGENT_UNEXPECTED_ERROR",
    message := " create SDP response" }

/-- The function `kms_sdp_agent_create_answer_impl`: the answer, or the error set when
NULL is returned.  The call of `sdp_copy_timming_attrs` stands under the constant
guard FALSE and is never made; the branch that is never taken reads the message the
call would leave where it has a defined result. -/
def kms_sdp_agent_create_answer_impl (model : GstSDPModel) (agent : KmsSdpAgentPrivate)
    (offer : GstSDPMessage) : Except GError GstSDPMessage :=
  let answer := gst_sdp_message_new
  match kms_sdp_agent_set_default_session_attributes model agent answer with
  | (_, some err) => .error err
  | (answer, none) =>
    let answer := if false then (sdp_copy_timming_attrs offer answer).getD answer else answer
    match sdp_utils_for_each_media offer create_media_answer
        { agent := agent, answer := answer } with
    | (_, false) => .error create_answer_unexpected_error
    | (data, true) => .ok data.answer


/-! ## Descriptions, bundle groups, properties -/

/-- The function `kms_sdp_agent_set_local_description_impl`: its body is the comment
`TODO:`, so the agent is left as it was. -/
def kms_sdp_agent_set_local_description_impl (agent : KmsSdpAgentPrivate)
    (_description : GstSDPMessage) : KmsSdpAgentPrivate :=
  agent

/-- The function `kms_sdp_agent_set_remote_description_impl`: its body is the comment
`TODO:`, so the agent is left as it was. -/
def kms_sdp_agent_set_remote_description_impl (agent : KmsSdpAgentPrivate)
    (_description : GstSDPMessage) : KmsSdpAgentPrivate :=
  agent

/-- The function `new_sdp_handler_group`: a group with the id and no member. -/
def new_sdp_handler_group (id : Nat) : SdpHandlerGroup :=
  { id := id, handlers := [] }

/-- The function `kms_sdp_agent_create_bundle_group_impl`: the agent afterwards and the
returned `gint` (`guint id = agent->priv->gids++` returned through `gint`). -/
def kms_sdp_agent_create_bundle_group_impl (agent : KmsSdpAgentPrivate) :
    KmsSdpAgentPrivate × Int :=
  let id := agent.gids % GUINT_MODULUS
  ({ agent with
      gids := (agent.gids + 1) % GUINT_MODULUS,
      groups := agent.groups ++ [new_sdp_handler_group id] },
    guint_to_gint id)

/-- The function `kms_sdp_agent_get_group`: the first group of the list with the id. -/
def kms_sdp_agent_get_group (agent : KmsSdpAgentPrivate) (gid : Nat) :
    Option SdpHandlerGroup :=
  agent.groups.find? (fun group => group.id = gid)

/-- The function `kms_sdp_agent_get_handler`: the first entry of the handler list with
the id. -/
def kms_sdp_agent_get_handler (agent : KmsSdpAgentPrivate) (hid : Nat) : Option SdpHandler :=
  agent.handlers.find? (fun handler => handler.id = hid)

/-- The group list after `group->handlers = g_slist_append (group->handlers, handler)`
on the group `kms_sdp_agent_get_group` returned for `gid`, the first with that id. -/
def group_append_handler (gid : Nat) (handler : SdpHandler) :
    List SdpHandlerGroup → List SdpHandlerGroup
  | [] => []
  | group :: rest =>
    if group.id = gid then { group with handlers := group.handlers ++ [handler] } :: rest
    else group :: group_append_handler gid handler rest

/-- The function `kms_sdp_agent_add_handler_to_group_impl`: the agent afterwards and the
returned `gboolean`. -/
def kms_sdp_agent_add_handler_to_group_impl (agent : KmsSdpAgentPrivate) (gid hid : Nat) :
    KmsSdpAgentPrivate × Bool :=
  match kms_sdp_agent_get_group agent gid with
  | none => (agent, false)
  | some group =>
    match kms_sdp_agent_get_handler agent hid with
    | none => (agent, false)
    | some handler =>
      if group.handlers.any (fun h => h.id = hid) then (agent, true)
      else ({ agent with groups := group_append_handler gid handler agent.groups }, true)

/-- The properties of the agent (`PROP_0` and `N_PROPERTIES` are no properties). -/
inductive KmsSdpAgentProperty where
  | PROP_BUNDLE
  | PROP_USE_IPV6
  | PROP_LOCAL_DESC
  | PROP_REMOTE_DESC
deriving DecidableEq

/-- What `kms_sdp_agent_get_property` puts into the `GValue`: a boolean or a boxed
description (NULL when there is none). -/
inductive GValue where
  | boolean (v_boolean : Bool)
  | boxed (v_pointer : Option GstSDPMessage)
deriving DecidableEq

/-- The function `kms_sdp_agent_get_property`. -/
def kms_sdp_agent_get_property (agent : KmsSdpAgentPrivate) :
    KmsSdpAgentProperty → GValue
  | .PROP_BUNDLE => .boolean agent.bundle
  | .PROP_LOCAL_DESC => .boxed agent.local_description
  | .PROP_REMOTE_DESC => .boxed agent.remote_description
  | .PROP_USE_IPV6 => .boolean agent.use_ipv6

/-- The function `kms_sdp_agent_set_property` for a boolean value: the two description
properties are not among its cases. -/
def kms_sdp_agent_set_property (agent : KmsSdpAgentPrivate) (prop_id : KmsSdpAgentProperty)
    (value : Bool) : KmsSdpAgentPrivate :=
  match prop_id with
  | .PROP_BUNDLE => { agent with bundle := value }
  | .PROP_USE_IPV6 => { agent with use_ipv6 := value }
  | _ => agent

/-- A call of one of the public operations of the agent. -/
inductive AgentCall where
  | add_proto_handler (media : String) (handler : KmsSdpMediaHandler)
  | create_offer
  | create_answer (model : GstSDPModel) (offer : GstSDPMessage)
  | set_local_description (description : GstSDPMessage)
  | set_remote_description (description : GstSDPMessage)
  | crate_bundle_group
  | add_handler_to_group (gid hid : Nat)
  | set_property (prop_id : KmsSdpAgentProperty) (value : Bool)
  | get_property (prop_id : KmsSdpAgentProperty)

/-- The agent after a call.  `create_offer`, `create_answer` and `get_property` only read
the private data. -/
def AgentCall.run (agent : KmsSdpAgentPrivate) : AgentCall → KmsSdpAgentPrivate
  | .add_proto_handler media handler =>
    (kms_sdp_agent_add_proto_handler_impl agent media handler).1
  | .create_offer => agent
  | .create_answer _ _ => agent
  | .set_local_description description =>
    kms_sdp_agent_set_local_description_impl agent description
  | .set_remote_description description =>
    kms_sdp_agent_set_remote_description_impl agent description
  | .crate_bundle_group => (kms_sdp_agent_create_bundle_group_impl agent).1
  | .add_handler_to_group gid hid => (kms_sdp_agent_add_handler_to_group_impl agent gid hid).1
  | .set_property prop_id value => kms_sdp_agent_set_property agent prop_id value
  | .get_property _ => agent

/-- The agent after a sequence of calls, first to last. -/
def run_calls : KmsSdpAgentPrivate → List AgentCall → KmsSdpAgentPrivate
  | agent, [] => agent
  | agent, call :: rest => run_calls (call.run agent) rest

/-- Whether the call is a call of `kms_sdp_agent_crate_bundle_group`. -/
def AgentCall.is_crate_bundle_group : AgentCall → Bool
  | .crate_bundle_group => true
  | _ => false

/-! ## Lock events -/

/-- What one call of `create_answer` does with the mutex and with the handlers, in the
order in which it does it: `SDP_AGENT_LOCK`, `SDP_AGENT_UNLOCK`, the entry into
`create_media_answer` for an offered line, the call of the handler's `create_answer`
for the line, and the return from `create_media_answer` after the line was added to the
answer. -/
inductive AgentEvent where
  | lock
  | unlock
  | enter_create_media_answer (media : GstSDPMedia)
  | handler_create_answer (media : GstSDPMedia)
  | leave_create_media_answer (media : GstSDPMedia)
deriving DecidableEq

/-- The events of `kms_sdp_agent_set_default_session_attributes`: the lock is held while the
two address strings are chosen from `use_ipv6`, and released before the setters run. -/
def set_default_session_attributes_events : List AgentEvent :=
  [.lock, .unlock]

/-- The events of `create_media_answer` for an offered line: the lock is taken before the
lookups, the handler (when one is found) is called with the lock held, and the lock is
released before `reject_media_answer` and `gst_sdp_message_add_media`. -/
def create_media_answer_events (agent : KmsSdpAgentPrivate) (media : GstSDPMedia) :
    List AgentEvent :=
  [.enter_create_media_answer media, .lock] ++
    (match lookup_handler agent media with
      | none => []
      | some _ => [.handler_create_answer media]) ++
    [.unlock, .leave_create_media_answer media]

/-- The events of `kms_sdp_agent_create_answer_impl`, which takes no lock itself: those of
the session defaults and, when these succeed, those of `create_media_answer` for every
line of the offer in turn (the callback returns TRUE, so every line is visited). -/
def create_answer_events (model : GstSDPModel) (agent : KmsSdpAgentPrivate)
    (offer : GstSDPMessage) : List AgentEvent :=
  set_default_session_attributes_events ++
    match (kms_sdp_agent_set_default_session_attributes model agent gst_sdp_message_new).2 with
    | some _ => []
    | none => offer.medias.flatMap (create_media_answer_events agent)

/-- The function `kms_sdp_agent_set_default_session_attributes` once more, statement by
statement, with the events of its body next to what it returns: `SDP_AGENT_LOCK`
(line 235) before the two address strings are chosen and `SDP_AGENT_UNLOCK` (line
242) after them, before the first setter. -/
def kms_sdp_agent_set_default_session_attributes_traced (model : GstSDPModel)
    (agent : KmsSdpAgentPrivate) (offer : GstSDPMessage) :
    (GstSDPMessage × Option GError) × List AgentEvent :=
  let events : List AgentEvent := [.lock]
  let addrtype := if agent.use_ipv6 then ORIGIN_ATTR_ADDR_TYPE_IP6 else ORIGIN_ATTR_ADDR_TYPE_IP4
  let addr := if agent.use_ipv6 then DEFAULT_IP6_ADDR else DEFAULT_IP4_ADDR
  let events := events ++ [.unlock]
  let r1 := gst_sdp_message_set_version model offer "0"
  if r1.2 ≠ .GST_SDP_OK then ((r1.1, some (session_attr_error "version")), events) else
  let r2 := gst_sdp_message_set_origin model r1.1 "-" "0" "0" ORIGIN_ATTR_NETTYPE addrtype addr
  if r2.2 ≠ .GST_SDP_OK then ((r2.1, some (session_attr_error "origin")), events) else
  let r3 := gst_sdp_message_set_session_name model r2.1 "Kurento Media Server"
  if r3.2 ≠ .GST_SDP_OK then ((r3.1, some (session_attr_error "session")), events) else
  let r4 := gst_sdp_message_set_connection model r3.1 ORIGIN_ATTR_NETTYPE addrtype addr 0 0
  if r4.2 ≠ .GST_SDP_OK then ((r4.1, some (session_attr_error "connection")), events) else
  ((r4.1, none), events)

/-- The function `create_media_answer` once more, statement by statement, with the events of
its body next to what it returns: `SDP_AGENT_LOCK` (line 430) before the two lookups,
the call of the handler's `create_answer` (line 443) where a handler is found,
`SDP_AGENT_UNLOCK` (line 454) before `reject_media_answer` and
`gst_sdp_message_add_media`. -/
def create_media_answer_traced (media : GstSDPMedia) (data : sdp_answer_data) :
    (sdp_answer_data × Bool) × List AgentEvent :=
  let agent := data.agent
  let answer := data.answer
  let events : List AgentEvent := [.enter_create_media_answer media]
  let events := events ++ [.lock]
  let called : Option GstSDPMedia × List AgentEvent :=
    match g_hash_table_lookup agent.medias (gst_sdp_media_get_media media) with
    | none => (none, events)
    | some handlers =>
      match g_hash_table_lookup handlers (gst_sdp_media_get_proto media) with
      | none => (none, events)
      | some handler =>
        ((kms_sdp_media_handler_create_answer handler media).1,
          events ++ [.handler_create_answer media])
  let events := called.2 ++ [.unlock]
  let answer_media :=
    match called.1 with
    | none => reject_media_answer media
    | some answer_media => answer_media
  (({ data with answer := gst_sdp_message_add_media answer answer_media }, true),
    events ++ [.leave_create_media_answer media])

/-- Modelled from the spec: `sdp_utils_for_each_media` as in `for_each_media_from`, for a
callback that yields events: the events of the calls of the callback, in the order
of the calls. -/
def for_each_media_traced {σ : Type}
    (func : GstSDPMedia → σ → (σ × Bool) × List AgentEvent) :
    List GstSDPMedia → σ → (σ × Bool) × List AgentEvent
  | [], user_data => ((user_data, true), [])
  | media :: rest, user_data =>
    if (func media user_data).1.2 then
      ((for_each_media_traced func rest (func media user_data).1.1).1,
        (func media user_data).2 ++
          (for_each_media_traced func rest (func media user_data).1.1).2)
    else (((func media user_data).1.1, false), (func media user_data).2)

/-- The function `kms_sdp_agent_create_answer_impl` once more, statement by statement, with
the events of the functions it calls next to what it returns.  The function itself
contains neither `SDP_AGENT_LOCK` nor `SDP_AGENT_UNLOCK`. -/
def kms_sdp_agent_create_answer_impl_traced (model : GstSDPModel)
    (agent : KmsSdpAgentPrivate) (offer : GstSDPMessage) :
    Except GError GstSDPMessage × List AgentEvent :=
  let answer := gst_sdp_message_new
  let defaults := kms_sdp_agent_set_default_session_attributes_traced model agent answer
  match defaults.1 with
  | (_, some err) => (.error err, defaults.2)
  | (answer, none) =>
    let answer := if false then (sdp_copy_timming_attrs offer answer).getD answer else answer
    let visited := for_each_media_traced create_media_answer_traced offer.medias
      { agent := agent, answer := answer }
    match visited.1 with
    | (_, false) => (.error create_answer_unexpected_error, defaults.2 ++ visited.2)
    | (data, true) => (.ok data.answer, defaults.2 ++ visited.2)

/-- Whether the event is the entry into or the return from `create_media_answer`. -/
def AgentEvent.is_media_boundary : AgentEvent → Bool
  | .enter_create_media_answer _ => true
  | .leave_create_media_answer _ => true
  | _ => false

/-- Whether the event is `SDP_AGENT_UNLOCK`. -/
def AgentEvent.is_unlock : AgentEvent → Bool
  | .unlock => true
  | _ => false

/-- Whether the mutex is held after the events, given whether it was held before. -/
def lock_held_after (held : Bool) : List AgentEvent → Bool
  | [] => held
  | .lock :: rest => lock_held_after true rest
  | .unlock :: rest => lock_held_after false rest
  | _ :: rest => lock_held_after held rest

/-- The events from the entry into `create_media_answer` for the first line to the return
from it for the last line. -/
def media_span (events : List AgentEvent) : List AgentEvent :=
  ((events.dropWhile (fun e => !e.is_media_boundary)).reverse.dropWhile
    (fun e => !e.is_media_boundary)).reverse

/-- Whether the mutex is held from before the first line is processed until after the
last one: it is held when the first line is entered and not released before the last
line is left. -/
def lock_held_over_media_lines (events : List AgentEvent) : Bool :=
  (media_span events).isEmpty ||
    (lock_held_after false (events.takeWhile (fun e => !e.is_media_boundary)) &&
      (media_span events).all (fun e => !e.is_unlock))

/-- The locking discipline of the events, given whether the mutex is held before them: the
mutex is never locked while held nor unlocked while free, a handler is called only
with the mutex held, the mutex is free at the entry into and at the return from
`create_media_answer`, and it is free after the last event. -/
def well_locked (held : Bool) : List AgentEvent → Bool
  | [] => !held
  | .lock :: rest => !held && well_locked true rest
  | .unlock :: rest => held && well_locked false rest
  | .handler_create_answer _ :: rest => held && well_locked held rest
  | .enter_create_media_answer _ :: rest => !held && well_locked held rest
  | .leave_create_media_answer _ :: rest => !held && well_locked held rest

/-! ## Sample handlers, agents and documents -/

/-- A document model that accepts every field. -/
def accepting_model : GstSDPModel :=
  { set_version := fun _ _ => .GST_SDP_OK, set_origin := fun _ _ => .GST_SDP_OK,
    set_session_name := fun _ _ => .GST_SDP_OK, set_connection := fun _ _ => .GST_SDP_OK }

/-- An offered audio line. -/
def sample_audio : GstSDPMedia :=
  { media := "audio", port := 5004, num_ports := 1, proto := "RTP/AVP", fmts := ["0", "8"],
    information := none, connections := [], bandwidths := [], key := ⟨none, none⟩,
    attributes := [⟨"sendrecv", none⟩] }

/-- An offered video line. -/
def sample_video : GstSDPMedia :=
  { media := "video", port := 5006, num_ports := 1, proto := "RTP/AVP", fmts := ["96"],
    information := none, connections := [], bandwidths := [], key := ⟨none, none⟩,
    attributes := [⟨"rtpmap", some "96 VP8/90000"⟩] }

/-- An offer with an audio and a video line. -/
def sample_offer : GstSDPMessage :=
  { version := some "0", origin := some ⟨"-", "1", "1", "IN", "IP4", "192.0.2.1"⟩,
    session_name := some "call", connection := none, times := [⟨"0", "0", []⟩],
    medias := [sample_audio, sample_video] }

/-- A handler for `proto` that answers every line on `port` and never sets an error. -/
def sample_handler (proto : String) (port : Nat) : KmsSdpMediaHandler :=
  { proto := some proto,
    create_offer := fun media =>
      (some { gst_sdp_media_new with
                media := media, port := port, num_ports := 1, proto := proto, fmts := ["0"] },
        none),
    create_answer := fun offered => (some { offered with port := port }, none) }

/-- The error the failing sample handlers set. -/
def sample_error : GError :=
  { domain := "handler", code := "FAILED", message := "can not negotiate" }

/-- A handler for `proto` whose two methods return NULL and set an error. -/
def failing_handler (proto : String) : KmsSdpMediaHandler :=
  { proto := some proto,
    create_offer := fun _ => (none, some sample_error),
    create_answer := fun _ => (none, some sample_error) }

/-- A handler for `proto` whose `create_answer` sets an error and returns a media
description all the same. -/
def careless_handler (proto : String) (port : Nat) : KmsSdpMediaHandler :=
  { proto := some proto,
    create_offer := fun _ => (none, some sample_error),
    create_answer := fun offered => (some { offered with port := port }, some sample_error) }

/-- A fresh agent on which an audio handler has been registered. -/
def audio_agent : KmsSdpAgentPrivate :=
  (kms_sdp_agent_add_proto_handler_impl kms_sdp_agent_new "audio"
    (sample_handler "RTP/AVP" 9)).1

/-- A fresh agent on which a handler with a careless `create_answer` has been registered
for audio. -/
def careless_agent : KmsSdpAgentPrivate :=
  (kms_sdp_agent_add_proto_handler_impl kms_sdp_agent_new "audio"
    (careless_handler "RTP/AVP" 9)).1

/-- A fresh agent on which an audio handler answering on port 9 has been registered, and
after that a second registration for the same media and protocol, by a handler
answering on port 7, has been attempted. -/
def twice_registered_agent : KmsSdpAgentPrivate :=
  (kms_sdp_agent_add_proto_handler_impl audio_agent "audio" (sample_handler "RTP/AVP" 7)).1

/-- An offer with one audio line. -/
def audio_offer : GstSDPMessage :=
  { sample_offer with medias := [sample_audio] }

/-- Whether the registry holds a handler under the media label and the protocol: the
two lookups of `create_media_answer`. -/
def has_binding (medias : GHashTable (GHashTable KmsSdpMediaHandler))
    (media proto : String) : Bool :=
  match g_hash_table_lookup medias media with
  | none => false
  | some handlers => (g_hash_table_lookup handlers proto).isSome

/-- A sequence of `add_handler` calls, first to last: the agent afterwards and the
value each call returned. -/
def add_proto_handlers :
    KmsSdpAgentPrivate → List (String × KmsSdpMediaHandler) → KmsSdpAgentPrivate × List Int
  | agent, [] => (agent, [])
  | agent, (media, handler) :: rest =>
    ((add_proto_handlers (kms_sdp_agent_add_proto_handler_impl agent media handler).1 rest).1,
      (kms_sdp_agent_add_proto_handler_impl agent media handler).2 ::
        (add_proto_handlers (kms_sdp_agent_add_proto_handler_impl agent media handler).1 rest).2)

/-- The (media label, protocol) pair a call of `add_handler` is about. -/
def binding_key (call : String × KmsSdpMediaHandler) : String × Option String :=
  (call.1, call.2.proto)

/-- The 32 binary digits of a number, lowest first, as a media label. -/
def binary_label (i : Nat) : String :=
  String.mk ((List.range 32).map (fun b => if i.testBit b then '1' else '0'))

/-- One more than 2 ^ 31 registrations, each for a media label of its own. -/
def many_calls : List (String × KmsSdpMediaHandler) :=
  (List.range 2147483649).map (fun i => (binary_label i, sample_handler "RTP/AVP" 9))

/-- A document model that rejects every field. -/
def rejecting_model : GstSDPModel :=
  { set_version := fun _ _ => .GST_SDP_EINVAL, set_origin := fun _ _ => .GST_SDP_EINVAL,
    set_session_name := fun _ _ => .GST_SDP_EINVAL,
    set_connection := fun _ _ => .GST_SDP_EINVAL }

/-- The audio agent with the `use-ipv6` property set. -/
def ipv6_audio_agent : KmsSdpAgentPrivate :=
  { audio_agent with use_ipv6 := true }

/-- A fresh agent with three handlers registered in this order: video, audio, and a
second transport for video. -/
def three_handler_agent : KmsSdpAgentPrivate :=
  (add_proto_handlers kms_sdp_agent_new
    [("video", sample_handler "RTP/AVP" 1), ("audio", sample_handler "RTP/AVP" 2),
     ("video", sample_handler "RTP/SAVPF" 3)]).1

/-- A fresh agent with three handlers, the second of which fails to produce its offer. -/
def failing_middle_agent : KmsSdpAgentPrivate :=
  (add_proto_handlers kms_sdp_agent_new
    [("video", sample_handler "RTP/AVP" 1), ("audio", failing_handler "RTP/AVP"),
     ("video", sample_handler "RTP/SAVPF" 3)]).1

/-- A handler whose `proto` property is NULL. -/
def mute_handler : KmsSdpMediaHandler :=
  { proto := none,
    create_offer := fun _ => (none, some sample_error),
    create_answer := fun _ => (none, some sample_error) }

/-- An offered audio line whose protocol is the empty string. -/
def empty_proto_audio : GstSDPMedia :=
  { sample_audio with proto := "" }

/-- The calls `kms_sdp_agent_crate_bundle_group`, 2 ^ 31 times in a row. -/
def many_group_calls : List AgentCall :=
  List.replicate 2147483648 AgentCall.crate_bundle_group

/-- Calls on a fresh agent: an audio handler, a group, a video handler, the audio handler
put into the group, a second group. -/
def sample_calls : List AgentCall :=
  [.add_proto_handler "audio" (sample_handler "RTP/AVP" 9), .crate_bundle_group,
   .add_proto_handler "video" (sample_handler "RTP/AVP" 7), .add_handler_to_group 0 0,
   .create_offer, .crate_bundle_group]

/-- A fresh agent with an audio and a video handler (ids 0 and 1) and one bundle group
(id 0) without members. -/
def grouped_agent : KmsSdpAgentPrivate :=
  run_calls kms_sdp_agent_new
    [.add_proto_handler "audio" (sample_handler "RTP/AVP" 9),
     .add_proto_handler "video" (sample_handler "RTP/AVP" 7), .crate_bundle_group]

/-- The origin `kms_sdp_agent_set_default_session_attributes` passes to
`gst_sdp_message_set_origin`. -/
def default_origin (agent : KmsSdpAgentPrivate) : GstSDPOrigin :=
  { username := "-", sess_id := "0", sess_version := "0", nettype := ORIGIN_ATTR_NETTYPE,
    addrtype :=
      if agent.use_ipv6 then ORIGIN_ATTR_ADDR_TYPE_IP6 else ORIGIN_ATTR_ADDR_TYPE_IP4,
    addr := if agent.use_ipv6 then DEFAULT_IP6_ADDR else DEFAULT_IP4_ADDR }

/-- The connection `kms_sdp_agent_set_default_session_attributes` passes to
`gst_sdp_message_set_connection`. -/
def default_connection (agent : KmsSdpAgentPrivate) : GstSDPConnection :=
  { nettype := ORIGIN_ATTR_NETTYPE,
    addrtype :=
      if agent.use_ipv6 then ORIGIN_ATTR_ADDR_TYPE_IP6 else ORIGIN_ATTR_ADDR_TYPE_IP4,
    address := if agent.use_ipv6 then DEFAULT_IP6_ADDR else DEFAULT_IP4_ADDR,
    ttl := 0, addr_number := 0 }

/-- A document model that accepts the version and the origin and rejects the session
name. -/
def session_rejecting_model : GstSDPModel :=
  { accepting_model with set_session_name := fun _ _ => .GST_SDP_EINVAL }

/-- The media handles associated with the group context of the document keyed by `gid`:
none when the document has no group context for that id. -/
def group_context_medias (ctx : SdpMessageContext) (gid : Nat) : List SdpMediaConfig :=
  match kms_sdp_context_get_group ctx gid with
  | some m_group => m_group.medias
  | none => []

/-- How often the two loops of `create_media_offers` come to a member with the id `hid` in
a group with the id `gid`: once for every such member of every such group. -/
def membership_count (gid hid : Nat) : List SdpHandlerGroup → Nat
  | [] => 0
  | group :: rest =>
    (if group.id = gid then group.handlers.countP (fun h => h.id = hid) else 0) +
      membership_count gid hid rest

/-- The entries of the handler list that produce a media line of the offer (their handler
sets no error), each with the media handle `kms_sdp_context_add_media` returns for its
line when the context holds `n` media before the traversal. -/
def offered_medias : Nat → List SdpHandler → List (SdpHandler × SdpMediaConfig)
  | _, [] => []
  | n, e :: rest =>
    if (kms_sdp_media_handler_create_offer e.handler e.media).2.isNone then
      (e, ⟨n, (kms_sdp_media_handler_create_offer e.handler e.media).1⟩) ::
        offered_medias (n + 1) rest
    else offered_medias n rest

/-- The invariant of the group list: no group has two members with one id, and a group
that comes after a group with the same id has no member (`kms_sdp_agent_get_group`
returns the first group with an id, so no other group with that id gets members). -/
def groups_inv (groups : List SdpHandlerGroup) : Prop :=
  (∀ g ∈ groups, (g.handlers.map (fun h => h.id)).Nodup) ∧
  groups.Pairwise (fun g g2 => g2.id = g.id → g2.handlers = [])

/-- Calls on a fresh agent: an audio and a video handler are registered, a bundle group
is created, and both handlers are put into it. -/
def bundle_calls : List AgentCall :=
  [.add_proto_handler "audio" (sample_handler "RTP/AVP" 9),
   .add_proto_handler "video" (sample_handler "RTP/AVP" 7), .crate_bundle_group,
   .add_handler_to_group 0 0, .add_handler_to_group 0 1]

/-- The agent after `bundle_calls`. -/
def bundled_agent : KmsSdpAgentPrivate :=
  run_calls kms_sdp_agent_new bundle_calls

/-- Whether the call is a call of `kms_sdp_agent_create_offer` or of
`kms_sdp_agent_create_answer`. -/
def AgentCall.is_negotiation : AgentCall → Bool
  | .create_offer => true
  | .create_answer _ _ => true
  | _ => false

/-- The sample offer with other timing lines. -/
def retimed_offer : GstSDPMessage :=
  { sample_offer with times := [⟨"2873397496", "2873404696", ["604800", "3600"]⟩] }

/-- An audio line that differs from the sample audio line in everything but its media
type, protocol and formats. -/
def decorated_audio : GstSDPMedia :=
  { sample_audio with
      port := 40000, num_ports := 2, information := some "talk",
      connections := [⟨"IN", "IP4", "192.0.2.7", 0, 0⟩], bandwidths := [⟨"AS", 64⟩],
      key := ⟨some "prompt", none⟩, attributes := [⟨"recvonly", none⟩] }

/-- Whether the call is a call of `kms_sdp_agent_add_proto_handler`. -/
def AgentCall.is_add_proto_handler : AgentCall → Bool
  | .add_proto_handler _ _ => true
  | _ => false

/-- The invariant of the registry while neither counter has wrapped: the ids of the handler
entries are the numbers below the handler counter, in order, the ids of the groups are
the numbers below the group counter, in order, and every member of a group is an entry
of the handler list. -/
def registry_inv (agent : KmsSdpAgentPrivate) : Prop :=
  agent.handlers.map (fun e => e.id) = List.range agent.hids ∧
  agent.groups.map (fun g => g.id) = List.range agent.gids ∧
  ∀ g ∈ agent.groups, ∀ h ∈ g.handlers, h ∈ agent.handlers

/-- The calls `kms_sdp_agent_crate_bundle_group`, 2 ^ 32 times in a row. -/
def wrapping_group_calls : List AgentCall :=
  List.replicate 4294967296 AgentCall.crate_bundle_group

/-- The registrations of 2 ^ 32 - 1 handlers under pairwise distinct media labels. -/
def full_counter_calls : List (String × KmsSdpMediaHandler) :=
  (List.range 4294967295).map (fun i => (binary_label i, sample_handler "RTP/AVP" 9))

/-! ## Lemmas -/

theorem for_each_media_create_answer (ms : List GstSDPMedia) (data : sdp_answer_data) :
    for_each_media_from create_media_answer ms data =
      ({ data with answer := { data.answer with
            medias := data.answer.medias ++ ms.map (answer_media_of data.agent) } }, true) := by
  induction ms generalizing data with
  | nil => simp [for_each_media_from]
  | cons m rest ih =>
    simp [for_each_media_from, create_media_answer, ih, gst_sdp_message_add_media]

theorem set_version_medias (model : GstSDPModel) (msg : GstSDPMessage) (v : String) :
    (gst_sdp_message_set_version model msg v).1.medias = msg.medias := by
  unfold gst_sdp_message_set_version; split <;> rfl

theorem set_origin_medias (model : GstSDPModel) (msg : GstSDPMessage)
    (a b c d e f : String) :
    (gst_sdp_message_set_origin model msg a b c d e f).1.medias = msg.medias := by
  unfold gst_sdp_message_set_origin; split <;> rfl

theorem set_session_name_medias (model : GstSDPModel) (msg : GstSDPMessage) (v : String) :
    (gst_sdp_message_set_session_name model msg v).1.medias = msg.medias := by
  unfold gst_sdp_message_set_session_name; split <;> rfl

theorem set_connection_medias (model : GstSDPModel) (msg : GstSDPMessage)
    (a b c : String) (t n : Nat) :
    (gst_sdp_message_set_connection model msg a b c t n).1.medias = msg.medias := by
  unfold gst_sdp_message_set_connection; split <;> rfl

theorem session_defaults_medias (model : GstSDPModel) (agent : KmsSdpAgentPrivate)
    (msg : GstSDPMessage) :
    (kms_sdp_agent_set_default_session_attributes model agent msg).1.medias = msg.medias := by
  unfold kms_sdp_agent_set_default_session_attributes
  simp only []
  split_ifs <;>
    simp only [set_version_medias, set_origin_medias, set_session_name_medias,
      set_connection_medias]

theorem create_answer_impl_eq (model : GstSDPModel) (agent : KmsSdpAgentPrivate)
    (offer : GstSDPMessage) :
    kms_sdp_agent_create_answer_impl model agent offer =
      match (kms_sdp_agent_set_default_session_attributes model agent gst_sdp_message_new).2 with
      | some err => .error err
      | none => .ok { (kms_sdp_agent_set_default_session_attributes model agent
                        gst_sdp_message_new).1 with
                      medias := offer.medias.map (answer_media_of agent) } := by
  have hm := session_defaults_medias model agent gst_sdp_message_new
  unfold kms_sdp_agent_create_answer_impl
  simp only []
  rcases h : kms_sdp_agent_set_default_session_attributes model agent gst_sdp_message_new with
    ⟨a, e⟩
  rw [h] at hm
  cases e with
  | some err => simp
  | none =>
    simp only [sdp_utils_for_each_media, for_each_media_create_answer]
    simp at hm
    simp [hm, gst_sdp_message_new]


theorem insert_formats_range (offered m0 : GstSDPMedia) (h0 : m0.fmts = []) (n : Nat)
    (hn : n ≤ offered.fmts.length) :
    (List.range n).foldl
      (fun media i => gst_sdp_media_insert_format media i (gst_sdp_media_get_format offered i))
      m0 = { m0 with fmts := offered.fmts.take n } := by
  induction n with
  | zero => cases m0; simp_all
  | succ k ih =>
    have hk : k < offered.fmts.length := hn
    rw [List.range_succ, List.foldl_append, ih (Nat.le_of_lt hk)]
    simp only [List.foldl_cons, List.foldl_nil, gst_sdp_media_insert_format,
      gst_sdp_media_get_format]
    have h1 : (List.take k offered.fmts).take k = List.take k offered.fmts := by
      simp
    have h2 : (List.take k offered.fmts).drop k = [] := by
      simp
    have h3 : offered.fmts.getD k "" = offered.fmts[k] := by
      simp [List.getD, List.getElem?_eq_getElem hk]
    rw [h1, h2, h3]
    congr 1
    rw [List.take_succ, List.getElem?_eq_getElem hk]
    rfl

theorem reject_media_answer_eq (offered : GstSDPMedia) :
    reject_media_answer offered =
      { media := offered.media, port := 0, num_ports := 1, proto := offered.proto,
        fmts := offered.fmts, information := none, connections := [], bandwidths := [],
        key := ⟨none, none⟩, attributes := [] } := by
  unfold reject_media_answer
  simp only [gst_sdp_media_formats_len]
  rw [insert_formats_range offered _ rfl _ (Nat.le_refl _)]
  simp [gst_sdp_media_set_proto, gst_sdp_media_set_port_info, gst_sdp_media_set_media,
    gst_sdp_media_new, gst_sdp_media_get_media, gst_sdp_media_get_proto]


theorem answer_media_of_none (agent : KmsSdpAgentPrivate) (media : GstSDPMedia)
    (h : lookup_handler agent media = none) :
    answer_media_of agent media = reject_media_answer media := by
  simp [answer_media_of, h]

theorem answer_media_of_some (agent : KmsSdpAgentPrivate) (media : GstSDPMedia)
    (handler : KmsSdpMediaHandler) (h : lookup_handler agent media = some handler) :
    answer_media_of agent media =
      match (handler.create_answer media).1 with
      | none => reject_media_answer media
      | some m => m := by
  simp [answer_media_of, h, kms_sdp_media_handler_create_answer]

/-! ## Answers: count, order, rejection -/

/-- C1: when `create_answer` succeeds on an offer with M media lines, the answer has
exactly M media lines and its i-th line is the line `create_media_answer` builds from
the i-th offered line, whatever handlers are registered and whatever they return. -/
theorem create_answer_preserves_media_lines (model : GstSDPModel)
    (agent : KmsSdpAgentPrivate) (offer answer : GstSDPMessage)
    (h : kms_sdp_agent_create_answer_impl model agent offer = .ok answer) :
    answer.medias.length = offer.medias.length ∧
    (∀ i (hi : i < offer.medias.length),
      answer.medias[i]? = some (answer_media_of agent (offer.medias.get ⟨i, hi⟩))) ∧
    answer.medias = offer.medias.map (answer_media_of agent) := by
  rw [create_answer_impl_eq] at h
  split at h
  · exact absurd h (by simp)
  · injection h with h
    subst h
    refine ⟨by simp, ?_, rfl⟩
    intro i hi
    simp [List.getElem?_eq_getElem hi]

/-- The audio agent answers the sample offer (audio, video) with two lines: the audio
line of its handler and the rejection line of the video line. -/
theorem create_answer_preserves_media_lines_witness :
    kms_sdp_agent_create_answer_impl accepting_model audio_agent sample_offer =
      .ok { version := some "0", origin := some ⟨"-", "0", "0", "IN", "IP4", "0.0.0.0"⟩,
            session_name := some "Kurento Media Server",
            connection := some ⟨"IN", "IP4", "0.0.0.0", 0, 0⟩, times := [],
            medias := [{ sample_audio with port := 9 }, reject_media_answer sample_video] } ∧
    ([{ sample_audio with port := 9 }, reject_media_answer sample_video] : List GstSDPMedia).length
      = sample_offer.medias.length :=
  ⟨rfl, (create_answer_preserves_media_lines accepting_model audio_agent sample_offer _ rfl).1⟩


/-- C2: an offered line whose media type is unknown to the agent, or whose protocol is
unknown under its media type, is answered by a line with port 0, the same media type
and protocol and the same list of formats; an agent without any handler answers
every line that way. -/
theorem unhandled_media_is_rejected (model : GstSDPModel) (agent : KmsSdpAgentPrivate)
    (offer answer : GstSDPMessage)
    (h : kms_sdp_agent_create_answer_impl model agent offer = .ok answer) :
    (∀ i (hi : i < offer.medias.length),
      (g_hash_table_lookup agent.medias (offer.medias.get ⟨i, hi⟩).media = none ∨
        ∃ handlers,
          g_hash_table_lookup agent.medias (offer.medias.get ⟨i, hi⟩).media = some handlers ∧
          g_hash_table_lookup handlers (offer.medias.get ⟨i, hi⟩).proto = none) →
      ∃ line, answer.medias[i]? = some line ∧
        line = reject_media_answer (offer.medias.get ⟨i, hi⟩) ∧
        line.port = 0 ∧
        line.media = (offer.medias.get ⟨i, hi⟩).media ∧
        line.proto = (offer.medias.get ⟨i, hi⟩).proto ∧
        line.fmts = (offer.medias.get ⟨i, hi⟩).fmts) ∧
    (agent.medias = [] →
      answer.medias = offer.medias.map reject_media_answer ∧
      ∀ line ∈ answer.medias, line.port = 0) := by
  rw [create_answer_impl_eq] at h
  split at h
  · exact absurd h (by simp)
  · injection h with h
    subst h
    constructor
    · intro i hi hno
      refine ⟨reject_media_answer (offer.medias.get ⟨i, hi⟩), ?_, rfl, ?_⟩
      · have hl : lookup_handler agent (offer.medias.get ⟨i, hi⟩) = none := by
          unfold lookup_handler gst_sdp_media_get_media gst_sdp_media_get_proto
          rcases hno with h1 | ⟨hs, h1, h2⟩
          · rw [h1]
          · rw [h1]; exact h2
        have hr := answer_media_of_none agent _ hl
        simp only [List.get_eq_getElem] at hr
        simp [List.getElem?_eq_getElem hi, hr]
      · simp [reject_media_answer_eq]
    · intro hempty
      have hall : ∀ m, answer_media_of agent m = reject_media_answer m := by
        intro m
        simp [answer_media_of, lookup_handler, hempty, g_hash_table_lookup]
      refine ⟨by simp [hall], ?_⟩
      intro line hline
      simp only [List.mem_map] at hline
      obtain ⟨m, _, rfl⟩ := hline
      simp [hall, reject_media_answer_eq]

/-- A fresh agent answers the sample offer with the rejection lines of its two lines. -/
theorem unhandled_media_is_rejected_witness :
    kms_sdp_agent_create_answer_impl accepting_model kms_sdp_agent_new sample_offer =
      .ok { version := some "0", origin := some ⟨"-", "0", "0", "IN", "IP4", "0.0.0.0"⟩,
            session_name := some "Kurento Media Server",
            connection := some ⟨"IN", "IP4", "0.0.0.0", 0, 0⟩, times := [],
            medias := [{ sample_audio with port := 0, attributes := [] },
                       { sample_video with port := 0, attributes := [] }] } ∧
    ([{ sample_audio with port := 0, attributes := [] },
      { sample_video with port := 0, attributes := [] }] : List GstSDPMedia) =
      sample_offer.medias.map reject_media_answer :=
  ⟨rfl, ((unhandled_media_is_rejected accepting_model kms_sdp_agent_new sample_offer _ rfl).2
          rfl).1⟩

/-- C4: `create_media_answer` returns TRUE on every input, the media iteration of
`create_answer` therefore never fails, and `create_answer` returns a document exactly
when the session defaults could be applied: its only error is the one of the session
defaults, never the unexpected error, whatever the handlers return. -/
theorem create_answer_fails_only_on_session_defaults (model : GstSDPModel)
    (agent : KmsSdpAgentPrivate) (offer : GstSDPMessage) :
    (∀ media data, (create_media_answer media data).2 = true) ∧
    (∀ data, (sdp_utils_for_each_media offer create_media_answer data).2 = true) ∧
    ((kms_sdp_agent_set_default_session_attributes model agent gst_sdp_message_new).2 = none →
      ∃ answer, kms_sdp_agent_create_answer_impl model agent offer = .ok answer) ∧
    (∀ err, kms_sdp_agent_create_answer_impl model agent offer = .error err →
      (kms_sdp_agent_set_default_session_attributes model agent gst_sdp_message_new).2
        = some err ∧ err.code = "SDP_AGENT_INVALID_PARAMETER") ∧
    kms_sdp_agent_create_answer_impl model agent offer ≠
      .error create_answer_unexpected_error := by
  have hcode : ∀ err,
      (kms_sdp_agent_set_default_session_attributes model agent gst_sdp_message_new).2
        = some err → err.code = "SDP_AGENT_INVALID_PARAMETER" := by
    intro err
    unfold kms_sdp_agent_set_default_session_attributes
    simp only []
    split_ifs <;> simp [session_attr_error] <;> (rintro rfl; rfl)
  have herr : ∀ err, kms_sdp_agent_create_answer_impl model agent offer = .error err →
      (kms_sdp_agent_set_default_session_attributes model agent gst_sdp_message_new).2
        = some err := by
    intro err h
    rw [create_answer_impl_eq] at h
    split at h
    · next e he => injection h with h; rw [he, h]
    · exact absurd h (by simp)
  refine ⟨fun _ _ => rfl, ?_, ?_, fun err h => ⟨herr err h, hcode err (herr err h)⟩, ?_⟩
  · intro data
    simp [sdp_utils_for_each_media, for_each_media_create_answer]
  · intro hok
    rw [create_answer_impl_eq, hok]
    exact ⟨_, rfl⟩
  · intro h
    have := hcode _ (herr _ h)
    simp [create_answer_unexpected_error] at this


/-! ## The handler registry -/

theorem g_hash_table_insert_snd {β : Type} (t : GHashTable β) (k : String) (v : β) :
    (g_hash_table_insert t k v).2 = (g_hash_table_lookup t k).isNone := by
  induction t with
  | nil => rfl
  | cons e rest ih =>
    obtain ⟨k0, v0⟩ := e
    by_cases hk : k0 = k <;> simp [g_hash_table_insert, g_hash_table_lookup, hk, ih]

theorem g_hash_table_lookup_insert {β : Type} (t : GHashTable β) (k k2 : String) (v : β) :
    g_hash_table_lookup (g_hash_table_insert t k v).1 k2 =
      if k = k2 then some v else g_hash_table_lookup t k2 := by
  induction t with
  | nil => simp [g_hash_table_insert, g_hash_table_lookup]
  | cons e rest ih =>
    obtain ⟨k0, v0⟩ := e
    by_cases hk : k0 = k
    · subst hk
      by_cases hk2 : k0 = k2 <;> simp [g_hash_table_insert, g_hash_table_lookup, hk2]
    · by_cases hk2 : k0 = k2
      · subst hk2
        simp [g_hash_table_insert, g_hash_table_lookup, hk, Ne.symm hk]
      · simp [g_hash_table_insert, g_hash_table_lookup, hk, hk2, ih]

theorem guint_to_gint_mod_add (a b : Nat) :
    guint_to_gint (a % GUINT_MODULUS + b) = guint_to_gint (a + b) := by
  unfold guint_to_gint
  rw [Nat.mod_add_mod]

theorem guint_to_gint_small (n : Nat) (h : n < 2147483648) : guint_to_gint n = (n : Int) := by
  unfold guint_to_gint GUINT_MODULUS
  have : n % 4294967296 = n := Nat.mod_eq_of_lt (by omega)
  rw [this, if_pos h]

/-- A registration for an unbound pair: the entry is appended, the counter advances
and the old counter value is returned. -/
theorem add_proto_handler_unbound (agent : KmsSdpAgentPrivate) (media proto : String)
    (handler : KmsSdpMediaHandler) (hp : handler.proto = some proto)
    (hb : has_binding agent.medias media proto = false) :
    (kms_sdp_agent_add_proto_handler_impl agent media handler).2 = guint_to_gint agent.hids ∧
    (kms_sdp_agent_add_proto_handler_impl agent media handler).1.hids =
      (agent.hids + 1) % GUINT_MODULUS ∧
    (kms_sdp_agent_add_proto_handler_impl agent media handler).1.handlers =
      agent.handlers ++ [⟨agent.hids % GUINT_MODULUS, media, handler⟩] := by
  unfold has_binding at hb
  unfold kms_sdp_agent_add_proto_handler_impl
  simp only [hp, g_hash_table_insert_snd]
  cases hl : g_hash_table_lookup agent.medias media with
  | none =>
    simp [g_hash_table_lookup, guint_to_gint, kms_sdp_context_new_sdp_handler]
  | some hs =>
    rw [hl] at hb
    simp only [] at hb
    have hn : (g_hash_table_lookup hs proto).isNone = true := by
      cases hx : g_hash_table_lookup hs proto with
      | none => rfl
      | some x => rw [hx] at hb; simp at hb
    simp [hn, guint_to_gint, kms_sdp_context_new_sdp_handler]

/-- A registration for a bound pair: FALSE from the insertion, so no entry, no id. -/
theorem add_proto_handler_bound (agent : KmsSdpAgentPrivate) (media proto : String)
    (handler : KmsSdpMediaHandler) (hp : handler.proto = some proto)
    (hb : has_binding agent.medias media proto = true) :
    (kms_sdp_agent_add_proto_handler_impl agent media handler).2 = -1 ∧
    (kms_sdp_agent_add_proto_handler_impl agent media handler).1.hids = agent.hids ∧
    (kms_sdp_agent_add_proto_handler_impl agent media handler).1.handlers = agent.handlers := by
  unfold has_binding at hb
  unfold kms_sdp_agent_add_proto_handler_impl
  simp only [hp, g_hash_table_insert_snd]
  cases hl : g_hash_table_lookup agent.medias media with
  | none => rw [hl] at hb; simp at hb
  | some hs =>
    rw [hl] at hb
    simp only [] at hb
    have hn : (g_hash_table_lookup hs proto).isNone = false := by
      cases hx : g_hash_table_lookup hs proto with
      | none => rw [hx] at hb; simp at hb
      | some x => rfl
    simp [hn]

/-- The pairs bound after a call of `add_handler` with a handler that reports a
protocol: those bound before and the pair of the call. -/
theorem has_binding_add_proto_handler (agent : KmsSdpAgentPrivate) (media proto : String)
    (handler : KmsSdpMediaHandler) (hp : handler.proto = some proto) (m2 p2 : String) :
    has_binding (kms_sdp_agent_add_proto_handler_impl agent media handler).1.medias m2 p2 =
      (has_binding agent.medias m2 p2 || (decide (media = m2) && decide (proto = p2))) := by
  have hmed : (kms_sdp_agent_add_proto_handler_impl agent media handler).1.medias =
      (g_hash_table_insert agent.medias media
        (g_hash_table_insert
          (match g_hash_table_lookup agent.medias media with
            | some handlers => handlers
            | none => []) proto handler).1).1 := by
    unfold kms_sdp_agent_add_proto_handler_impl
    simp only [hp]
    split_ifs <;> rfl
  rw [hmed]
  unfold has_binding
  rw [g_hash_table_lookup_insert]
  by_cases hm : media = m2
  · subst hm
    simp only [if_true, g_hash_table_lookup_insert]
    by_cases hpp : proto = p2
    · subst hpp
      cases g_hash_table_lookup agent.medias media <;> simp
    · cases g_hash_table_lookup agent.medias media <;> simp [hpp, g_hash_table_lookup]
  · simp [hm]


/-- The handler `create_media_answer` finds after a call of `add_handler` with a handler
that reports a protocol: the handler of the call for a line of its media label and
protocol, whether or not the call returned an id, and the handler found before for
every other line. -/
theorem lookup_handler_add_proto_handler (agent : KmsSdpAgentPrivate) (media proto : String)
    (handler : KmsSdpMediaHandler) (hp : handler.proto = some proto) (line : GstSDPMedia) :
    lookup_handler (kms_sdp_agent_add_proto_handler_impl agent media handler).1 line =
      if media = line.media ∧ proto = line.proto then some handler
      else lookup_handler agent line := by
  have hmed : (kms_sdp_agent_add_proto_handler_impl agent media handler).1.medias =
      (g_hash_table_insert agent.medias media
        (g_hash_table_insert
          (match g_hash_table_lookup agent.medias media with
            | some handlers => handlers
            | none => []) proto handler).1).1 := by
    unfold kms_sdp_agent_add_proto_handler_impl
    simp only [hp]
    split_ifs <;> rfl
  unfold lookup_handler gst_sdp_media_get_media gst_sdp_media_get_proto
  rw [hmed, g_hash_table_lookup_insert]
  by_cases hm : media = line.media
  · rw [← hm]
    simp only [if_true, g_hash_table_lookup_insert, true_and]
    by_cases hpp : proto = line.proto
    · simp [hpp]
    · cases g_hash_table_lookup agent.medias media <;> simp [hpp, g_hash_table_lookup]
  · simp [hm]

/-- The values returned by a run of registrations for pairwise distinct pairs none of
which is bound at the start: the counter values from the start value on, each
converted to `gint`. -/
theorem add_proto_handlers_unbound (calls : List (String × KmsSdpMediaHandler)) :
    ∀ agent : KmsSdpAgentPrivate,
      (∀ c ∈ calls, c.2.proto ≠ none) →
      (calls.map binding_key).Nodup →
      (∀ c ∈ calls, ∀ p, c.2.proto = some p → has_binding agent.medias c.1 p = false) →
      (add_proto_handlers agent calls).2 =
        (List.range calls.length).map (fun i => guint_to_gint (agent.hids + i)) := by
  induction calls with
  | nil => intro agent _ _ _; rfl
  | cons c rest ih =>
    intro agent hproto hnodup hfresh
    obtain ⟨media, handler⟩ := c
    obtain ⟨proto, hp⟩ : ∃ p, handler.proto = some p := by
      have := hproto (media, handler) (List.mem_cons_self _ _)
      exact Option.ne_none_iff_exists'.mp this
    have hb := hfresh (media, handler) (List.mem_cons_self _ _) proto hp
    obtain ⟨hid, hhids, -⟩ := add_proto_handler_unbound agent media proto handler hp hb
    rw [List.map_cons, List.nodup_cons] at hnodup
    have hrest := ih (kms_sdp_agent_add_proto_handler_impl agent media handler).1
      (fun c hc => hproto c (List.mem_cons_of_mem _ hc)) hnodup.2
      (by
        intro c hc p hcp
        rw [has_binding_add_proto_handler agent media proto handler hp,
          hfresh c (List.mem_cons_of_mem _ hc) p hcp]
        simp only [Bool.false_or, Bool.and_eq_false_imp, decide_eq_true_eq,
          decide_eq_false_iff_not]
        intro hm hpp
        apply hnodup.1
        rw [List.mem_map]
        refine ⟨c, hc, ?_⟩
        simp [binding_key, hm, hpp, hp, hcp])
    simp only [add_proto_handlers, List.length_cons, List.range_succ_eq_map, List.map_cons,
      List.map_map, hid, hrest, hhids, Nat.add_zero]
    congr 1
    apply List.map_congr_left
    intro i _
    simp only [Function.comp, guint_to_gint_mod_add]
    congr 1
    omega

theorem binary_label_injective (i j : Nat) (hi : i < 4294967296) (hj : j < 4294967296)
    (h : binary_label i = binary_label j) : i = j := by
  unfold binary_label at h
  injection h with h
  rw [List.map_inj_left] at h
  apply Nat.eq_of_testBit_eq
  intro b
  by_cases hb : b < 32
  · have := h b (List.mem_range.mpr hb)
    cases hx : i.testBit b <;> cases hy : j.testBit b <;> simp [hx, hy] at this <;> rfl
  · have h32 : (2 : Nat) ^ 32 ≤ 2 ^ b := Nat.pow_le_pow_right (by decide) (by omega)
    have h232 : (2 : Nat) ^ 32 = 4294967296 := by norm_num
    rw [Nat.testBit_lt_two_pow (by omega), Nat.testBit_lt_two_pow (by omega)]


/-- C9, amended: on a fresh agent, in a sequence of at most 2 ^ 31 `add_handler` calls
whose handlers report a protocol and whose (media label, protocol) pairs are pairwise
distinct, the k-th call returns k; the returned identifiers are strictly increasing
in call order, hence pairwise distinct and never reused. -/
theorem handler_ids_count_from_zero (calls : List (String × KmsSdpMediaHandler))
    (hproto : ∀ c ∈ calls, c.2.proto ≠ none)
    (hnodup : (calls.map binding_key).Nodup)
    (hlen : calls.length ≤ 2147483648) :
    (∀ k, k < calls.length →
      (add_proto_handlers kms_sdp_agent_new calls).2[k]? = some (k : Int)) ∧
    (add_proto_handlers kms_sdp_agent_new calls).2.length = calls.length ∧
    (add_proto_handlers kms_sdp_agent_new calls).2.Pairwise (fun a b => a < b) := by
  have hids := add_proto_handlers_unbound calls kms_sdp_agent_new hproto hnodup
    (fun _ _ _ _ => rfl)
  have hsmall : (List.range calls.length).map
      (fun i => guint_to_gint (kms_sdp_agent_new.hids + i)) =
      (List.range calls.length).map (fun (i : Nat) => (i : Int)) := by
    apply List.map_congr_left
    intro i hi
    have hi2 : i < calls.length := List.mem_range.mp hi
    have h0 : kms_sdp_agent_new.hids + i = i := by simp [kms_sdp_agent_new]
    rw [h0]
    exact guint_to_gint_small i (by omega)
  rw [hsmall] at hids
  rw [hids]
  refine ⟨?_, by simp, ?_⟩
  · intro k hk
    simp [List.getElem?_range hk]
  · rw [List.pairwise_map]
    exact (List.pairwise_lt_range _).imp (fun h => by exact_mod_cast h)

/-- Three registrations for distinct pairs on a fresh agent return 0, 1 and 2. -/
theorem handler_ids_count_from_zero_witness :
    (add_proto_handlers kms_sdp_agent_new
      [("audio", sample_handler "RTP/AVP" 9), ("video", sample_handler "RTP/AVP" 9),
       ("audio", sample_handler "RTP/SAVPF" 9)]).2 = [0, 1, 2] ∧
    (add_proto_handlers kms_sdp_agent_new
      [("audio", sample_handler "RTP/AVP" 9), ("video", sample_handler "RTP/AVP" 9),
       ("audio", sample_handler "RTP/SAVPF" 9)]).2[2]? = some (2 : Int) :=
  ⟨by decide,
    (handler_ids_count_from_zero
      [("audio", sample_handler "RTP/AVP" 9), ("video", sample_handler "RTP/AVP" 9),
       ("audio", sample_handler "RTP/SAVPF" 9)]
      (by decide) (by decide) (by decide)).1 2 (by decide)⟩

/-- C9 as stated fails: in a sequence of 2 ^ 31 + 1 registrations with pairwise distinct
pairs, all reporting a protocol, the call number 2 ^ 31 returns -2147483648 (the
`guint` counter read as `gint`), not 2147483648. -/
theorem handler_id_wraps_negative :
    (∀ c ∈ many_calls, c.2.proto ≠ none) ∧
    (many_calls.map binding_key).Nodup ∧
    2147483648 < many_calls.length ∧
    (add_proto_handlers kms_sdp_agent_new many_calls).2[2147483648]? =
      some (-2147483648 : Int) := by
  have hproto : ∀ c ∈ many_calls, c.2.proto ≠ none := by
    intro c hc
    unfold many_calls at hc
    rw [List.mem_map] at hc
    obtain ⟨i, _, rfl⟩ := hc
    simp [sample_handler]
  have hnodup : (many_calls.map binding_key).Nodup := by
    unfold many_calls
    rw [List.map_map]
    apply List.Nodup.map_on _ (List.nodup_range _)
    intro x hx y hy hxy
    simp only [Function.comp, binding_key, Prod.mk.injEq] at hxy
    exact binary_label_injective x y (by have := List.mem_range.mp hx; omega)
      (by have := List.mem_range.mp hy; omega) hxy.1
  have hlen : many_calls.length = 2147483649 := by
    unfold many_calls
    rw [List.length_map, List.length_range]
  refine ⟨hproto, hnodup, by rw [hlen]; decide, ?_⟩
  rw [add_proto_handlers_unbound many_calls kms_sdp_agent_new hproto hnodup
    (fun _ _ _ _ => rfl), hlen, List.getElem?_map,
    List.getElem?_range (by decide : 2147483648 < 2147483649)]
  decide

/-- The counter and the bound pairs after a run of registrations for pairwise distinct
pairs none of which is bound at the start: the counter has advanced by the number of
the calls, modulo 2 ^ 32, and the bound pairs are those bound before and those of the
calls. -/
theorem add_proto_handlers_unbound_state (calls : List (String × KmsSdpMediaHandler)) :
    ∀ agent : KmsSdpAgentPrivate,
      (∀ c ∈ calls, c.2.proto ≠ none) →
      (calls.map binding_key).Nodup →
      (∀ c ∈ calls, ∀ p, c.2.proto = some p → has_binding agent.medias c.1 p = false) →
      (add_proto_handlers agent calls).1.hids % GUINT_MODULUS =
        (agent.hids + calls.length) % GUINT_MODULUS ∧
      (∀ m p, has_binding (add_proto_handlers agent calls).1.medias m p = true ↔
        (has_binding agent.medias m p = true ∨ (m, some p) ∈ calls.map binding_key)) := by
  induction calls with
  | nil =>
    intro agent _ _ _
    exact ⟨rfl, fun m p => by simp [add_proto_handlers]⟩
  | cons c rest ih =>
    intro agent hproto hnodup hfresh
    obtain ⟨media, handler⟩ := c
    obtain ⟨proto, hp⟩ : ∃ p, handler.proto = some p := by
      have := hproto (media, handler) (List.mem_cons_self _ _)
      exact Option.ne_none_iff_exists'.mp this
    have hb := hfresh (media, handler) (List.mem_cons_self _ _) proto hp
    obtain ⟨-, hhids, -⟩ := add_proto_handler_unbound agent media proto handler hp hb
    rw [List.map_cons, List.nodup_cons] at hnodup
    obtain ⟨hcount, hbound⟩ := ih (kms_sdp_agent_add_proto_handler_impl agent media handler).1
      (fun c hc => hproto c (List.mem_cons_of_mem _ hc)) hnodup.2
      (by
        intro c hc p hcp
        rw [has_binding_add_proto_handler agent media proto handler hp,
          hfresh c (List.mem_cons_of_mem _ hc) p hcp]
        simp only [Bool.false_or, Bool.and_eq_false_imp, decide_eq_true_eq,
          decide_eq_false_iff_not]
        intro hm hpp
        apply hnodup.1
        rw [List.mem_map]
        refine ⟨c, hc, ?_⟩
        simp [binding_key, hm, hpp, hp, hcp])
    have hrun : (add_proto_handlers agent ((media, handler) :: rest)).1 =
        (add_proto_handlers (kms_sdp_agent_add_proto_handler_impl agent media handler).1
          rest).1 := rfl
    rw [hrun]
    refine ⟨?_, ?_⟩
    · rw [hcount, hhids, List.length_cons]
      unfold GUINT_MODULUS
      omega
    · intro m p
      rw [hbound, has_binding_add_proto_handler agent media proto handler hp]
      simp only [List.map_cons, List.mem_cons, binding_key, hp, Prod.mk.injEq,
        Option.some.injEq, Bool.or_eq_true, Bool.and_eq_true, decide_eq_true_eq]
      constructor
      · rintro ((h | h) | h)
        · exact Or.inl h
        · exact Or.inr (Or.inl ⟨h.1.symm, h.2.symm⟩)
        · exact Or.inr (Or.inr h)
      · rintro (h | h | h)
        · exact Or.inl (Or.inl h)
        · exact Or.inl (Or.inr ⟨h.1.symm, h.2.symm⟩)
        · exact Or.inr h

/-- The identifier of an entry, read as `gint`, is -1 for the entry id 2 ^ 32 - 1 only. -/
theorem guint_to_gint_ne_minus_one (n : Nat) (h : n % GUINT_MODULUS ≠ 4294967295) :
    guint_to_gint n ≠ -1 := by
  unfold guint_to_gint
  unfold GUINT_MODULUS at h ⊢
  split_ifs <;> omega

/-- C10, amended: when the pair is already bound, `add_handler` with a handler reporting
that pair returns -1; this differs from the identifier `add_handler` returned for
any entry of the handler list, the entry of the bound pair included, unless the id of
the entry is 2 ^ 32 - 1, whose identifier is -1 itself; the counter and the ordered
handler list are unchanged, and any later call returns what it would have returned
without the rejected attempt. -/
theorem duplicate_registration_is_rejected (agent : KmsSdpAgentPrivate)
    (media proto : String) (handler bound_handler : KmsSdpMediaHandler)
    (handlers : GHashTable KmsSdpMediaHandler)
    (hp : handler.proto = some proto)
    (hm : g_hash_table_lookup agent.medias media = some handlers)
    (hb : g_hash_table_lookup handlers proto = some bound_handler) :
    (kms_sdp_agent_add_proto_handler_impl agent media handler).2 = -1 ∧
    (∀ e ∈ agent.handlers, e.id % GUINT_MODULUS ≠ 4294967295 →
      (kms_sdp_agent_add_proto_handler_impl agent media handler).2 ≠ guint_to_gint e.id) ∧
    (kms_sdp_agent_add_proto_handler_impl agent media handler).1.hids = agent.hids ∧
    (kms_sdp_agent_add_proto_handler_impl agent media handler).1.handlers = agent.handlers ∧
    (∀ media2 handler2,
      (kms_sdp_agent_add_proto_handler_impl
        (kms_sdp_agent_add_proto_handler_impl agent media handler).1 media2 handler2).2 =
      (kms_sdp_agent_add_proto_handler_impl agent media2 handler2).2) := by
  have hbound : has_binding agent.medias media proto = true := by
    simp [has_binding, hm, hb]
  obtain ⟨hid, hhids, hlist⟩ := add_proto_handler_bound agent media proto handler hp hbound
  refine ⟨hid, ?_, hhids, hlist, ?_⟩
  · intro e _ he
    rw [hid]
    exact fun h => guint_to_gint_ne_minus_one e.id he h.symm
  · intro media2 handler2
    cases hp2 : handler2.proto with
    | none => simp [kms_sdp_agent_add_proto_handler_impl, hp2]
    | some proto2 =>
      have hsame : has_binding
          (kms_sdp_agent_add_proto_handler_impl agent media handler).1.medias media2 proto2 =
          has_binding agent.medias media2 proto2 := by
        rw [has_binding_add_proto_handler agent media proto handler hp]
        by_cases hk : media = media2 ∧ proto = proto2
        · obtain ⟨rfl, rfl⟩ := hk
          simp [hbound]
        · have : (decide (media = media2) && decide (proto = proto2)) = false := by
            simpa using hk
          rw [this, Bool.or_false]
      cases hb2 : has_binding agent.medias media2 proto2 with
      | true =>
        rw [(add_proto_handler_bound _ media2 proto2 handler2 hp2 (hsame.trans hb2)).1,
          (add_proto_handler_bound _ media2 proto2 handler2 hp2 hb2).1]
      | false =>
        rw [(add_proto_handler_unbound _ media2 proto2 handler2 hp2 (hsame.trans hb2)).1,
          (add_proto_handler_unbound _ media2 proto2 handler2 hp2 hb2).1, hhids]

/-- A second audio handler for the bound protocol is turned away with -1, which is not
the identifier 0 of the entry of the bound pair; the counter stays at 1, and the
video handler registered next gets the id 1. -/
theorem duplicate_registration_is_rejected_witness :
    (kms_sdp_agent_add_proto_handler_impl audio_agent "audio" (sample_handler "RTP/AVP" 7)).2
      = -1 ∧
    audio_agent.handlers = [⟨0, "audio", sample_handler "RTP/AVP" 9⟩] ∧
    (kms_sdp_agent_add_proto_handler_impl audio_agent "audio" (sample_handler "RTP/AVP" 7)).2
      ≠ guint_to_gint 0 ∧
    (kms_sdp_agent_add_proto_handler_impl audio_agent "audio"
      (sample_handler "RTP/AVP" 7)).1.hids = 1 ∧
    (kms_sdp_agent_add_proto_handler_impl twice_registered_agent "video"
      (sample_handler "RTP/AVP" 7)).2 = 1 :=
  have h := duplicate_registration_is_rejected audio_agent "audio" "RTP/AVP"
    (sample_handler "RTP/AVP" 7) (sample_handler "RTP/AVP" 9)
    [("RTP/AVP", sample_handler "RTP/AVP" 9)] rfl rfl rfl
  ⟨h.1, rfl, h.2.1 ⟨0, "audio", sample_handler "RTP/AVP" 9⟩ (List.Mem.head _) (by decide),
    h.2.2.1.trans (by decide), by decide⟩

/-- A registration for an unbound pair at the counter value 2 ^ 32 - 1: the entry with
that id is appended and the identifier returned is -1; the pair is bound afterwards,
and a second registration for it returns -1. -/
theorem registration_at_full_counter (agent : KmsSdpAgentPrivate) (media proto : String)
    (handler handler2 : KmsSdpMediaHandler)
    (hp : handler.proto = some proto) (hp2 : handler2.proto = some proto)
    (hfree : has_binding agent.medias media proto = false)
    (hhids : agent.hids % GUINT_MODULUS = 4294967295) :
    (kms_sdp_agent_add_proto_handler_impl agent media handler).2 = -1 ∧
    (kms_sdp_agent_add_proto_handler_impl agent media handler).1.handlers =
      agent.handlers ++ [⟨4294967295, media, handler⟩] ∧
    has_binding (kms_sdp_agent_add_proto_handler_impl agent media handler).1.medias
      media proto = true ∧
    (kms_sdp_agent_add_proto_handler_impl
      (kms_sdp_agent_add_proto_handler_impl agent media handler).1 media handler2).2 = -1 := by
  obtain ⟨hid, -, hlist⟩ := add_proto_handler_unbound agent media proto handler hp hfree
  have hnow : has_binding (kms_sdp_agent_add_proto_handler_impl agent media handler).1.medias
      media proto = true := by
    rw [has_binding_add_proto_handler agent media proto handler hp, hfree]
    simp
  refine ⟨?_, ?_, hnow, ?_⟩
  · rw [hid]
    unfold guint_to_gint
    rw [hhids]
    decide
  · rw [hlist, hhids]
  · exact (add_proto_handler_bound _ media proto handler2 hp2 hnow).1

theorem full_counter_calls_proto : ∀ c ∈ full_counter_calls, c.2.proto ≠ none := by
  intro c hc
  unfold full_counter_calls at hc
  rw [List.mem_map] at hc
  obtain ⟨i, _, rfl⟩ := hc
  simp [sample_handler]

theorem full_counter_calls_nodup : (full_counter_calls.map binding_key).Nodup := by
  unfold full_counter_calls
  rw [List.map_map]
  apply List.Nodup.map_on _ (List.nodup_range _)
  intro x hx y hy hxy
  simp only [Function.comp, binding_key, Prod.mk.injEq] at hxy
  exact binary_label_injective x y (by have := List.mem_range.mp hx; omega)
    (by have := List.mem_range.mp hy; omega) hxy.1

theorem full_counter_calls_length : full_counter_calls.length = 4294967295 := by
  unfold full_counter_calls
  rw [List.length_map, List.length_range]

/-- After the registrations of `full_counter_calls` on a fresh agent the counter is
2 ^ 32 - 1 and the label of that number is bound to no handler. -/
theorem full_counter_state :
    (add_proto_handlers kms_sdp_agent_new full_counter_calls).1.hids % GUINT_MODULUS =
      4294967295 ∧
    has_binding (add_proto_handlers kms_sdp_agent_new full_counter_calls).1.medias
      (binary_label 4294967295) "RTP/AVP" = false := by
  obtain ⟨hcount, hbound⟩ := add_proto_handlers_unbound_state full_counter_calls
    kms_sdp_agent_new full_counter_calls_proto full_counter_calls_nodup (fun _ _ _ _ => rfl)
  refine ⟨?_, ?_⟩
  · have h0 : kms_sdp_agent_new.hids = 0 := rfl
    rw [hcount, full_counter_calls_length, h0]
    unfold GUINT_MODULUS
    norm_num
  · rw [← Bool.not_eq_true, hbound]
    have h0 : ∀ m p, has_binding kms_sdp_agent_new.medias m p = false := fun _ _ => rfl
    rw [h0]
    rintro (h | hmem)
    · exact Bool.false_ne_true h
    · unfold full_counter_calls at hmem
      rw [List.map_map, List.mem_map] at hmem
      obtain ⟨i, hi, hkey⟩ := hmem
      simp only [Function.comp, binding_key, Prod.mk.injEq] at hkey
      have hi2 := List.mem_range.mp hi
      have hlt : 4294967295 < 4294967296 := by omega
      have := binary_label_injective i 4294967295 (by omega) hlt hkey.1
      omega

/-- C10 as stated fails: after 2 ^ 32 - 1 registrations under pairwise distinct media
labels on a fresh agent the next pair is unbound; its registration appends the entry
with the id 2 ^ 32 - 1 and returns the identifier -1 (the `guint` counter read as
`gint`); the pair is bound from then on, and `add_handler` with another handler
reporting that pair returns -1 again, the identifier of the existing binding. -/
theorem duplicate_returns_the_identifier_of_the_binding :
    (∀ c ∈ full_counter_calls, c.2.proto ≠ none) ∧
    (full_counter_calls.map binding_key).Nodup ∧
    full_counter_calls.length = 4294967295 ∧
    has_binding (add_proto_handlers kms_sdp_agent_new full_counter_calls).1.medias
      (binary_label 4294967295) "RTP/AVP" = false ∧
    (kms_sdp_agent_add_proto_handler_impl
      (add_proto_handlers kms_sdp_agent_new full_counter_calls).1 (binary_label 4294967295)
      (sample_handler "RTP/AVP" 9)).2 = -1 ∧
    (kms_sdp_agent_add_proto_handler_impl
      (add_proto_handlers kms_sdp_agent_new full_counter_calls).1 (binary_label 4294967295)
      (sample_handler "RTP/AVP" 9)).1.handlers =
      (add_proto_handlers kms_sdp_agent_new full_counter_calls).1.handlers ++
        [⟨4294967295, binary_label 4294967295, sample_handler "RTP/AVP" 9⟩] ∧
    guint_to_gint 4294967295 = -1 ∧
    has_binding
      (kms_sdp_agent_add_proto_handler_impl
        (add_proto_handlers kms_sdp_agent_new full_counter_calls).1 (binary_label 4294967295)
        (sample_handler "RTP/AVP" 9)).1.medias (binary_label 4294967295) "RTP/AVP" = true ∧
    (kms_sdp_agent_add_proto_handler_impl
      (kms_sdp_agent_add_proto_handler_impl
        (add_proto_handlers kms_sdp_agent_new full_counter_calls).1 (binary_label 4294967295)
        (sample_handler "RTP/AVP" 9)).1
      (binary_label 4294967295) (sample_handler "RTP/AVP" 7)).2 = -1 := by
  have hstep := registration_at_full_counter
    (add_proto_handlers kms_sdp_agent_new full_counter_calls).1 (binary_label 4294967295)
    "RTP/AVP" (sample_handler "RTP/AVP" 9) (sample_handler "RTP/AVP" 7) rfl rfl
    full_counter_state.2 full_counter_state.1
  exact ⟨full_counter_calls_proto, full_counter_calls_nodup, full_counter_calls_length,
    full_counter_state.2, hstep.1, hstep.2.1, by decide, hstep.2.2.1, hstep.2.2.2⟩


/-! ## Answers: handlers that fail, handlers that were replaced -/

/-- C3, the code at the failing input: the audio handler sets an error and returns a
media description on port 9 all the same; `create_answer` puts that description into
the answer, not the rejection line of the offered audio line. -/
theorem failed_handler_media_is_answered :
    lookup_handler careless_agent sample_audio = some (careless_handler "RTP/AVP" 9) ∧
    (careless_handler "RTP/AVP" 9).create_answer sample_audio =
      (some { sample_audio with port := 9 }, some sample_error) ∧
    kms_sdp_agent_create_answer_impl accepting_model careless_agent audio_offer =
      .ok { version := some "0", origin := some ⟨"-", "0", "0", "IN", "IP4", "0.0.0.0"⟩,
            session_name := some "Kurento Media Server",
            connection := some ⟨"IN", "IP4", "0.0.0.0", 0, 0⟩, times := [],
            medias := [{ sample_audio with port := 9 }] } ∧
    ({ sample_audio with port := 9 } : GstSDPMedia) ≠ reject_media_answer sample_audio :=
  ⟨rfl, rfl, rfl, by decide⟩

/-- C5, the code at the failing input: the first audio handler (answering on port 9) is
registered with id 0, the second `add_handler` for the same pair (a handler answering
on port 7) returns -1 and leaves the handler list with the first handler alone, and
yet the offered audio line is from then on answered by the second handler. -/
theorem rejected_handler_builds_the_answer :
    (kms_sdp_agent_add_proto_handler_impl kms_sdp_agent_new "audio"
      (sample_handler "RTP/AVP" 9)).2 = 0 ∧
    answer_media_of audio_agent sample_audio = { sample_audio with port := 9 } ∧
    (kms_sdp_agent_add_proto_handler_impl audio_agent "audio"
      (sample_handler "RTP/AVP" 7)).2 = -1 ∧
    twice_registered_agent.handlers = [⟨0, "audio", sample_handler "RTP/AVP" 9⟩] ∧
    lookup_handler twice_registered_agent sample_audio = some (sample_handler "RTP/AVP" 7) ∧
    answer_media_of twice_registered_agent sample_audio = { sample_audio with port := 7 } ∧
    kms_sdp_agent_create_answer_impl accepting_model twice_registered_agent audio_offer =
      .ok { version := some "0", origin := some ⟨"-", "0", "0", "IN", "IP4", "0.0.0.0"⟩,
            session_name := some "Kurento Media Server",
            connection := some ⟨"IN", "IP4", "0.0.0.0", 0, 0⟩, times := [],
            medias := [{ sample_audio with port := 7 }] } :=
  ⟨by decide, rfl, by decide, rfl, rfl, rfl, rfl⟩


/-! ## Offers -/

theorem create_media_offers_members_medias (sdp_handler : SdpHandler)
    (m_conf : SdpMediaConfig) (group : SdpHandlerGroup) (ll : List SdpHandler) :
    ∀ ctx : SdpMessageContext,
      (create_media_offers_members sdp_handler m_conf group ll ctx).medias = ctx.medias := by
  induction ll with
  | nil => intro ctx; rfl
  | cons h rest ih =>
    intro ctx
    unfold create_media_offers_members
    split_ifs
    · exact ih ctx
    · rw [ih]
      cases kms_sdp_context_get_group ctx group.id <;>
        simp [kms_sdp_context_add_media_to_group, kms_sdp_context_create_group]

theorem create_media_offers_groups_medias (sdp_handler : SdpHandler)
    (m_conf : SdpMediaConfig) (l : List SdpHandlerGroup) :
    ∀ ctx : SdpMessageContext,
      (create_media_offers_groups sdp_handler m_conf l ctx).medias = ctx.medias := by
  induction l with
  | nil => intro ctx; rfl
  | cons g rest ih =>
    intro ctx
    unfold create_media_offers_groups
    rw [ih, create_media_offers_members_medias]

/-- A handler whose `create_offer` sets an error leaves the offer data as it was. -/
theorem create_media_offers_failed (sdp_handler : SdpHandler) (data : sdp_offer_data)
    (h : (sdp_handler.handler.create_offer sdp_handler.media).2 ≠ none) :
    create_media_offers sdp_handler data = data := by
  unfold create_media_offers kms_sdp_media_handler_create_offer
  cases he : (sdp_handler.handler.create_offer sdp_handler.media).2 with
  | none => exact absurd he h
  | some e => simp only [he]

/-- A handler whose `create_offer` sets no error adds what it returned as the last
media of the context, and leaves the agent alone. -/
theorem create_media_offers_ok (sdp_handler : SdpHandler) (data : sdp_offer_data)
    (h : (sdp_handler.handler.create_offer sdp_handler.media).2 = none) :
    (create_media_offers sdp_handler data).ctx.medias.map (fun c => c.media) =
      data.ctx.medias.map (fun c => c.media) ++
        [(sdp_handler.handler.create_offer sdp_handler.media).1] ∧
    (create_media_offers sdp_handler data).agent = data.agent := by
  unfold create_media_offers kms_sdp_media_handler_create_offer
  simp only [h]
  simp [create_media_offers_groups_medias, kms_sdp_context_add_media]

theorem create_media_offers_agent (sdp_handler : SdpHandler) (data : sdp_offer_data) :
    (create_media_offers sdp_handler data).agent = data.agent := by
  cases he : (sdp_handler.handler.create_offer sdp_handler.media).2 with
  | none => exact (create_media_offers_ok sdp_handler data he).2
  | some e => rw [create_media_offers_failed sdp_handler data (by simp [he])]

/-- The media of the context after the traversal of the handler list: what the
handlers that set no error returned, in list order, after the media that were there. -/
theorem foreach_create_media_offers_medias (handlers : List SdpHandler) :
    ∀ data : sdp_offer_data,
      (g_slist_foreach handlers create_media_offers data).ctx.medias.map (fun c => c.media) =
        data.ctx.medias.map (fun c => c.media) ++
          (handlers.filter
            (fun e => (e.handler.create_offer e.media).2.isNone)).map
            (fun e => (e.handler.create_offer e.media).1) := by
  induction handlers with
  | nil => intro data; simp [g_slist_foreach]
  | cons e rest ih =>
    intro data
    have hstep : g_slist_foreach (e :: rest) create_media_offers data =
        g_slist_foreach rest create_media_offers (create_media_offers e data) := rfl
    rw [hstep, ih]
    cases he : (e.handler.create_offer e.media).2 with
    | none =>
      rw [(create_media_offers_ok e data he).1]
      simp [List.filter_cons, he]
    | some err =>
      rw [create_media_offers_failed e data (by simp [he])]
      simp [List.filter_cons, he]

theorem filterMap_media_eq {l : List SdpMediaConfig} {ms : List GstSDPMedia}
    (h : l.map (fun c => c.media) = ms.map some) :
    l.filterMap (fun c => c.media) = ms := by
  induction l generalizing ms with
  | nil =>
    cases ms with
    | nil => rfl
    | cons m ms => simp at h
  | cons c rest ih =>
    cases ms with
    | nil => simp at h
    | cons m ms =>
      simp only [List.map_cons, List.cons.injEq] at h
      rw [List.filterMap_cons, h.1]
      simp [ih h.2]


/-- The entries a run of registrations for pairwise distinct unbound pairs appends to
the handler list: one for each call, in call order. -/
theorem add_proto_handlers_unbound_handlers (calls : List (String × KmsSdpMediaHandler)) :
    ∀ agent : KmsSdpAgentPrivate,
      (∀ c ∈ calls, c.2.proto ≠ none) →
      (calls.map binding_key).Nodup →
      (∀ c ∈ calls, ∀ p, c.2.proto = some p → has_binding agent.medias c.1 p = false) →
      (add_proto_handlers agent calls).1.handlers.map (fun e => (e.media, e.handler)) =
        agent.handlers.map (fun e => (e.media, e.handler)) ++ calls := by
  induction calls with
  | nil => intro agent _ _ _; simp [add_proto_handlers]
  | cons c rest ih =>
    intro agent hproto hnodup hfresh
    obtain ⟨media, handler⟩ := c
    obtain ⟨proto, hp⟩ : ∃ p, handler.proto = some p := by
      have := hproto (media, handler) (List.mem_cons_self _ _)
      exact Option.ne_none_iff_exists'.mp this
    have hb := hfresh (media, handler) (List.mem_cons_self _ _) proto hp
    obtain ⟨-, -, hlist⟩ := add_proto_handler_unbound agent media proto handler hp hb
    rw [List.map_cons, List.nodup_cons] at hnodup
    have hrest := ih (kms_sdp_agent_add_proto_handler_impl agent media handler).1
      (fun c hc => hproto c (List.mem_cons_of_mem _ hc)) hnodup.2
      (by
        intro c hc p hcp
        rw [has_binding_add_proto_handler agent media proto handler hp,
          hfresh c (List.mem_cons_of_mem _ hc) p hcp]
        simp only [Bool.false_or, Bool.and_eq_false_imp, decide_eq_true_eq,
          decide_eq_false_iff_not]
        intro hm hpp
        apply hnodup.1
        rw [List.mem_map]
        refine ⟨c, hc, ?_⟩
        simp [binding_key, hm, hpp, hp, hcp])
    simp only [add_proto_handlers, hrest, hlist]
    simp

theorem all_some_of_offers (l : List SdpHandler)
    (hoffer : ∀ e ∈ l, ∃ m, e.handler.create_offer e.media = (some m, none)) :
    ∃ ms : List GstSDPMedia,
      l.map (fun e => (e.handler.create_offer e.media).1) = ms.map some := by
  induction l with
  | nil => exact ⟨[], rfl⟩
  | cons e rest ih =>
    obtain ⟨ms, hms⟩ := ih (fun e he => hoffer e (List.mem_cons_of_mem _ he))
    obtain ⟨m, hm⟩ := hoffer e (List.mem_cons_self _ _)
    exact ⟨m :: ms, by simp [hm, hms]⟩

/-- The offer of an agent all of whose handlers produce their media without error:
one media line for each entry of the handler list, in list order. -/
theorem create_offer_all_ok (agent : KmsSdpAgentPrivate)
    (hoffer : ∀ e ∈ agent.handlers, ∃ m, e.handler.create_offer e.media = (some m, none)) :
    ∃ offer, kms_sdp_agent_create_offer_impl agent = .ok offer ∧
      offer.medias.map some =
        agent.handlers.map (fun e => (e.handler.create_offer e.media).1) := by
  refine ⟨_, rfl, ?_⟩
  have hall : agent.handlers.filter (fun e => (e.handler.create_offer e.media).2.isNone) =
      agent.handlers := by
    rw [List.filter_eq_self]
    intro e he
    obtain ⟨m, hm⟩ := hoffer e he
    simp [hm]
  have hmed := foreach_create_media_offers_medias agent.handlers
    { ctx := kms_sdp_context_new_message_context, agent := agent }
  rw [hall] at hmed
  obtain ⟨ms, hms⟩ := all_some_of_offers agent.handlers hoffer
  simp only [kms_sdp_context_new_message_context, List.map_nil, List.nil_append] at hmed
  simp only [sdp_mesage_context_pack, create_offer_context,
    kms_sdp_context_new_message_context]
  rw [hms] at hmed ⊢
  rw [filterMap_media_eq hmed]

/-- C6: an agent all of whose registered handlers produce their offer media without
error offers exactly one media line for each of them, the i-th line being the one the
i-th entry of the handler list produced for its media label; and after N registrations
on a fresh agent for pairwise distinct pairs the handler list holds the N handlers in
registration order, so the i-th line of the offer is the one of the i-th registered
handler. -/
theorem create_offer_follows_registration_order :
    (∀ agent : KmsSdpAgentPrivate,
      (∀ e ∈ agent.handlers, ∃ m, e.handler.create_offer e.media = (some m, none)) →
      ∃ offer, kms_sdp_agent_create_offer_impl agent = .ok offer ∧
        offer.medias.length = agent.handlers.length ∧
        ∀ i (hi : i < agent.handlers.length),
          offer.medias[i]? =
            ((agent.handlers.get ⟨i, hi⟩).handler.create_offer
              (agent.handlers.get ⟨i, hi⟩).media).1) ∧
    (∀ calls : List (String × KmsSdpMediaHandler),
      (∀ c ∈ calls, c.2.proto ≠ none) →
      (calls.map binding_key).Nodup →
      (∀ c ∈ calls, ∃ m, c.2.create_offer c.1 = (some m, none)) →
      ∃ offer,
        kms_sdp_agent_create_offer_impl (add_proto_handlers kms_sdp_agent_new calls).1
          = .ok offer ∧
        offer.medias.length = calls.length ∧
        ∀ i (hi : i < calls.length),
          offer.medias[i]? = ((calls.get ⟨i, hi⟩).2.create_offer (calls.get ⟨i, hi⟩).1).1) := by
  have hA : ∀ agent : KmsSdpAgentPrivate,
      (∀ e ∈ agent.handlers, ∃ m, e.handler.create_offer e.media = (some m, none)) →
      ∃ offer, kms_sdp_agent_create_offer_impl agent = .ok offer ∧
        offer.medias.length = agent.handlers.length ∧
        ∀ i (hi : i < agent.handlers.length),
          offer.medias[i]? =
            ((agent.handlers.get ⟨i, hi⟩).handler.create_offer
              (agent.handlers.get ⟨i, hi⟩).media).1 := by
    intro agent hoffer
    obtain ⟨offer, hok, hmed⟩ := create_offer_all_ok agent hoffer
    have hlen : offer.medias.length = agent.handlers.length := by
      have := congrArg List.length hmed
      simpa using this
    refine ⟨offer, hok, hlen, ?_⟩
    intro i hi
    have := congrArg (fun l => l[i]?) hmed
    simp only [List.getElem?_map] at this
    rw [List.getElem?_eq_getElem hi, List.getElem?_eq_getElem (hlen ▸ hi)] at this
    simp only [Option.map_some', Option.some.injEq] at this
    rw [List.getElem?_eq_getElem (hlen ▸ hi), this]
    rfl
  refine ⟨hA, ?_⟩
  intro calls hproto hnodup hoffer
  have hlist := add_proto_handlers_unbound_handlers calls kms_sdp_agent_new hproto hnodup
    (fun _ _ _ _ => rfl)
  simp only [kms_sdp_agent_new, List.map_nil, List.nil_append] at hlist
  have hlen : (add_proto_handlers kms_sdp_agent_new calls).1.handlers.length = calls.length := by
    have := congrArg List.length hlist
    simpa [kms_sdp_agent_new] using this
  have hget : ∀ i (hi : i < calls.length),
      (((add_proto_handlers kms_sdp_agent_new calls).1.handlers.get ⟨i, hlen ▸ hi⟩).media,
        ((add_proto_handlers kms_sdp_agent_new calls).1.handlers.get ⟨i, hlen ▸ hi⟩).handler) =
      calls.get ⟨i, hi⟩ := by
    intro i hi
    have := congrArg (fun l => l[i]?) hlist
    simp only [List.getElem?_map, kms_sdp_agent_new] at this
    rw [List.getElem?_eq_getElem hi] at this
    rw [List.getElem?_eq_getElem (by simpa [kms_sdp_agent_new] using hlen ▸ hi)] at this
    simp only [Option.map_some', Option.some.injEq] at this
    simpa [kms_sdp_agent_new] using this
  obtain ⟨offer, hok, hl, hline⟩ := hA (add_proto_handlers kms_sdp_agent_new calls).1 (by
    intro e he
    have hmem : (e.media, e.handler) ∈ calls := by
      rw [← hlist]
      exact List.mem_map.mpr ⟨e, he, rfl⟩
    exact hoffer _ hmem)
  refine ⟨offer, hok, hl.trans hlen, ?_⟩
  intro i hi
  rw [hline i (hlen ▸ hi), ← hget i hi]


/-- Handlers registered as video, audio, video give an offer with the lines video,
audio, video. -/
theorem create_offer_follows_registration_order_witness :
    kms_sdp_agent_create_offer_impl three_handler_agent =
      .ok { gst_sdp_message_new with
            medias := [
              { gst_sdp_media_new with
                  media := "video", port := 1, num_ports := 1, proto := "RTP/AVP",
                  fmts := ["0"] },
              { gst_sdp_media_new with
                  media := "audio", port := 2, num_ports := 1, proto := "RTP/AVP",
                  fmts := ["0"] },
              { gst_sdp_media_new with
                  media := "video", port := 3, num_ports := 1, proto := "RTP/SAVPF",
                  fmts := ["0"] }] } ∧
    ∃ offer,
      kms_sdp_agent_create_offer_impl
        (add_proto_handlers kms_sdp_agent_new
          [("video", sample_handler "RTP/AVP" 1), ("audio", sample_handler "RTP/AVP" 2),
           ("video", sample_handler "RTP/SAVPF" 3)]).1 = .ok offer ∧
      offer.medias.length = 3 :=
  ⟨rfl,
    (create_offer_follows_registration_order.2
      [("video", sample_handler "RTP/AVP" 1), ("audio", sample_handler "RTP/AVP" 2),
       ("video", sample_handler "RTP/SAVPF" 3)]
      (by decide) (by decide)
      (by
        intro c hc
        simp only [List.mem_cons, List.mem_singleton, List.not_mem_nil, or_false] at hc
        rcases hc with rfl | rfl | rfl <;> exact ⟨_, rfl⟩)).imp
      (fun _ h => ⟨h.1, h.2.1⟩)⟩

/-- C7: when one entry of the handler list fails to produce its offer media and all
others succeed, `create_offer` still returns a document; the failing entry adds
nothing to the context (no media, no group association), the context is the one the
other entries alone would have built, and the offer holds their N - 1 media lines
in their relative order. -/
theorem create_offer_skips_failed_handler (agent : KmsSdpAgentPrivate)
    (pre post : List SdpHandler) (failed : SdpHandler)
    (hsplit : agent.handlers = pre ++ failed :: post)
    (hfail : (failed.handler.create_offer failed.media).2 ≠ none)
    (hothers : ∀ e ∈ pre ++ post, ∃ m, e.handler.create_offer e.media = (some m, none)) :
    (∀ data, create_media_offers failed data = data) ∧
    create_offer_context agent =
      (g_slist_foreach (pre ++ post) create_media_offers
        { ctx := kms_sdp_context_new_message_context, agent := agent }).ctx ∧
    ∃ offer, kms_sdp_agent_create_offer_impl agent = .ok offer ∧
      offer.medias.length + 1 = agent.handlers.length ∧
      offer.medias.map some =
        (pre ++ post).map (fun e => (e.handler.create_offer e.media).1) := by
  have hskip : ∀ data, create_media_offers failed data = data :=
    fun data => create_media_offers_failed failed data hfail
  have hctx : create_offer_context agent =
      (g_slist_foreach (pre ++ post) create_media_offers
        { ctx := kms_sdp_context_new_message_context, agent := agent }).ctx := by
    unfold create_offer_context g_slist_foreach
    rw [hsplit, List.foldl_append, List.foldl_cons, hskip, ← List.foldl_append]
  refine ⟨hskip, hctx, _, rfl, ?_⟩
  obtain ⟨ms, hms⟩ := all_some_of_offers (pre ++ post) hothers
  have hmed := foreach_create_media_offers_medias (pre ++ post)
    { ctx := kms_sdp_context_new_message_context, agent := agent }
  have hall : (pre ++ post).filter (fun e => (e.handler.create_offer e.media).2.isNone) =
      pre ++ post := by
    rw [List.filter_eq_self]
    intro e he
    obtain ⟨m, hm⟩ := hothers e he
    simp [hm]
  rw [hall, hms] at hmed
  simp only [kms_sdp_context_new_message_context, List.map_nil, List.nil_append] at hmed
  have hpack : (sdp_mesage_context_pack (create_offer_context agent)).medias = ms := by
    rw [hctx]
    simp only [sdp_mesage_context_pack, kms_sdp_context_new_message_context]
    exact filterMap_media_eq hmed
  rw [hpack, hms]
  refine ⟨?_, rfl⟩
  have hl := congrArg List.length hms
  simp only [List.length_map, List.length_append] at hl
  rw [hsplit]
  simp only [List.length_append, List.length_cons]
  omega

/-- With a failing audio handler between two video handlers the offer has the two video
lines. -/
theorem create_offer_skips_failed_handler_witness :
    kms_sdp_agent_create_offer_impl failing_middle_agent =
      .ok { gst_sdp_message_new with
            medias := [
              { gst_sdp_media_new with
                  media := "video", port := 1, num_ports := 1, proto := "RTP/AVP",
                  fmts := ["0"] },
              { gst_sdp_media_new with
                  media := "video", port := 3, num_ports := 1, proto := "RTP/SAVPF",
                  fmts := ["0"] }] } ∧
    ∃ offer, kms_sdp_agent_create_offer_impl failing_middle_agent = .ok offer ∧
      offer.medias.length + 1 = 3 :=
  ⟨rfl,
    (create_offer_skips_failed_handler failing_middle_agent
      [⟨0, "video", sample_handler "RTP/AVP" 1⟩] [⟨2, "video", sample_handler "RTP/SAVPF" 3⟩]
      ⟨1, "audio", failing_handler "RTP/AVP"⟩ rfl (by simp [failing_handler])
      (by
        intro e he
        simp only [List.singleton_append, List.mem_cons, List.mem_singleton,
          List.not_mem_nil, or_false] at he
        rcases he with rfl | rfl <;> exact ⟨_, rfl⟩)).2.2.imp
      (fun _ h => ⟨h.1, h.2.1⟩)⟩

/-- C8, the code at the failing input: with `use-ipv6` set, the offer of the audio agent
carries no version, origin, session name or connection, and is the same document as
with `use-ipv6` unset; a document model that rejects every field makes `create_answer`
fail with the invalid-parameter error, while `create_offer`, which never consults the
model, still returns its document.  On the answer path the same agent gets the IP6
origin. -/
theorem create_offer_without_session_defaults :
    kms_sdp_agent_create_offer_impl ipv6_audio_agent =
      .ok { version := none, origin := none, session_name := none, connection := none,
            times := [],
            medias := [{ gst_sdp_media_new with
                          media := "audio", port := 9, num_ports := 1, proto := "RTP/AVP",
                          fmts := ["0"] }] } ∧
    kms_sdp_agent_create_offer_impl ipv6_audio_agent =
      kms_sdp_agent_create_offer_impl audio_agent ∧
    kms_sdp_agent_create_answer_impl rejecting_model ipv6_audio_agent audio_offer =
      .error { domain := "KMS_SDP_AGENT_ERROR", code := "SDP_AGENT_INVALID_PARAMETER",
               message := "Can not set attr: version" } ∧
    (kms_sdp_agent_set_default_session_attributes accepting_model ipv6_audio_agent
      gst_sdp_message_new).1.origin = some ⟨"-", "0", "0", "IN", "IP6", "::"⟩ :=
  ⟨rfl, rfl, rfl, rfl⟩


/-! ## Registrations that are turned away -/

/-- C11, the code at the failing input: the audio agent answers the audio line through
its registered handler (port 9); the second `add_handler` for the same pair returns -1
and leaves the handler list and the counter alone, but the lookup of `create_media_answer`
for the pair now returns the handler that was turned away (port 7): the table of the
registry has changed. -/
theorem rejected_registration_replaces_binding :
    lookup_handler audio_agent sample_audio = some (sample_handler "RTP/AVP" 9) ∧
    (kms_sdp_agent_add_proto_handler_impl audio_agent "audio"
      (sample_handler "RTP/AVP" 7)).2 = -1 ∧
    lookup_handler
      (kms_sdp_agent_add_proto_handler_impl audio_agent "audio"
        (sample_handler "RTP/AVP" 7)).1 sample_audio = some (sample_handler "RTP/AVP" 7) ∧
    sample_handler "RTP/AVP" 7 ≠ sample_handler "RTP/AVP" 9 ∧
    (kms_sdp_agent_add_proto_handler_impl audio_agent "audio"
      (sample_handler "RTP/AVP" 7)).1.handlers = audio_agent.handlers ∧
    (kms_sdp_agent_add_proto_handler_impl audio_agent "audio"
      (sample_handler "RTP/AVP" 7)).1.hids = audio_agent.hids ∧
    (kms_sdp_agent_add_proto_handler_impl audio_agent "audio"
      (sample_handler "RTP/AVP" 7)).1.medias =
      [("audio", [("RTP/AVP", sample_handler "RTP/AVP" 7)])] ∧
    audio_agent.medias = [("audio", [("RTP/AVP", sample_handler "RTP/AVP" 9)])] := by
  refine ⟨rfl, by decide, rfl, ?_, rfl, rfl, rfl, rfl⟩
  intro h
  have h2 := congrArg (fun x => (x.create_answer sample_audio).1.map (fun m => m.port)) h
  revert h2
  decide

/-- C12: `add_handler` with a handler whose protocol is absent returns -1 and leaves the
agent as it was: no per-media table, no binding, no entry, the counter unchanged. -/
theorem add_handler_without_proto_fails (agent : KmsSdpAgentPrivate) (media : String)
    (handler : KmsSdpMediaHandler) (h : handler.proto = none) :
    (kms_sdp_agent_add_proto_handler_impl agent media handler).2 = -1 ∧
    (kms_sdp_agent_add_proto_handler_impl agent media handler).1 = agent ∧
    (kms_sdp_agent_add_proto_handler_impl agent media handler).1.medias = agent.medias ∧
    (kms_sdp_agent_add_proto_handler_impl agent media handler).1.handlers = agent.handlers ∧
    (kms_sdp_agent_add_proto_handler_impl agent media handler).1.hids = agent.hids := by
  have : kms_sdp_agent_add_proto_handler_impl agent media handler = (agent, -1) := by
    unfold kms_sdp_agent_add_proto_handler_impl
    rw [h]
  rw [this]
  exact ⟨rfl, rfl, rfl, rfl, rfl⟩

/-- A handler without protocol is turned away by the audio agent, which stays as it was. -/
theorem add_handler_without_proto_fails_witness :
    (kms_sdp_agent_add_proto_handler_impl audio_agent "video" mute_handler).2 = -1 ∧
    (kms_sdp_agent_add_proto_handler_impl audio_agent "video" mute_handler).1 = audio_agent :=
  ⟨(add_handler_without_proto_fails audio_agent "video" mute_handler rfl).1,
    (add_handler_without_proto_fails audio_agent "video" mute_handler rfl).2.1⟩

/-- C13 as stated fails: on a fresh agent `add_handler` with a handler whose protocol is
the empty string returns the id 0, appends the entry and binds the handler: an offered
audio line with the empty protocol is answered by it, not rejected. -/
theorem empty_proto_is_registered :
    (sample_handler "" 9).proto = some "" ∧
    (kms_sdp_agent_add_proto_handler_impl kms_sdp_agent_new "audio" (sample_handler "" 9)).2
      = 0 ∧
    (kms_sdp_agent_add_proto_handler_impl kms_sdp_agent_new "audio"
      (sample_handler "" 9)).1.handlers = [⟨0, "audio", sample_handler "" 9⟩] ∧
    lookup_handler
      (kms_sdp_agent_add_proto_handler_impl kms_sdp_agent_new "audio" (sample_handler "" 9)).1
      empty_proto_audio = some (sample_handler "" 9) ∧
    answer_media_of
      (kms_sdp_agent_add_proto_handler_impl kms_sdp_agent_new "audio" (sample_handler "" 9)).1
      empty_proto_audio = { empty_proto_audio with port := 9 } :=
  ⟨rfl, by decide, rfl, rfl, rfl⟩

/-- C13, amended: the empty string is a protocol like any other.  `add_handler` with a
handler whose protocol is the empty string registers the handler when the media label
has no binding for the empty protocol (the counter value is returned, the entry is
appended, the lookup of the pair finds the handler), and fails with -1, appending no
entry, when it has one. -/
theorem empty_proto_registers_like_any_other (agent : KmsSdpAgentPrivate) (media : String)
    (handler : KmsSdpMediaHandler) (h : handler.proto = some "") :
    (has_binding agent.medias media "" = false →
      (kms_sdp_agent_add_proto_handler_impl agent media handler).2
        = guint_to_gint agent.hids ∧
      (kms_sdp_agent_add_proto_handler_impl agent media handler).1.handlers =
        agent.handlers ++ [⟨agent.hids % GUINT_MODULUS, media, handler⟩] ∧
      (kms_sdp_agent_add_proto_handler_impl agent media handler).1.hids =
        (agent.hids + 1) % GUINT_MODULUS) ∧
    (has_binding agent.medias media "" = true →
      (kms_sdp_agent_add_proto_handler_impl agent media handler).2 = -1 ∧
      (kms_sdp_agent_add_proto_handler_impl agent media handler).1.handlers =
        agent.handlers) ∧
    (∀ line : GstSDPMedia, line.media = media → line.proto = "" →
      lookup_handler (kms_sdp_agent_add_proto_handler_impl agent media handler).1 line =
        some handler) := by
  refine ⟨?_, ?_, ?_⟩
  · intro hb
    obtain ⟨h1, h2, h3⟩ := add_proto_handler_unbound agent media "" handler h hb
    exact ⟨h1, h3, h2⟩
  · intro hb
    obtain ⟨h1, -, h3⟩ := add_proto_handler_bound agent media "" handler h hb
    exact ⟨h1, h3⟩
  · intro line hm hp
    rw [lookup_handler_add_proto_handler agent media "" handler h, if_pos ⟨hm.symm, hp.symm⟩]

/-- On a fresh agent a handler with the empty protocol gets the id 0. -/
theorem empty_proto_registers_like_any_other_witness :
    (kms_sdp_agent_add_proto_handler_impl kms_sdp_agent_new "video" (sample_handler "" 5)).2
      = guint_to_gint kms_sdp_agent_new.hids :=
  ((empty_proto_registers_like_any_other kms_sdp_agent_new "video" (sample_handler "" 5)
    rfl).1 rfl).1


/-! ## Bundle groups -/

theorem add_proto_handler_groups (agent : KmsSdpAgentPrivate) (media : String)
    (handler : KmsSdpMediaHandler) :
    (kms_sdp_agent_add_proto_handler_impl agent media handler).1.groups = agent.groups ∧
    (kms_sdp_agent_add_proto_handler_impl agent media handler).1.gids = agent.gids := by
  unfold kms_sdp_agent_add_proto_handler_impl
  cases handler.proto with
  | none => exact ⟨rfl, rfl⟩
  | some proto =>
    simp only []
    split_ifs <;> exact ⟨rfl, rfl⟩

theorem group_append_handler_ids (gid : Nat) (handler : SdpHandler)
    (groups : List SdpHandlerGroup) :
    (group_append_handler gid handler groups).map (fun g => g.id) =
      groups.map (fun g => g.id) := by
  induction groups with
  | nil => rfl
  | cons g rest ih =>
    unfold group_append_handler
    split_ifs
    · simp
    · simp [ih]

theorem add_handler_to_group_ids (agent : KmsSdpAgentPrivate) (gid hid : Nat) :
    (kms_sdp_agent_add_handler_to_group_impl agent gid hid).1.groups.map (fun g => g.id) =
      agent.groups.map (fun g => g.id) ∧
    (kms_sdp_agent_add_handler_to_group_impl agent gid hid).1.gids = agent.gids := by
  unfold kms_sdp_agent_add_handler_to_group_impl
  cases kms_sdp_agent_get_group agent gid with
  | none => exact ⟨rfl, rfl⟩
  | some group =>
    cases kms_sdp_agent_get_handler agent hid with
    | none => exact ⟨rfl, rfl⟩
    | some handler =>
      simp only []
      split_ifs
      · exact ⟨rfl, rfl⟩
      · exact ⟨group_append_handler_ids _ _ _, rfl⟩

/-- A call other than `crate_bundle_group` leaves the group counter and the ids of the
groups as they were. -/
theorem run_other_call_groups (agent : KmsSdpAgentPrivate) (call : AgentCall)
    (h : call.is_crate_bundle_group = false) :
    (call.run agent).groups.map (fun g => g.id) = agent.groups.map (fun g => g.id) ∧
    (call.run agent).gids = agent.gids := by
  cases call with
  | add_proto_handler media handler =>
    obtain ⟨h1, h2⟩ := add_proto_handler_groups agent media handler
    exact ⟨by simp only [AgentCall.run, h1], h2⟩
  | crate_bundle_group => simp [AgentCall.is_crate_bundle_group] at h
  | add_handler_to_group gid hid => exact add_handler_to_group_ids agent gid hid
  | set_property prop_id value =>
    cases prop_id <;> exact ⟨rfl, rfl⟩
  | create_offer => exact ⟨rfl, rfl⟩
  | create_answer model offer => exact ⟨rfl, rfl⟩
  | set_local_description d => exact ⟨rfl, rfl⟩
  | set_remote_description d => exact ⟨rfl, rfl⟩
  | get_property prop_id => exact ⟨rfl, rfl⟩

/-- The group counter after a sequence of calls, modulo 2 ^ 32: the counter before plus
the number of `crate_bundle_group` calls. -/
theorem run_calls_gids (calls : List AgentCall) :
    ∀ agent : KmsSdpAgentPrivate,
      (run_calls agent calls).gids % GUINT_MODULUS =
        (agent.gids + calls.countP AgentCall.is_crate_bundle_group) % GUINT_MODULUS := by
  induction calls with
  | nil => intro agent; simp [run_calls]
  | cons call rest ih =>
    intro agent
    rw [run_calls, ih]
    cases hc : call.is_crate_bundle_group with
    | false =>
      rw [(run_other_call_groups agent call hc).2, List.countP_cons_of_neg _ _ (by simp [hc])]
    | true =>
      have hcall : call = AgentCall.crate_bundle_group := by
        cases call <;> simp [AgentCall.is_crate_bundle_group] at hc
        rfl
      subst hcall
      rw [List.countP_cons_of_pos _ _ hc]
      simp only [AgentCall.run, kms_sdp_agent_create_bundle_group_impl]
      rw [Nat.mod_add_mod]
      congr 1
      omega

/-- While the group counter does not wrap, it is the counter before plus the number of
`crate_bundle_group` calls, and every group id stays below it. -/
theorem run_calls_group_ids_below (calls : List AgentCall) :
    ∀ agent : KmsSdpAgentPrivate,
      (∀ g ∈ agent.groups, g.id < agent.gids) →
      agent.gids + calls.countP AgentCall.is_crate_bundle_group < GUINT_MODULUS →
      (run_calls agent calls).gids =
        agent.gids + calls.countP AgentCall.is_crate_bundle_group ∧
      ∀ g ∈ (run_calls agent calls).groups,
        g.id < agent.gids + calls.countP AgentCall.is_crate_bundle_group := by
  induction calls with
  | nil => intro agent hb _; simpa [run_calls] using hb
  | cons call rest ih =>
    intro agent hb hlt
    rw [run_calls]
    cases hc : call.is_crate_bundle_group with
    | false =>
      have hcount : (call :: rest).countP AgentCall.is_crate_bundle_group =
          rest.countP AgentCall.is_crate_bundle_group :=
        List.countP_cons_of_neg _ _ (by simp [hc])
      obtain ⟨hids, hg⟩ := run_other_call_groups agent call hc
      rw [hcount] at hlt ⊢
      have hb2 : ∀ g ∈ (call.run agent).groups, g.id < (call.run agent).gids := by
        intro g hgm
        have : g.id ∈ (call.run agent).groups.map (fun g => g.id) :=
          List.mem_map.mpr ⟨g, hgm, rfl⟩
        rw [hids, List.mem_map] at this
        obtain ⟨g2, hg2, heq⟩ := this
        rw [hg, ← heq]
        exact hb g2 hg2
      have := ih (call.run agent) hb2 (by rw [hg]; exact hlt)
      rw [hg] at this
      exact this
    | true =>
      have hcall : call = AgentCall.crate_bundle_group := by
        cases call <;> simp [AgentCall.is_crate_bundle_group] at hc
        rfl
      subst hcall
      have hcount : (AgentCall.crate_bundle_group :: rest).countP
          AgentCall.is_crate_bundle_group =
          rest.countP AgentCall.is_crate_bundle_group + 1 :=
        List.countP_cons_of_pos _ _ hc
      rw [hcount] at hlt ⊢
      have hm1 : agent.gids % GUINT_MODULUS = agent.gids := Nat.mod_eq_of_lt (by omega)
      have hm2 : (agent.gids + 1) % GUINT_MODULUS = agent.gids + 1 :=
        Nat.mod_eq_of_lt (by omega)
      have hgids : (AgentCall.crate_bundle_group.run agent).gids = agent.gids + 1 := by
        simp only [AgentCall.run, kms_sdp_agent_create_bundle_group_impl, hm2]
      have hb2 : ∀ g ∈ (AgentCall.crate_bundle_group.run agent).groups,
          g.id < (AgentCall.crate_bundle_group.run agent).gids := by
        intro g hgm
        rw [hgids]
        simp only [AgentCall.run, kms_sdp_agent_create_bundle_group_impl, List.mem_append,
          List.mem_singleton, hm1] at hgm
        rcases hgm with hgm | rfl
        · exact Nat.lt_succ_of_lt (hb g hgm)
        · simp [new_sdp_handler_group]
      have := ih (AgentCall.crate_bundle_group.run agent) hb2 (by rw [hgids]; omega)
      rw [hgids] at this
      have hadd : agent.gids + 1 + rest.countP AgentCall.is_crate_bundle_group =
          agent.gids + (rest.countP AgentCall.is_crate_bundle_group + 1) := by omega
      rw [hadd] at this
      exact this

/-- C14, amended: after any sequence of public calls on a fresh agent that holds fewer
than 2 ^ 31 calls of `crate_bundle_group`, a call of `crate_bundle_group` returns the
number k of such calls made before (so it never returns the failure value -1), the id
differs from the id of every existing group, and the group list is the one before
with a group of id k and no member appended. -/
theorem bundle_group_ids_count_from_zero (calls : List AgentCall)
    (hk : calls.countP AgentCall.is_crate_bundle_group < 2147483648) :
    (kms_sdp_agent_create_bundle_group_impl (run_calls kms_sdp_agent_new calls)).2 =
      ((calls.countP AgentCall.is_crate_bundle_group : Nat) : Int) ∧
    (∀ g ∈ (run_calls kms_sdp_agent_new calls).groups,
      (g.id : Int) ≠
        (kms_sdp_agent_create_bundle_group_impl (run_calls kms_sdp_agent_new calls)).2) ∧
    (kms_sdp_agent_create_bundle_group_impl (run_calls kms_sdp_agent_new calls)).1.groups =
      (run_calls kms_sdp_agent_new calls).groups ++
        [{ id := calls.countP AgentCall.is_crate_bundle_group, handlers := [] }] := by
  obtain ⟨hgids, hbelow⟩ := run_calls_group_ids_below calls kms_sdp_agent_new
    (by simp [kms_sdp_agent_new]) (by simp only [kms_sdp_agent_new, GUINT_MODULUS]; omega)
  have h0 : kms_sdp_agent_new.gids = 0 := rfl
  rw [h0, Nat.zero_add] at hgids hbelow
  have hmod : calls.countP AgentCall.is_crate_bundle_group % GUINT_MODULUS =
      calls.countP AgentCall.is_crate_bundle_group :=
    Nat.mod_eq_of_lt (by simp only [GUINT_MODULUS]; omega)
  have hret : (kms_sdp_agent_create_bundle_group_impl (run_calls kms_sdp_agent_new calls)).2 =
      ((calls.countP AgentCall.is_crate_bundle_group : Nat) : Int) := by
    simp only [kms_sdp_agent_create_bundle_group_impl, hgids, hmod]
    exact guint_to_gint_small _ hk
  refine ⟨hret, ?_, ?_⟩
  · intro g hg
    rw [hret]
    have := hbelow g hg
    omega
  · simp only [kms_sdp_agent_create_bundle_group_impl, hgids, hmod, new_sdp_handler_group]

/-- After the sample calls (one group created) the next group gets the id 1. -/
theorem bundle_group_ids_count_from_zero_witness :
    (kms_sdp_agent_create_bundle_group_impl (run_calls kms_sdp_agent_new sample_calls)).2 =
      ((sample_calls.countP AgentCall.is_crate_bundle_group : Nat) : Int) ∧
    sample_calls.countP AgentCall.is_crate_bundle_group = 2 :=
  ⟨(bundle_group_ids_count_from_zero sample_calls (by decide)).1, by decide⟩

/-- C14 as stated fails: after 2 ^ 31 calls of `crate_bundle_group` on a fresh agent the
next call returns -2147483648 (the `guint` counter read as `gint`), not 2147483648. -/
theorem bundle_group_id_wraps_negative :
    many_group_calls.countP AgentCall.is_crate_bundle_group = 2147483648 ∧
    (kms_sdp_agent_create_bundle_group_impl (run_calls kms_sdp_agent_new many_group_calls)).2 =
      (-2147483648 : Int) := by
  have hcount : many_group_calls.countP AgentCall.is_crate_bundle_group = 2147483648 := by
    unfold many_group_calls
    rw [List.countP_replicate]
    rfl
  refine ⟨hcount, ?_⟩
  have hg := run_calls_gids many_group_calls kms_sdp_agent_new
  rw [hcount] at hg
  simp only [kms_sdp_agent_create_bundle_group_impl]
  unfold guint_to_gint
  rw [Nat.mod_mod, hg]
  decide


theorem find_group_append_handler (gid : Nat) (handler : SdpHandler)
    (groups : List SdpHandlerGroup) (group : SdpHandlerGroup)
    (h : groups.find? (fun g => g.id = gid) = some group) :
    (group_append_handler gid handler groups).find? (fun g => g.id = gid) =
      some { group with handlers := group.handlers ++ [handler] } := by
  induction groups with
  | nil => simp at h
  | cons g rest ih =>
    unfold group_append_handler
    by_cases hg : g.id = gid
    · simp only [List.find?_cons, hg, decide_True] at h
      injection h with h
      subst h
      simp [hg]
    · simp only [List.find?_cons, hg, decide_False] at h
      simp [hg, ih h]

/-- C15: `add_handler_to_group` returns FALSE exactly when no group has the id `gid` or no
entry of the handler list has the id `hid`, and then the agent (the membership of
every group included) is as it was before. -/
theorem add_handler_to_group_fails_iff (agent : KmsSdpAgentPrivate) (gid hid : Nat) :
    ((kms_sdp_agent_add_handler_to_group_impl agent gid hid).2 = false ↔
      ((∀ g ∈ agent.groups, g.id ≠ gid) ∨ (∀ e ∈ agent.handlers, e.id ≠ hid))) ∧
    ((kms_sdp_agent_add_handler_to_group_impl agent gid hid).2 = false →
      (kms_sdp_agent_add_handler_to_group_impl agent gid hid).1 = agent ∧
      (kms_sdp_agent_add_handler_to_group_impl agent gid hid).1.groups = agent.groups) := by
  unfold kms_sdp_agent_add_handler_to_group_impl kms_sdp_agent_get_group
    kms_sdp_agent_get_handler
  cases hg : agent.groups.find? (fun g => g.id = gid) with
  | none =>
    have hno : ∀ g ∈ agent.groups, g.id ≠ gid := by
      intro g hgm
      have := List.find?_eq_none.mp hg g hgm
      simpa using this
    simp only [true_iff, true_and, and_self, implies_true, and_true]
    exact Or.inl hno
  | some group =>
    have hgm : group ∈ agent.groups := List.mem_of_find?_eq_some hg
    have hgid : group.id = gid := by simpa using List.find?_some hg
    cases hh : agent.handlers.find? (fun e => e.id = hid) with
    | none =>
      have hno : ∀ e ∈ agent.handlers, e.id ≠ hid := by
        intro e hem
        have := List.find?_eq_none.mp hh e hem
        simpa using this
      simp only [true_iff, true_and, and_self, implies_true, and_true]
      exact Or.inr hno
    | some handler =>
      have hhm : handler ∈ agent.handlers := List.mem_of_find?_eq_some hh
      have hhid : handler.id = hid := by simpa using List.find?_some hh
      have hne : ¬ ((∀ g ∈ agent.groups, g.id ≠ gid) ∨ (∀ e ∈ agent.handlers, e.id ≠ hid)) := by
        rintro (h | h)
        · exact h group hgm hgid
        · exact h handler hhm hhid
      simp only []
      split_ifs <;> simp [hne]

/-- C16: with a group of id `gid` and a handler entry of id `hid`, `add_handler_to_group`
returns TRUE and leaves `hid` a member of the group: the members are those before,
with the handler appended when its id was not among them.  A second identical call
returns TRUE and leaves the agent exactly as the first call left it. -/
theorem add_handler_to_group_idempotent (agent : KmsSdpAgentPrivate) (gid hid : Nat)
    (group : SdpHandlerGroup) (handler : SdpHandler)
    (hg : kms_sdp_agent_get_group agent gid = some group)
    (hh : kms_sdp_agent_get_handler agent hid = some handler) :
    (kms_sdp_agent_add_handler_to_group_impl agent gid hid).2 = true ∧
    kms_sdp_agent_get_group (kms_sdp_agent_add_handler_to_group_impl agent gid hid).1 gid =
      some { group with
        handlers := if group.handlers.any (fun h => h.id = hid) then group.handlers
                    else group.handlers ++ [handler] } ∧
    (∃ g, kms_sdp_agent_get_group (kms_sdp_agent_add_handler_to_group_impl agent gid hid).1 gid
        = some g ∧ hid ∈ g.handlers.map (fun h => h.id)) ∧
    (kms_sdp_agent_add_handler_to_group_impl
      (kms_sdp_agent_add_handler_to_group_impl agent gid hid).1 gid hid).2 = true ∧
    (kms_sdp_agent_add_handler_to_group_impl
      (kms_sdp_agent_add_handler_to_group_impl agent gid hid).1 gid hid).1 =
      (kms_sdp_agent_add_handler_to_group_impl agent gid hid).1 := by
  have hhid : handler.id = hid := by
    unfold kms_sdp_agent_get_handler at hh
    simpa using List.find?_some hh
  by_cases hany : group.handlers.any (fun h => h.id = hid) = true
  · have h1 : kms_sdp_agent_add_handler_to_group_impl agent gid hid = (agent, true) := by
      unfold kms_sdp_agent_add_handler_to_group_impl
      simp only [hg, hh, hany, if_true]
    rw [h1]
    simp only [h1, hg, hany, if_true, true_and, and_true]
    refine ⟨group, rfl, ?_⟩
    rw [List.any_eq_true] at hany
    obtain ⟨x, hx, hxid⟩ := hany
    exact List.mem_map.mpr ⟨x, hx, by simpa using hxid⟩
  · have h1 : kms_sdp_agent_add_handler_to_group_impl agent gid hid =
        ({ agent with groups := group_append_handler gid handler agent.groups }, true) := by
      unfold kms_sdp_agent_add_handler_to_group_impl
      simp only [hg, hh, hany]
      rfl
    have hg2 : kms_sdp_agent_get_group
        { agent with groups := group_append_handler gid handler agent.groups } gid =
        some { group with handlers := group.handlers ++ [handler] } :=
      find_group_append_handler gid handler agent.groups group hg
    have hh2 : kms_sdp_agent_get_handler
        { agent with groups := group_append_handler gid handler agent.groups } hid =
        some handler := hh
    have hany2 : (group.handlers ++ [handler]).any (fun h => h.id = hid) = true := by
      simp [hhid]
    have h2 : kms_sdp_agent_add_handler_to_group_impl
        { agent with groups := group_append_handler gid handler agent.groups } gid hid =
        ({ agent with groups := group_append_handler gid handler agent.groups }, true) := by
      unfold kms_sdp_agent_add_handler_to_group_impl
      simp only [hg2, hh2, hany2, if_true]
    rw [h1]
    simp only [h2, hg2, hany, and_true, true_and]
    refine ⟨by simp, _, rfl, ?_⟩
    simp [hhid]

/-- The audio handler (id 0) is put into the group 0 of the sample agent; the second
call changes nothing. -/
theorem add_handler_to_group_idempotent_witness :
    (kms_sdp_agent_add_handler_to_group_impl grouped_agent 0 0).2 = true ∧
    (kms_sdp_agent_add_handler_to_group_impl
      (kms_sdp_agent_add_handler_to_group_impl grouped_agent 0 0).1 0 0).1 =
      (kms_sdp_agent_add_handler_to_group_impl grouped_agent 0 0).1 ∧
    (kms_sdp_agent_add_handler_to_group_impl grouped_agent 0 0).1.groups =
      [⟨0, [⟨0, "audio", sample_handler "RTP/AVP" 9⟩]⟩] :=
  have h := add_handler_to_group_idempotent grouped_agent 0 0 ⟨0, []⟩
    ⟨0, "audio", sample_handler "RTP/AVP" 9⟩ rfl rfl
  ⟨h.1, h.2.2.2.2, rfl⟩


/-! ## Session defaults -/

theorem set_version_eq (model : GstSDPModel) (msg : GstSDPMessage) (v : String) :
    gst_sdp_message_set_version model msg v =
      (if model.set_version msg v = .GST_SDP_OK then { msg with version := some v } else msg,
        model.set_version msg v) := by
  unfold gst_sdp_message_set_version
  cases h : model.set_version msg v <;> simp

theorem set_origin_eq (model : GstSDPModel) (msg : GstSDPMessage)
    (a b c d e f : String) :
    gst_sdp_message_set_origin model msg a b c d e f =
      (if model.set_origin msg ⟨a, b, c, d, e, f⟩ = .GST_SDP_OK then
          { msg with origin := some ⟨a, b, c, d, e, f⟩ } else msg,
        model.set_origin msg ⟨a, b, c, d, e, f⟩) := by
  unfold gst_sdp_message_set_origin
  cases h : model.set_origin msg ⟨a, b, c, d, e, f⟩ <;> simp

theorem set_session_name_eq (model : GstSDPModel) (msg : GstSDPMessage) (v : String) :
    gst_sdp_message_set_session_name model msg v =
      (if model.set_session_name msg v = .GST_SDP_OK then { msg with session_name := some v }
        else msg,
        model.set_session_name msg v) := by
  unfold gst_sdp_message_set_session_name
  cases h : model.set_session_name msg v <;> simp

theorem set_connection_eq (model : GstSDPModel) (msg : GstSDPMessage)
    (a b c : String) (t n : Nat) :
    gst_sdp_message_set_connection model msg a b c t n =
      (if model.set_connection msg ⟨a, b, c, t, n⟩ = .GST_SDP_OK then
          { msg with connection := some ⟨a, b, c, t, n⟩ } else msg,
        model.set_connection msg ⟨a, b, c, t, n⟩) := by
  unfold gst_sdp_message_set_connection
  cases h : model.set_connection msg ⟨a, b, c, t, n⟩ <;> simp

/-- The function `kms_sdp_agent_set_default_session_attributes` as a cascade over the
verdicts of the document model. -/
theorem session_defaults_eq (model : GstSDPModel) (agent : KmsSdpAgentPrivate)
    (msg : GstSDPMessage) :
    kms_sdp_agent_set_default_session_attributes model agent msg =
      if model.set_version msg "0" ≠ .GST_SDP_OK then
        (msg, some (session_attr_error "version"))
      else if model.set_origin { msg with version := some "0" } (default_origin agent)
          ≠ .GST_SDP_OK then
        ({ msg with version := some "0" }, some (session_attr_error "origin"))
      else if model.set_session_name
          { msg with version := some "0", origin := some (default_origin agent) }
          "Kurento Media Server" ≠ .GST_SDP_OK then
        ({ msg with version := some "0", origin := some (default_origin agent) },
          some (session_attr_error "session"))
      else if model.set_connection
          { msg with version := some "0", origin := some (default_origin agent),
                     session_name := some "Kurento Media Server" }
          (default_connection agent) ≠ .GST_SDP_OK then
        ({ msg with version := some "0", origin := some (default_origin agent),
                    session_name := some "Kurento Media Server" },
          some (session_attr_error "connection"))
      else
        ({ msg with version := some "0", origin := some (default_origin agent),
                    session_name := some "Kurento Media Server",
                    connection := some (default_connection agent) }, none) := by
  unfold kms_sdp_agent_set_default_session_attributes
  simp only [set_version_eq, set_origin_eq, set_session_name_eq, set_connection_eq]
  by_cases h1 : model.set_version msg "0" = .GST_SDP_OK
  · simp only [h1, if_true, ne_eq, not_true_eq_false, if_false]
    by_cases h2 : model.set_origin { msg with version := some "0" } (default_origin agent)
        = .GST_SDP_OK
    · have h2' := h2
      unfold default_origin at h2'
      simp only [h2', h2, if_true, ne_eq, not_true_eq_false, if_false]
      by_cases h3 : model.set_session_name
          { msg with version := some "0", origin := some (default_origin agent) }
          "Kurento Media Server" = .GST_SDP_OK
      · have h3' := h3
        unfold default_origin at h3'
        simp only [h3', h3, if_true, ne_eq, not_true_eq_false, if_false]
        by_cases h4 : model.set_connection
            { msg with version := some "0", origin := some (default_origin agent),
                       session_name := some "Kurento Media Server" }
            (default_connection agent) = .GST_SDP_OK
        · have h4' := h4
          unfold default_origin default_connection at h4'
          simp only [h4', h4, if_true, ne_eq, not_true_eq_false, if_false]
          rfl
        · have h4' := h4
          unfold default_origin default_connection at h4'
          simp only [h4', h4, if_false, ne_eq, not_false_eq_true, if_true]
          rfl
      · have h3' := h3
        unfold default_origin at h3'
        simp only [h3', h3, if_false, ne_eq, not_false_eq_true, if_true]
        rfl
    · have h2' := h2
      unfold default_origin at h2'
      simp only [h2', h2, if_false, ne_eq, not_false_eq_true, if_true]
  · simp only [h1, if_false, ne_eq, not_false_eq_true, if_true]


/-- What a successful run of the session defaults leaves in the message. -/
theorem session_defaults_ok (model : GstSDPModel) (agent : KmsSdpAgentPrivate)
    (msg : GstSDPMessage)
    (h : (kms_sdp_agent_set_default_session_attributes model agent msg).2 = none) :
    (kms_sdp_agent_set_default_session_attributes model agent msg).1 =
      { msg with version := some "0", origin := some (default_origin agent),
                 session_name := some "Kurento Media Server",
                 connection := some (default_connection agent) } := by
  rw [session_defaults_eq] at h ⊢
  split_ifs at h ⊢
  all_goals simp_all

/-- C18: when the session defaults are applied successfully to a message, its version is
"0", its origin and connection have the network type "IN" and both carry the address
type "IP4" and the address "0.0.0.0" when `use_ipv6` is unset, "IP6" and "::" when it
is set; the same holds for every answer `create_answer` returns. -/
theorem session_defaults_values (model : GstSDPModel) (agent : KmsSdpAgentPrivate) :
    (∀ msg : GstSDPMessage,
      (kms_sdp_agent_set_default_session_attributes model agent msg).2 = none →
      (kms_sdp_agent_set_default_session_attributes model agent msg).1.version = some "0" ∧
      (kms_sdp_agent_set_default_session_attributes model agent msg).1.origin =
        some ⟨"-", "0", "0", "IN", if agent.use_ipv6 then "IP6" else "IP4",
              if agent.use_ipv6 then "::" else "0.0.0.0"⟩ ∧
      (kms_sdp_agent_set_default_session_attributes model agent msg).1.connection =
        some ⟨"IN", if agent.use_ipv6 then "IP6" else "IP4",
              if agent.use_ipv6 then "::" else "0.0.0.0", 0, 0⟩) ∧
    (∀ offer answer : GstSDPMessage,
      kms_sdp_agent_create_answer_impl model agent offer = .ok answer →
      answer.version = some "0" ∧
      answer.origin =
        some ⟨"-", "0", "0", "IN", if agent.use_ipv6 then "IP6" else "IP4",
              if agent.use_ipv6 then "::" else "0.0.0.0"⟩ ∧
      answer.connection =
        some ⟨"IN", if agent.use_ipv6 then "IP6" else "IP4",
              if agent.use_ipv6 then "::" else "0.0.0.0", 0, 0⟩ ∧
      ∃ o c, answer.origin = some o ∧ answer.connection = some c ∧
        o.addrtype = c.addrtype ∧ o.addr = c.address) := by
  have hmsg : ∀ msg : GstSDPMessage,
      (kms_sdp_agent_set_default_session_attributes model agent msg).2 = none →
      (kms_sdp_agent_set_default_session_attributes model agent msg).1.version = some "0" ∧
      (kms_sdp_agent_set_default_session_attributes model agent msg).1.origin =
        some ⟨"-", "0", "0", "IN", if agent.use_ipv6 then "IP6" else "IP4",
              if agent.use_ipv6 then "::" else "0.0.0.0"⟩ ∧
      (kms_sdp_agent_set_default_session_attributes model agent msg).1.connection =
        some ⟨"IN", if agent.use_ipv6 then "IP6" else "IP4",
              if agent.use_ipv6 then "::" else "0.0.0.0", 0, 0⟩ := by
    intro msg h
    rw [session_defaults_ok model agent msg h]
    exact ⟨rfl, rfl, rfl⟩
  refine ⟨hmsg, ?_⟩
  intro offer answer h
  rw [create_answer_impl_eq] at h
  split at h
  · exact absurd h (by simp)
  · next hok =>
    injection h with h
    subst h
    obtain ⟨h1, h2, h3⟩ := hmsg gst_sdp_message_new hok
    exact ⟨h1, h2, h3, _, _, h2, h3, rfl, rfl⟩

/-- With `use-ipv6` set the answer to the audio offer carries IP6 and "::" in its origin and
connection. -/
theorem session_defaults_values_witness :
    kms_sdp_agent_create_answer_impl accepting_model ipv6_audio_agent audio_offer =
      .ok { version := some "0", origin := some ⟨"-", "0", "0", "IN", "IP6", "::"⟩,
            session_name := some "Kurento Media Server",
            connection := some ⟨"IN", "IP6", "::", 0, 0⟩, times := [],
            medias := [{ sample_audio with port := 9 }] } ∧
    (kms_sdp_agent_set_default_session_attributes accepting_model ipv6_audio_agent
      gst_sdp_message_new).1.origin = some ⟨"-", "0", "0", "IN", "IP6", "::"⟩ :=
  ⟨rfl, ((session_defaults_values accepting_model ipv6_audio_agent).1 gst_sdp_message_new
    rfl).2.1⟩

/-- C19: the session defaults fail exactly when the document model rejects one of the
four fields.  The error is the invalid-parameter error with a message that names the
first rejected field in the order version, origin, session, connection; the fields
before it are set and no field after it is.  When the step fails inside `create_answer`
no document is returned, and the result is that error whatever handlers are
registered and whatever the offer holds: no media line is processed. -/
theorem session_defaults_failure (model : GstSDPModel) (agent : KmsSdpAgentPrivate)
    (msg : GstSDPMessage) :
    (model.set_version msg "0" ≠ .GST_SDP_OK →
      kms_sdp_agent_set_default_session_attributes model agent msg =
        (msg, some ⟨KMS_SDP_AGENT_ERROR, "SDP_AGENT_INVALID_PARAMETER",
          "Can not set attr: version"⟩)) ∧
    (model.set_version msg "0" = .GST_SDP_OK →
      model.set_origin { msg with version := some "0" } (default_origin agent)
        ≠ .GST_SDP_OK →
      kms_sdp_agent_set_default_session_attributes model agent msg =
        ({ msg with version := some "0" },
          some ⟨KMS_SDP_AGENT_ERROR, "SDP_AGENT_INVALID_PARAMETER",
            "Can not set attr: origin"⟩)) ∧
    (model.set_version msg "0" = .GST_SDP_OK →
      model.set_origin { msg with version := some "0" } (default_origin agent)
        = .GST_SDP_OK →
      model.set_session_name
        { msg with version := some "0", origin := some (default_origin agent) }
        "Kurento Media Server" ≠ .GST_SDP_OK →
      kms_sdp_agent_set_default_session_attributes model agent msg =
        ({ msg with version := some "0", origin := some (default_origin agent) },
          some ⟨KMS_SDP_AGENT_ERROR, "SDP_AGENT_INVALID_PARAMETER",
            "Can not set attr: session"⟩)) ∧
    (model.set_version msg "0" = .GST_SDP_OK →
      model.set_origin { msg with version := some "0" } (default_origin agent)
        = .GST_SDP_OK →
      model.set_session_name
        { msg with version := some "0", origin := some (default_origin agent) }
        "Kurento Media Server" = .GST_SDP_OK →
      model.set_connection
        { msg with version := some "0", origin := some (default_origin agent),
                   session_name := some "Kurento Media Server" }
        (default_connection agent) ≠ .GST_SDP_OK →
      kms_sdp_agent_set_default_session_attributes model agent msg =
        ({ msg with version := some "0", origin := some (default_origin agent),
                    session_name := some "Kurento Media Server" },
          some ⟨KMS_SDP_AGENT_ERROR, "SDP_AGENT_INVALID_PARAMETER",
            "Can not set attr: connection"⟩)) ∧
    ((kms_sdp_agent_set_default_session_attributes model agent msg).2 = none ↔
      (model.set_version msg "0" = .GST_SDP_OK ∧
        model.set_origin { msg with version := some "0" } (default_origin agent)
          = .GST_SDP_OK ∧
        model.set_session_name
          { msg with version := some "0", origin := some (default_origin agent) }
          "Kurento Media Server" = .GST_SDP_OK ∧
        model.set_connection
          { msg with version := some "0", origin := some (default_origin agent),
                     session_name := some "Kurento Media Server" }
          (default_connection agent) = .GST_SDP_OK)) ∧
    (∀ err, (kms_sdp_agent_set_default_session_attributes model agent gst_sdp_message_new).2
        = some err →
      ∀ (other : KmsSdpAgentPrivate) (offer : GstSDPMessage),
        other.use_ipv6 = agent.use_ipv6 →
        kms_sdp_agent_create_answer_impl model other offer = .error err) := by
  refine ⟨?_, ?_, ?_, ?_, ?_, ?_⟩
  · intro h1
    rw [session_defaults_eq, if_pos h1]
    rfl
  · intro h1 h2
    rw [session_defaults_eq, if_neg (by simp [h1]), if_pos h2]
    rfl
  · intro h1 h2 h3
    rw [session_defaults_eq, if_neg (by simp [h1]), if_neg (by simp [h2]), if_pos h3]
    rfl
  · intro h1 h2 h3 h4
    rw [session_defaults_eq, if_neg (by simp [h1]), if_neg (by simp [h2]),
      if_neg (by simp [h3]), if_pos h4]
    rfl
  · rw [session_defaults_eq]
    split_ifs <;> simp_all
  · intro err herr other offer huse
    have hsame : kms_sdp_agent_set_default_session_attributes model other gst_sdp_message_new =
        kms_sdp_agent_set_default_session_attributes model agent gst_sdp_message_new := by
      rw [session_defaults_eq, session_defaults_eq]
      simp only [default_origin, default_connection, huse]
    rw [create_answer_impl_eq, hsame, herr]

/-- A document model that rejects the session name: the version and the origin are set,
the error names the session, and `create_answer` returns that error. -/
theorem session_defaults_failure_witness :
    kms_sdp_agent_set_default_session_attributes session_rejecting_model audio_agent
        gst_sdp_message_new =
      ({ gst_sdp_message_new with
          version := some "0", origin := some ⟨"-", "0", "0", "IN", "IP4", "0.0.0.0"⟩ },
        some ⟨"KMS_SDP_AGENT_ERROR", "SDP_AGENT_INVALID_PARAMETER",
          "Can not set attr: session"⟩) ∧
    kms_sdp_agent_create_answer_impl session_rejecting_model audio_agent sample_offer =
      .error ⟨"KMS_SDP_AGENT_ERROR", "SDP_AGENT_INVALID_PARAMETER",
        "Can not set attr: session"⟩ :=
  ⟨(session_defaults_failure session_rejecting_model audio_agent gst_sdp_message_new).2.2.1
      rfl rfl (by decide),
    (session_defaults_failure session_rejecting_model audio_agent gst_sdp_message_new).2.2.2.2.2
      _ rfl audio_agent sample_offer rfl⟩

/-- C20, the code at the failing input: after `set_local_description` and
`set_remote_description` with the sample offer on a fresh agent both accessors still
return NULL, not the document; the two functions leave every agent as it was. -/
theorem set_description_stores_nothing :
    kms_sdp_agent_get_property
      (kms_sdp_agent_set_local_description_impl kms_sdp_agent_new sample_offer)
      .PROP_LOCAL_DESC = .boxed none ∧
    kms_sdp_agent_get_property
      (kms_sdp_agent_set_remote_description_impl kms_sdp_agent_new sample_offer)
      .PROP_REMOTE_DESC = .boxed none ∧
    GValue.boxed none ≠ GValue.boxed (some sample_offer) ∧
    (∀ agent description,
      kms_sdp_agent_set_local_description_impl agent description = agent ∧
      kms_sdp_agent_set_remote_description_impl agent description = agent) :=
  ⟨rfl, rfl, by decide, fun _ _ => ⟨rfl, rfl⟩⟩


/-! ## Offers: media and group contexts -/

theorem find_group_add_media (gid : Nat) (c : SdpMediaConfig) (gid2 : Nat)
    (groups : List SdpMediaGroup) :
    (group_add_media gid c groups).find? (fun g => g.id = gid2) =
      if gid = gid2 then
        (groups.find? (fun g => g.id = gid)).map
          (fun g => { g with medias := g.medias ++ [c] })
      else groups.find? (fun g => g.id = gid2) := by
  induction groups with
  | nil => simp [group_add_media]
  | cons g rest ih =>
    unfold group_add_media
    by_cases hg : g.id = gid
    · by_cases h2 : gid = gid2
      · subst h2
        simp [hg]
      · have : ¬ g.id = gid2 := fun h => h2 (hg.symm.trans h)
        simp [hg, h2, this]
    · by_cases h2 : gid = gid2
      · subst h2
        simp only [hg, if_false, List.find?_cons, decide_False, if_true]
        simpa using ih
      · simp only [hg, if_false, List.find?_cons, h2]
        by_cases h3 : g.id = gid2
        · simp [h3]
        · simpa [h3, h2] using ih

theorem group_add_media_ids (gid : Nat) (c : SdpMediaConfig) (groups : List SdpMediaGroup) :
    (group_add_media gid c groups).map (fun g => g.id) = groups.map (fun g => g.id) := by
  induction groups with
  | nil => rfl
  | cons g rest ih =>
    unfold group_add_media
    split_ifs
    · simp
    · simp [ih]

/-- One pass through the body of the inner loop of `create_media_offers`: the group
context keyed by `gid` (fetched, or created when there is none) gets the handle as its
last media; the other group contexts and the media of the document stay. -/
theorem attach_group_context_medias (ctx : SdpMessageContext) (gid : Nat)
    (c : SdpMediaConfig) (gid2 : Nat) :
    group_context_medias
      (kms_sdp_context_add_media_to_group
        (match kms_sdp_context_get_group ctx gid with
          | some _ => ctx
          | none => kms_sdp_context_create_group ctx gid) gid c) gid2 =
      group_context_medias ctx gid2 ++ (if gid = gid2 then [c] else []) := by
  unfold group_context_medias kms_sdp_context_add_media_to_group kms_sdp_context_get_group
  simp only [find_group_add_media]
  cases hf : ctx.groups.find? (fun g => g.id = gid) with
  | some g =>
    by_cases h2 : gid = gid2
    · subst h2
      simp [hf]
    · simp [h2]
  | none =>
    simp only [kms_sdp_context_create_group, List.find?_append, hf]
    by_cases h2 : gid = gid2
    · subst h2
      simp [hf]
    · simp [h2]

theorem attach_group_ids (ctx : SdpMessageContext) (gid : Nat) (c : SdpMediaConfig)
    (h : (ctx.groups.map (fun g => g.id)).Nodup) :
    ((kms_sdp_context_add_media_to_group
        (match kms_sdp_context_get_group ctx gid with
          | some _ => ctx
          | none => kms_sdp_context_create_group ctx gid) gid c).groups.map
      (fun g => g.id)).Nodup := by
  unfold kms_sdp_context_add_media_to_group kms_sdp_context_get_group
  simp only [group_add_media_ids]
  cases hf : ctx.groups.find? (fun g => g.id = gid) with
  | some g => exact h
  | none =>
    simp only [kms_sdp_context_create_group, List.map_append, List.map_cons, List.map_nil]
    rw [List.nodup_append]
    refine ⟨h, List.nodup_singleton _, ?_⟩
    intro a ha hb
    rw [List.mem_singleton] at hb
    subst hb
    rw [List.mem_map] at ha
    obtain ⟨g, hg, hgid⟩ := ha
    have := List.find?_eq_none.mp hf g hg
    simp [hgid] at this

/-- The inner loop of `create_media_offers` over the members of a group: the group context
keyed by the id of the group gets the handle once for every member with the id of the
entry. -/
theorem create_media_offers_members_groups (sdp_handler : SdpHandler)
    (c : SdpMediaConfig) (group : SdpHandlerGroup) (gid2 : Nat) (ll : List SdpHandler) :
    ∀ ctx : SdpMessageContext,
      group_context_medias (create_media_offers_members sdp_handler c group ll ctx) gid2 =
        group_context_medias ctx gid2 ++
          (if group.id = gid2 then
            List.replicate (ll.countP (fun h => h.id = sdp_handler.id)) c
           else []) ∧
      ((ctx.groups.map (fun g => g.id)).Nodup →
        ((create_media_offers_members sdp_handler c group ll ctx).groups.map
          (fun g => g.id)).Nodup) := by
  induction ll with
  | nil => intro ctx; simp [create_media_offers_members]
  | cons h rest ih =>
    intro ctx
    unfold create_media_offers_members
    by_cases hid : sdp_handler.id = h.id
    · simp only [hid, ne_eq, not_true_eq_false, if_false]
      obtain ⟨h1, h2⟩ := ih (kms_sdp_context_add_media_to_group
        (match kms_sdp_context_get_group ctx group.id with
          | some _ => ctx
          | none => kms_sdp_context_create_group ctx group.id) group.id c)
      refine ⟨?_, fun hn => h2 (attach_group_ids ctx group.id c hn)⟩
      rw [hid] at h1
      rw [h1, attach_group_context_medias]
      by_cases hg : group.id = gid2
      · simp [hg, List.replicate_succ]
      · simp [hg]
    · have hne : ¬ h.id = sdp_handler.id := fun hh => hid hh.symm
      simp only [ne_eq, hid, not_false_eq_true, if_true]
      obtain ⟨h1, h2⟩ := ih ctx
      refine ⟨?_, h2⟩
      rw [h1]
      simp [hne]

/-- The outer loop of `create_media_offers` over the groups of the agent. -/
theorem create_media_offers_groups_groups (sdp_handler : SdpHandler) (c : SdpMediaConfig)
    (gid2 : Nat) (l : List SdpHandlerGroup) :
    ∀ ctx : SdpMessageContext,
      group_context_medias (create_media_offers_groups sdp_handler c l ctx) gid2 =
        group_context_medias ctx gid2 ++
          List.replicate (membership_count gid2 sdp_handler.id l) c ∧
      ((ctx.groups.map (fun g => g.id)).Nodup →
        ((create_media_offers_groups sdp_handler c l ctx).groups.map
          (fun g => g.id)).Nodup) := by
  induction l with
  | nil => intro ctx; simp [create_media_offers_groups, membership_count]
  | cons group rest ih =>
    intro ctx
    unfold create_media_offers_groups
    obtain ⟨h1, h2⟩ := ih (create_media_offers_members sdp_handler c group group.handlers ctx)
    obtain ⟨h3, h4⟩ :=
      create_media_offers_members_groups sdp_handler c group gid2 group.handlers ctx
    refine ⟨?_, fun hn => h2 (h4 hn)⟩
    rw [h1, h3, membership_count]
    by_cases hg : group.id = gid2
    · rw [if_pos hg, if_pos hg, List.replicate_add, List.append_assoc]
    · rw [if_neg hg, if_neg hg, Nat.zero_add, List.append_nil]


/-- The callback `create_media_offers` for an entry whose handler sets no error: the media
gets the next handle of the context, and the handle is associated with the group
context of every group id as often as `membership_count` says. -/
theorem create_media_offers_ok_groups (e : SdpHandler) (data : sdp_offer_data)
    (h : (kms_sdp_media_handler_create_offer e.handler e.media).2.isNone = true) :
    (create_media_offers e data).ctx.medias =
      data.ctx.medias ++
        [⟨data.ctx.medias.length, (kms_sdp_media_handler_create_offer e.handler e.media).1⟩] ∧
    (∀ gid, group_context_medias (create_media_offers e data).ctx gid =
      group_context_medias data.ctx gid ++
        List.replicate (membership_count gid e.id data.agent.groups)
          ⟨data.ctx.medias.length,
            (kms_sdp_media_handler_create_offer e.handler e.media).1⟩) ∧
    ((data.ctx.groups.map (fun g => g.id)).Nodup →
      ((create_media_offers e data).ctx.groups.map (fun g => g.id)).Nodup) := by
  have hnone : (kms_sdp_media_handler_create_offer e.handler e.media).2 = none := by
    cases hx : (kms_sdp_media_handler_create_offer e.handler e.media).2 with
    | none => rfl
    | some x => rw [hx] at h; simp at h
  unfold create_media_offers
  simp only [hnone]
  refine ⟨?_, ?_, ?_⟩
  · rw [create_media_offers_groups_medias]
    rfl
  · intro gid
    rw [(create_media_offers_groups_groups e _ gid data.agent.groups _).1]
    rfl
  · intro hn
    exact (create_media_offers_groups_groups e _ 0 data.agent.groups _).2 hn

/-- The context after the traversal of the handler list: its media are the handles of
the entries that produced a line, in list order, and the group context of every group
id holds each of these handles as often as `membership_count` says, in that order. -/
theorem foreach_create_media_offers_groups (handlers : List SdpHandler) :
    ∀ data : sdp_offer_data,
      (g_slist_foreach handlers create_media_offers data).ctx.medias =
        data.ctx.medias ++
          (offered_medias data.ctx.medias.length handlers).map (fun p => p.2) ∧
      (∀ gid,
        group_context_medias (g_slist_foreach handlers create_media_offers data).ctx gid =
          group_context_medias data.ctx gid ++
            (offered_medias data.ctx.medias.length handlers).flatMap
              (fun p => List.replicate (membership_count gid p.1.id data.agent.groups) p.2)) ∧
      ((data.ctx.groups.map (fun g => g.id)).Nodup →
        ((g_slist_foreach handlers create_media_offers data).ctx.groups.map
          (fun g => g.id)).Nodup) := by
  induction handlers with
  | nil => intro data; simp [g_slist_foreach, offered_medias]
  | cons e rest ih =>
    intro data
    have hstep : g_slist_foreach (e :: rest) create_media_offers data =
        g_slist_foreach rest create_media_offers (create_media_offers e data) := rfl
    rw [hstep]
    obtain ⟨i1, i2, i3⟩ := ih (create_media_offers e data)
    by_cases hok : (kms_sdp_media_handler_create_offer e.handler e.media).2.isNone = true
    · obtain ⟨s1, s2, s3⟩ := create_media_offers_ok_groups e data hok
      have hlen : (create_media_offers e data).ctx.medias.length =
          data.ctx.medias.length + 1 := by
        rw [s1]; simp
      have hagent := create_media_offers_agent e data
      rw [hlen] at i1 i2
      rw [hagent] at i2
      refine ⟨?_, ?_, fun hn => i3 (s3 hn)⟩
      · rw [i1, s1]
        simp [offered_medias, hok]
      · intro gid
        rw [i2 gid, s2 gid]
        simp [offered_medias, hok]
    · have hfail : create_media_offers e data = data := by
        apply create_media_offers_failed
        intro hnone
        apply hok
        unfold kms_sdp_media_handler_create_offer
        rw [hnone]
        rfl
      clear i1 i2 i3
      rw [hfail]
      obtain ⟨i1, i2, i3⟩ := ih data
      refine ⟨?_, ?_, i3⟩
      · rw [i1]
        simp [offered_medias, hok]
      · intro gid
        rw [i2 gid]
        simp [offered_medias, hok]

/-- The handles of `offered_medias` are numbered upwards from the start value. -/
theorem offered_medias_ids (handlers : List SdpHandler) :
    ∀ n, (∀ p ∈ offered_medias n handlers, n ≤ p.2.id) ∧
      ((offered_medias n handlers).map (fun p => p.2)).Nodup := by
  induction handlers with
  | nil => intro n; simp [offered_medias]
  | cons e rest ih =>
    intro n
    unfold offered_medias
    split_ifs
    · obtain ⟨h1, h2⟩ := ih (n + 1)
      refine ⟨?_, ?_⟩
      · intro p hp
        rw [List.mem_cons] at hp
        rcases hp with rfl | hp
        · exact Nat.le_refl _
        · exact Nat.le_of_succ_le (h1 p hp)
      · rw [List.map_cons, List.nodup_cons]
        refine ⟨?_, h2⟩
        intro hmem
        rw [List.mem_map] at hmem
        obtain ⟨p, hp, heq⟩ := hmem
        have := h1 p hp
        rw [heq] at this
        simp at this
    · obtain ⟨h1, h2⟩ := ih n
      exact ⟨h1, h2⟩

/-- Counting one handle in the concatenation of the blocks of all handles. -/
theorem count_in_blocks (m : SdpHandler → Nat) (e : SdpHandler) (c : SdpMediaConfig) :
    ∀ P : List (SdpHandler × SdpMediaConfig),
      (P.map (fun p => p.2)).Nodup → (e, c) ∈ P →
      (P.flatMap (fun p => List.replicate (m p.1) p.2)).count c = m e := by
  intro P
  induction P with
  | nil => intro _ h; simp at h
  | cons p rest ih =>
    intro hn hmem
    rw [List.map_cons, List.nodup_cons] at hn
    rw [List.flatMap_cons, List.count_append, List.count_replicate]
    rw [List.mem_cons] at hmem
    rcases hmem with rfl | hmem
    · have hrest : (rest.flatMap (fun p => List.replicate (m p.1) p.2)).count c = 0 := by
        rw [List.count_eq_zero]
        intro hc
        rw [List.mem_flatMap] at hc
        obtain ⟨q, hq, hcq⟩ := hc
        have := List.eq_of_mem_replicate hcq
        exact hn.1 (List.mem_map.mpr ⟨q, hq, this.symm⟩)
      simp [hrest]
    · have hne : p.2 ≠ c := by
        intro heq
        exact hn.1 (List.mem_map.mpr ⟨(e, c), hmem, heq.symm⟩)
      simp [hne, ih hn.2 hmem]


/-! ## The invariant of the group list -/

theorem groups_inv_append_new (groups : List SdpHandlerGroup) (id : Nat)
    (h : groups_inv groups) : groups_inv (groups ++ [new_sdp_handler_group id]) := by
  obtain ⟨h1, h2⟩ := h
  refine ⟨?_, ?_⟩
  · intro g hg
    rw [List.mem_append, List.mem_singleton] at hg
    rcases hg with hg | rfl
    · exact h1 g hg
    · simp [new_sdp_handler_group]
  · rw [List.pairwise_append]
    refine ⟨h2, List.pairwise_singleton _ _, ?_⟩
    intro a _ b hb _
    rw [List.mem_singleton] at hb
    subst hb
    rfl

theorem mem_group_append_handler (gid : Nat) (handler : SdpHandler)
    (groups : List SdpHandlerGroup) (g : SdpHandlerGroup)
    (h : g ∈ group_append_handler gid handler groups) : g ∈ groups ∨ g.id = gid := by
  induction groups with
  | nil => simp [group_append_handler] at h
  | cons g0 rest ih =>
    unfold group_append_handler at h
    split_ifs at h with h0
    · rw [List.mem_cons] at h
      rcases h with rfl | h
      · exact Or.inr h0
      · exact Or.inl (List.mem_cons_of_mem _ h)
    · rw [List.mem_cons] at h
      rcases h with rfl | h
      · exact Or.inl (List.mem_cons_self _ _)
      · rcases ih h with h | h
        · exact Or.inl (List.mem_cons_of_mem _ h)
        · exact Or.inr h

theorem groups_inv_append_handler (gid : Nat) (handler : SdpHandler)
    (groups : List SdpHandlerGroup) (group : SdpHandlerGroup)
    (hfind : groups.find? (fun g => g.id = gid) = some group)
    (hany : group.handlers.any (fun h => h.id = handler.id) = false)
    (h : groups_inv groups) : groups_inv (group_append_handler gid handler groups) := by
  induction groups with
  | nil => simp at hfind
  | cons g0 rest ih =>
    obtain ⟨h1, h2⟩ := h
    rw [List.pairwise_cons] at h2
    unfold group_append_handler
    by_cases h0 : g0.id = gid
    · simp only [List.find?_cons, h0, decide_True] at hfind
      injection hfind with hfind
      subst hfind
      simp only [h0, if_true]
      refine ⟨?_, ?_⟩
      · intro g hg
        rw [List.mem_cons] at hg
        rcases hg with rfl | hg
        · simp only [List.map_append, List.map_cons, List.map_nil]
          rw [List.nodup_append]
          refine ⟨h1 g0 (List.mem_cons_self _ _), List.nodup_singleton _, ?_⟩
          intro a ha hb
          rw [List.mem_singleton] at hb
          subst hb
          rw [List.mem_map] at ha
          obtain ⟨x, hx, hxid⟩ := ha
          have : g0.handlers.any (fun h => h.id = handler.id) = true :=
            List.any_eq_true.mpr ⟨x, hx, by simpa using hxid⟩
          rw [hany] at this
          exact Bool.noConfusion this
        · exact h1 g (List.mem_cons_of_mem _ hg)
      · rw [List.pairwise_cons]
        exact ⟨fun g hg hid => h2.1 g hg (hid.trans h0.symm), h2.2⟩
    · simp only [List.find?_cons, h0, decide_False] at hfind
      simp only [h0, if_false]
      obtain ⟨i1, i2⟩ := ih hfind ⟨fun g hg => h1 g (List.mem_cons_of_mem _ hg), h2.2⟩
      refine ⟨?_, ?_⟩
      · intro g hg
        rw [List.mem_cons] at hg
        rcases hg with rfl | hg
        · exact h1 g (List.mem_cons_self _ _)
        · exact i1 g hg
      · rw [List.pairwise_cons]
        refine ⟨?_, i2⟩
        intro g hg hid
        rcases mem_group_append_handler gid handler rest g hg with hmem | hgid
        · exact h2.1 g hmem hid
        · exact absurd (hid.symm.trans hgid) h0

/-- Every call keeps the invariant of the group list. -/
theorem run_groups_inv (agent : KmsSdpAgentPrivate) (call : AgentCall)
    (h : groups_inv agent.groups) : groups_inv (call.run agent).groups := by
  cases call with
  | add_proto_handler media handler =>
    simp only [AgentCall.run, (add_proto_handler_groups agent media handler).1]
    exact h
  | crate_bundle_group =>
    simp only [AgentCall.run, kms_sdp_agent_create_bundle_group_impl]
    exact groups_inv_append_new _ _ h
  | add_handler_to_group gid hid =>
    simp only [AgentCall.run, kms_sdp_agent_add_handler_to_group_impl]
    cases hg : kms_sdp_agent_get_group agent gid with
    | none => exact h
    | some group =>
      cases hh : kms_sdp_agent_get_handler agent hid with
      | none => exact h
      | some handler =>
        have hhid : handler.id = hid := by
          unfold kms_sdp_agent_get_handler at hh
          simpa using List.find?_some hh
        simp only []
        split_ifs with hany
        · exact h
        · apply groups_inv_append_handler gid handler agent.groups group hg _ h
          rw [hhid]
          simpa using hany
  | set_property prop_id value => cases prop_id <;> exact h
  | create_offer => exact h
  | create_answer model offer => exact h
  | set_local_description d => exact h
  | set_remote_description d => exact h
  | get_property prop_id => exact h

theorem run_calls_groups_inv (calls : List AgentCall) :
    ∀ agent : KmsSdpAgentPrivate, groups_inv agent.groups →
      groups_inv (run_calls agent calls).groups := by
  induction calls with
  | nil => intro agent h; exact h
  | cons call rest ih =>
    intro agent h
    exact ih _ (run_groups_inv agent call h)

theorem membership_count_eq_zero (gid hid : Nat) (groups : List SdpHandlerGroup)
    (h : ∀ g ∈ groups, g.id = gid → hid ∉ g.handlers.map (fun x => x.id)) :
    membership_count gid hid groups = 0 := by
  induction groups with
  | nil => rfl
  | cons g rest ih =>
    unfold membership_count
    rw [ih (fun g2 hg2 => h g2 (List.mem_cons_of_mem _ hg2)), Nat.add_zero]
    split_ifs with hg
    · rw [List.countP_eq_zero]
      intro a ha hid2
      exact h g (List.mem_cons_self _ _) hg (List.mem_map.mpr ⟨a, ha, by simpa using hid2⟩)
    · rfl

theorem countP_id_eq_one (hid : Nat) (l : List SdpHandler)
    (hn : (l.map (fun h => h.id)).Nodup) (hm : hid ∈ l.map (fun h => h.id)) :
    l.countP (fun h => h.id = hid) = 1 := by
  have h1 := List.count_eq_one_of_mem hn hm
  rw [List.count, List.countP_map] at h1
  rw [← h1]
  apply List.countP_congr
  intro x _
  simp [Function.comp]

/-- Under the invariant a handler id that is among the members of a group is counted
exactly once for the id of that group. -/
theorem membership_count_eq_one (hid : Nat) (groups : List SdpHandlerGroup)
    (h : groups_inv groups) (g : SdpHandlerGroup) (hg : g ∈ groups)
    (hm : hid ∈ g.handlers.map (fun x => x.id)) :
    membership_count g.id hid groups = 1 := by
  induction groups with
  | nil => simp at hg
  | cons g0 rest ih =>
    obtain ⟨h1, h2⟩ := h
    rw [List.pairwise_cons] at h2
    unfold membership_count
    rw [List.mem_cons] at hg
    rcases hg with rfl | hg
    · rw [if_pos rfl, countP_id_eq_one hid g.handlers (h1 g (List.mem_cons_self _ _)) hm,
        membership_count_eq_zero]
      intro g2 hg2 hid2
      rw [h2.1 g2 hg2 hid2]
      simp
    · have hne : g0.id ≠ g.id := by
        intro heq
        have := h2.1 g hg heq.symm
        rw [this] at hm
        simp at hm
      rw [if_neg hne, Nat.zero_add]
      exact ih ⟨fun g2 hg2 => h1 g2 (List.mem_cons_of_mem _ hg2), h2.2⟩ hg

theorem find_of_nodup_ids (l : List SdpMediaGroup) (gc : SdpMediaGroup)
    (hn : (l.map (fun g => g.id)).Nodup) (hm : gc ∈ l) :
    l.find? (fun g => g.id = gc.id) = some gc := by
  induction l with
  | nil => simp at hm
  | cons g rest ih =>
    rw [List.map_cons, List.nodup_cons] at hn
    rw [List.mem_cons] at hm
    rcases hm with rfl | hm
    · simp
    · have hne : g.id ≠ gc.id := by
        intro heq
        exact hn.1 (List.mem_map.mpr ⟨gc, hm, heq.symm⟩)
      simp only [List.find?_cons, hne, decide_False]
      exact ih hn.2 hm


/-- C17: in the context `create_offer` builds, after any sequence of public calls on a
fresh agent: no two group contexts have the same group id; the media of the context
are the handles of the entries that produced a media line; and for each such entry
with handle c, every group whose members include the id of the entry has c exactly
once in the group context keyed by its id (so a handler in several groups has its
media in each of them), while an entry whose id is a member of no group has its handle
in no group context. -/
theorem offer_group_associations (calls : List AgentCall) :
    ((create_offer_context (run_calls kms_sdp_agent_new calls)).groups.map
      (fun g => g.id)).Nodup ∧
    (create_offer_context (run_calls kms_sdp_agent_new calls)).medias =
      (offered_medias 0 (run_calls kms_sdp_agent_new calls).handlers).map (fun p => p.2) ∧
    ∀ e c, (e, c) ∈ offered_medias 0 (run_calls kms_sdp_agent_new calls).handlers →
      (∀ g ∈ (run_calls kms_sdp_agent_new calls).groups,
        e.id ∈ g.handlers.map (fun h => h.id) →
        (group_context_medias (create_offer_context (run_calls kms_sdp_agent_new calls))
          g.id).count c = 1) ∧
      ((∀ g ∈ (run_calls kms_sdp_agent_new calls).groups,
          e.id ∉ g.handlers.map (fun h => h.id)) →
        ∀ gc ∈ (create_offer_context (run_calls kms_sdp_agent_new calls)).groups,
          c ∉ gc.medias) := by
  have hinv : groups_inv (run_calls kms_sdp_agent_new calls).groups :=
    run_calls_groups_inv calls kms_sdp_agent_new
      ⟨fun g hg => by simp [kms_sdp_agent_new] at hg, by simp [kms_sdp_agent_new]⟩
  obtain ⟨hmed, hgrp, hnodup⟩ :=
    foreach_create_media_offers_groups (run_calls kms_sdp_agent_new calls).handlers
      { ctx := kms_sdp_context_new_message_context,
        agent := run_calls kms_sdp_agent_new calls }
  have hn := hnodup (by simp [kms_sdp_context_new_message_context])
  have hcount : ∀ e c gid,
      (e, c) ∈ offered_medias 0 (run_calls kms_sdp_agent_new calls).handlers →
      (group_context_medias (create_offer_context (run_calls kms_sdp_agent_new calls))
        gid).count c =
        membership_count gid e.id (run_calls kms_sdp_agent_new calls).groups := by
    intro e c gid hmem
    have h1 := hgrp gid
    have h0 : group_context_medias kms_sdp_context_new_message_context gid = [] := rfl
    simp only [kms_sdp_context_new_message_context, List.length_nil] at h1
    simp only [kms_sdp_context_new_message_context] at h0
    rw [h0, List.nil_append] at h1
    unfold create_offer_context
    simp only [kms_sdp_context_new_message_context]
    rw [h1]
    exact count_in_blocks
      (fun x => membership_count gid x.id (run_calls kms_sdp_agent_new calls).groups) e c _
      (offered_medias_ids _ 0).2 hmem
  refine ⟨hn, ?_, ?_⟩
  · simpa [create_offer_context, kms_sdp_context_new_message_context] using hmed
  · intro e c hmem
    refine ⟨?_, ?_⟩
    · intro g hg hin
      rw [hcount e c g.id hmem]
      exact membership_count_eq_one e.id _ hinv g hg hin
    · intro hnot gc hgc hc
      have hfind := find_of_nodup_ids _ gc hn hgc
      have hgcm : group_context_medias
          (create_offer_context (run_calls kms_sdp_agent_new calls)) gc.id = gc.medias := by
        unfold group_context_medias kms_sdp_context_get_group
        unfold create_offer_context
        rw [hfind]
      have hzero := hcount e c gc.id hmem
      rw [membership_count_eq_zero gc.id e.id _ (fun g hg _ => hnot g hg), hgcm,
        List.count_eq_zero] at hzero
      exact hzero hc

/-- With the audio and the video handler both in one bundle group the offer context has
the two media and one group context, which holds both handles. -/
theorem offer_group_associations_witness :
    create_offer_context bundled_agent =
      { medias := [
          ⟨0, some { gst_sdp_media_new with
                      media := "audio", port := 9, num_ports := 1, proto := "RTP/AVP",
                      fmts := ["0"] }⟩,
          ⟨1, some { gst_sdp_media_new with
                      media := "video", port := 7, num_ports := 1, proto := "RTP/AVP",
                      fmts := ["0"] }⟩],
        groups := [
          ⟨0, [⟨0, some { gst_sdp_media_new with
                            media := "audio", port := 9, num_ports := 1, proto := "RTP/AVP",
                            fmts := ["0"] }⟩,
               ⟨1, some { gst_sdp_media_new with
                            media := "video", port := 7, num_ports := 1, proto := "RTP/AVP",
                            fmts := ["0"] }⟩]⟩] } ∧
    ((create_offer_context (run_calls kms_sdp_agent_new bundle_calls)).groups.map
      (fun g => g.id)).Nodup :=
  ⟨by decide, (offer_group_associations bundle_calls).1⟩


/-! ## Timing lines, the bundle flag, rejection lines -/

theorem session_defaults_times (model : GstSDPModel) (agent : KmsSdpAgentPrivate)
    (msg : GstSDPMessage) :
    (kms_sdp_agent_set_default_session_attributes model agent msg).1.times = msg.times := by
  rw [session_defaults_eq]
  split_ifs <;> rfl

/-- C22: the timing lines of the offer are not copied.  Two offers that differ only in
their timing lines get the same result from `create_answer`, and an answer never
carries a timing entry: the guarded call of `sdp_copy_timming_attrs` is not reached. -/
theorem create_answer_ignores_timing (model : GstSDPModel) (agent : KmsSdpAgentPrivate)
    (offer : GstSDPMessage) :
    (∀ times : List GstSDPTime,
      kms_sdp_agent_create_answer_impl model agent { offer with times := times } =
        kms_sdp_agent_create_answer_impl model agent offer) ∧
    (∀ answer, kms_sdp_agent_create_answer_impl model agent offer = .ok answer →
      answer.times = []) := by
  refine ⟨?_, ?_⟩
  · intro times
    rw [create_answer_impl_eq, create_answer_impl_eq]
  · intro answer h
    rw [create_answer_impl_eq] at h
    split at h
    · exact absurd h (by simp)
    · injection h with h
      subst h
      exact session_defaults_times model agent gst_sdp_message_new

/-- The sample offer and the offer with other timing lines get the same answer, which has
no timing line. -/
theorem create_answer_ignores_timing_witness :
    kms_sdp_agent_create_answer_impl accepting_model audio_agent retimed_offer =
      kms_sdp_agent_create_answer_impl accepting_model audio_agent sample_offer ∧
    retimed_offer.times ≠ sample_offer.times ∧
    ∀ answer, kms_sdp_agent_create_answer_impl accepting_model audio_agent retimed_offer
      = .ok answer → answer.times = [] :=
  ⟨(create_answer_ignores_timing accepting_model audio_agent sample_offer).1 _,
    by decide,
    (create_answer_ignores_timing accepting_model audio_agent retimed_offer).2⟩

/-- C23, the code at the failing input: after the audio handler (answering on port 9) was
registered and a second registration for the same pair (a handler answering on port
7) was turned away, the handler list, which `create_offer` walks, holds the first
handler for audio, while the lookup `create_media_answer` makes for the media label
and the protocol of that entry returns the second one. -/
theorem handler_list_and_table_disagree :
    (run_calls kms_sdp_agent_new
      [.add_proto_handler "audio" (sample_handler "RTP/AVP" 9),
       .add_proto_handler "audio" (sample_handler "RTP/AVP" 7)]).handlers =
      [⟨0, "audio", sample_handler "RTP/AVP" 9⟩] ∧
    (sample_handler "RTP/AVP" 9).proto = some "RTP/AVP" ∧
    lookup_handler
      (run_calls kms_sdp_agent_new
        [.add_proto_handler "audio" (sample_handler "RTP/AVP" 9),
         .add_proto_handler "audio" (sample_handler "RTP/AVP" 7)])
      sample_audio = some (sample_handler "RTP/AVP" 7) ∧
    sample_audio.media = "audio" ∧ sample_audio.proto = "RTP/AVP" ∧
    sample_handler "RTP/AVP" 7 ≠ sample_handler "RTP/AVP" 9 := by
  refine ⟨rfl, rfl, rfl, rfl, rfl, ?_⟩
  intro h
  have h2 := congrArg (fun x => (x.create_answer sample_audio).1.map (fun m => m.port)) h
  revert h2
  decide

/-- The context the traversal of the handler list builds depends on the agent through its
group list only. -/
theorem foreach_create_media_offers_ctx (handlers : List SdpHandler) :
    ∀ data1 data2 : sdp_offer_data,
      data1.ctx = data2.ctx → data1.agent.groups = data2.agent.groups →
      (g_slist_foreach handlers create_media_offers data1).ctx =
        (g_slist_foreach handlers create_media_offers data2).ctx := by
  induction handlers with
  | nil => intro data1 data2 h _; exact h
  | cons e rest ih =>
    intro data1 data2 hctx hgroups
    have hstep : ∀ data, g_slist_foreach (e :: rest) create_media_offers data =
        g_slist_foreach rest create_media_offers (create_media_offers e data) :=
      fun _ => rfl
    rw [hstep, hstep]
    apply ih
    · unfold create_media_offers
      cases he : (kms_sdp_media_handler_create_offer e.handler e.media).2 with
      | some err => simp only [he]; exact hctx
      | none => simp only [he, hctx, hgroups]
    · rw [create_media_offers_agent, create_media_offers_agent]
      exact hgroups

/-- C26: the `bundle` property has no effect on negotiation.  Two agents that differ only
in it build the same offer context (media lines and group contexts), the same offer and
the same answer. -/
theorem bundle_flag_has_no_effect (agent : KmsSdpAgentPrivate) (bundle : Bool) :
    create_offer_context { agent with bundle := bundle } = create_offer_context agent ∧
    kms_sdp_agent_create_offer_impl { agent with bundle := bundle } =
      kms_sdp_agent_create_offer_impl agent ∧
    (∀ model offer,
      kms_sdp_agent_create_answer_impl model { agent with bundle := bundle } offer =
        kms_sdp_agent_create_answer_impl model agent offer) ∧
    create_offer_context (kms_sdp_agent_set_property agent .PROP_BUNDLE bundle) =
      create_offer_context agent := by
  have hctx : create_offer_context { agent with bundle := bundle } =
      create_offer_context agent := by
    unfold create_offer_context
    exact foreach_create_media_offers_ctx agent.handlers _ _ rfl rfl
  refine ⟨hctx, ?_, ?_, hctx⟩
  · unfold kms_sdp_agent_create_offer_impl
    rw [hctx]
  · intro model offer
    have hdef : kms_sdp_agent_set_default_session_attributes model
        { agent with bundle := bundle } gst_sdp_message_new =
        kms_sdp_agent_set_default_session_attributes model agent gst_sdp_message_new := by
      rw [session_defaults_eq, session_defaults_eq]
      rfl
    have hans : answer_media_of { agent with bundle := bundle } = answer_media_of agent := by
      funext m
      rfl
    rw [create_answer_impl_eq, create_answer_impl_eq, hdef, hans]

/-- With the `bundle` property set to TRUE or to FALSE the bundled agent attaches both
media to the group context 0. -/
theorem bundle_flag_has_no_effect_witness :
    (create_offer_context (kms_sdp_agent_set_property bundled_agent .PROP_BUNDLE true)).groups
      = (create_offer_context bundled_agent).groups ∧
    (create_offer_context bundled_agent).groups.map (fun g => (g.id, g.medias.length))
      = [(0, 2)] ∧
    bundled_agent.bundle = false :=
  ⟨congrArg SdpMessageContext.groups (bundle_flag_has_no_effect bundled_agent true).2.2.2,
    by decide, rfl⟩

/-- C27: the rejection line depends only on the media type, the protocol and the formats
of the offered line; it has port 0 and port count 1 and no information, connection,
bandwidth, key or attribute; rejecting a rejection line gives the same line. -/
theorem reject_media_answer_depends_on_three_fields :
    (∀ a b : GstSDPMedia, a.media = b.media → a.proto = b.proto → a.fmts = b.fmts →
      reject_media_answer a = reject_media_answer b) ∧
    (∀ offered : GstSDPMedia,
      (reject_media_answer offered).media = offered.media ∧
      (reject_media_answer offered).proto = offered.proto ∧
      (reject_media_answer offered).fmts = offered.fmts ∧
      (reject_media_answer offered).port = 0 ∧
      (reject_media_answer offered).num_ports = 1 ∧
      (reject_media_answer offered).information = none ∧
      (reject_media_answer offered).connections = [] ∧
      (reject_media_answer offered).bandwidths = [] ∧
      (reject_media_answer offered).key = ⟨none, none⟩ ∧
      (reject_media_answer offered).attributes = []) ∧
    (∀ offered : GstSDPMedia,
      reject_media_answer (reject_media_answer offered) = reject_media_answer offered) := by
  refine ⟨?_, ?_, ?_⟩
  · intro a b h1 h2 h3
    rw [reject_media_answer_eq, reject_media_answer_eq, h1, h2, h3]
  · intro offered
    rw [reject_media_answer_eq]
    exact ⟨rfl, rfl, rfl, rfl, rfl, rfl, rfl, rfl, rfl, rfl⟩
  · intro offered
    rw [reject_media_answer_eq (reject_media_answer offered), reject_media_answer_eq]

/-- The sample audio line and the decorated one have the same rejection line. -/
theorem reject_media_answer_depends_on_three_fields_witness :
    reject_media_answer decorated_audio = reject_media_answer sample_audio ∧
    decorated_audio ≠ sample_audio :=
  ⟨reject_media_answer_depends_on_three_fields.1 decorated_audio sample_audio rfl rfl rfl,
    by decide⟩

/-- A store at an index inside the allocation. -/
theorem store_in_bounds (v : StrVector) (i : Nat) (x : StrPointer) (h : i < v.slots.length) :
    v.store i x = { slots := v.slots.set i (some x), out_of_bounds := v.out_of_bounds } := by
  unfold StrVector.store
  rw [if_pos h]

/-- The loop of `array_to_strvector` over the indices below `k`, all inside the
allocation: no store falls outside, the slots below `k` hold what was stored, and
the slots from `k` on are as they were. -/
theorem store_range_foldl (f : Nat → StrPointer) (k : Nat) :
    ∀ v : StrVector, k ≤ v.slots.length →
      ((List.range k).foldl (fun v i => v.store i (f i)) v).out_of_bounds = v.out_of_bounds ∧
      ((List.range k).foldl (fun v i => v.store i (f i)) v).slots.length = v.slots.length ∧
      (∀ j, k ≤ j →
        ((List.range k).foldl (fun v i => v.store i (f i)) v).slots[j]? = v.slots[j]?) ∧
      (∀ j, j < k →
        ((List.range k).foldl (fun v i => v.store i (f i)) v).slots[j]? = some (some (f j))) := by
  induction k with
  | zero =>
    intro v _
    exact ⟨rfl, rfl, fun _ _ => rfl, fun j hj => absurd hj (Nat.not_lt_zero j)⟩
  | succ k ih =>
    intro v hk
    obtain ⟨hout, hlen, hrest, hdone⟩ := ih v (by omega)
    rw [List.range_succ, List.foldl_append]
    simp only [List.foldl_cons, List.foldl_nil]
    have hin : k < ((List.range k).foldl (fun v i => v.store i (f i)) v).slots.length := by
      rw [hlen]; omega
    rw [store_in_bounds _ k (f k) hin]
    refine ⟨hout, ?_, ?_, ?_⟩
    · simp only [List.length_set]
      exact hlen
    · intro j hj
      simp only []
      rw [List.getElem?_set_ne (by omega)]
      exact hrest j (by omega)
    · intro j hj
      simp only []
      by_cases hjk : j = k
      · subst hjk
        rw [List.getElem?_set_eq_of_lt _ hin]
      · rw [List.getElem?_set_ne (fun h => hjk h.symm)]
        exact hdone j (by omega)

/-- What `array_to_strvector` does for an array whose length plus one fits a `guint`. -/
theorem array_to_strvector_slots (array : GArray) (hlen : array.len + 1 < GUINT_MODULUS) :
    (array_to_strvector array).slots.length = array.len + 1 ∧
    (array_to_strvector array).out_of_bounds = [array.len + 1] ∧
    (array_to_strvector array).slots[array.len]? = some none ∧
    (∀ i, i < array.len →
      (array_to_strvector array).slots[i]? = some (some (g_strdup_byte array i))) := by
  unfold array_to_strvector
  simp only [Nat.mod_eq_of_lt hlen]
  have hstore : ({ slots := List.replicate (array.len + 1) none, out_of_bounds := [] } :
      StrVector).store (array.len + 1) .null =
      { slots := List.replicate (array.len + 1) none, out_of_bounds := [array.len + 1] } := by
    simp [StrVector.store]
  rw [hstore]
  obtain ⟨hout, hl, hrest, hdone⟩ := store_range_foldl (g_strdup_byte array) array.len
    { slots := List.replicate (array.len + 1) none, out_of_bounds := [array.len + 1] }
    (by simp)
  refine ⟨?_, hout, ?_, hdone⟩
  · rw [hl]; simp
  · rw [hrest array.len (Nat.le_refl _)]
    simp

/-- The call `sdp_copy_timming_attrs` has no defined result for a source message with a
timing entry (whose repeat array has fewer than 2 ^ 32 - 1 elements, as every array
has that fits the memory): the first call of `array_to_strvector` stores outside
its allocation.  For a source without timing entries the loop body is not entered. -/
theorem sdp_copy_timming_attrs_undefined (src dest : GstSDPMessage) :
    (src.times = [] → sdp_copy_timming_attrs src dest = some dest) ∧
    (src.times ≠ [] →
      (∀ time ∈ src.times, time.repeat_times.length + 1 < GUINT_MODULUS) →
      sdp_copy_timming_attrs src dest = none) := by
  unfold sdp_copy_timming_attrs
  refine ⟨fun h => by rw [h]; rfl, ?_⟩
  intro hne hlen
  have hnone : ∀ times : List GstSDPTime,
      (∀ time ∈ times, time.repeat_times.length + 1 < GUINT_MODULUS) →
      times.foldl
        (fun dest time =>
          match dest with
          | none => none
          | some dest =>
            match (array_to_strvector (GstSDPTime.repeat_array time)).strings with
            | none => none
            | some repeat_times =>
              some (gst_sdp_message_add_time dest time.start time.stop repeat_times))
        (none : Option GstSDPMessage) = none := by
    intro times
    induction times with
    | nil => intro _; rfl
    | cons t rest ih =>
      intro h
      rw [List.foldl_cons]
      exact ih (fun time ht => h time (List.mem_cons_of_mem _ ht))
  cases hs : src.times with
  | nil => exact absurd hs hne
  | cons t rest =>
    rw [hs] at hlen
    rw [List.foldl_cons]
    have hout : (array_to_strvector (GstSDPTime.repeat_array t)).strings = none := by
      unfold StrVector.strings
      rw [(array_to_strvector_slots (GstSDPTime.repeat_array t)
        (hlen t (List.mem_cons_self _ _))).2.1]
      rfl
    simp only [hout]
    exact hnone rest (fun time ht => hlen time (List.mem_cons_of_mem _ ht))

theorem foreach_create_media_offers_agent (handlers : List SdpHandler) :
    ∀ data : sdp_offer_data,
      (g_slist_foreach handlers create_media_offers data).agent = data.agent := by
  induction handlers with
  | nil => intro data; rfl
  | cons e rest ih =>
    intro data
    have hstep : g_slist_foreach (e :: rest) create_media_offers data =
        g_slist_foreach rest create_media_offers (create_media_offers e data) := rfl
    rw [hstep, ih, create_media_offers_agent]

theorem run_calls_negotiation (calls : List AgentCall) :
    ∀ agent : KmsSdpAgentPrivate, (∀ c ∈ calls, c.is_negotiation = true) →
      run_calls agent calls = agent := by
  induction calls with
  | nil => intro agent _; rfl
  | cons c rest ih =>
    intro agent h
    have hc := h c (List.mem_cons_self _ _)
    have hrun : c.run agent = agent := by
      cases c <;> first | rfl | simp [AgentCall.is_negotiation] at hc
    rw [run_calls, hrun]
    exact ih agent (fun c2 hc2 => h c2 (List.mem_cons_of_mem _ hc2))

/-- C25: `create_offer` and `create_answer` leave the agent as it is.  The agent the offer
traversal carries in its data is the agent it started with after the last callback,
and so is the agent the answer iteration carries, whatever the handlers return; a
call of `create_offer` or `create_answer` yields the same agent; and after any number of
such calls the agent builds the same offer context and the same offer as before. -/
theorem negotiation_is_read_only (agent : KmsSdpAgentPrivate) :
    (∀ ctx, (g_slist_foreach agent.handlers create_media_offers
      { ctx := ctx, agent := agent }).agent = agent) ∧
    (∀ offer answer,
      (sdp_utils_for_each_media offer create_media_answer
        { agent := agent, answer := answer }).1.agent = agent) ∧
    AgentCall.run agent .create_offer = agent ∧
    (∀ model offer, AgentCall.run agent (.create_answer model offer) = agent) ∧
    (∀ calls : List AgentCall, (∀ c ∈ calls, c.is_negotiation = true) →
      run_calls agent calls = agent ∧
      create_offer_context (run_calls agent calls) = create_offer_context agent ∧
      kms_sdp_agent_create_offer_impl (run_calls agent calls) =
        kms_sdp_agent_create_offer_impl agent) := by
  refine ⟨fun ctx => foreach_create_media_offers_agent _ _, ?_, rfl, fun _ _ => rfl, ?_⟩
  · intro offer answer
    simp [sdp_utils_for_each_media, for_each_media_create_answer]
  · intro calls h
    rw [run_calls_negotiation calls agent h]
    exact ⟨rfl, rfl, rfl⟩

/-- After an offer, an answer (which fails on the rejecting document model) and another
offer the bundled agent is the agent it was. -/
theorem negotiation_is_read_only_witness :
    run_calls bundled_agent
      [.create_offer, .create_answer rejecting_model sample_offer, .create_offer]
      = bundled_agent :=
  ((negotiation_is_read_only bundled_agent).2.2.2.2
    [.create_offer, .create_answer rejecting_model sample_offer, .create_offer]
    (by
      intro c hc
      simp only [List.mem_cons, List.mem_singleton, List.not_mem_nil, or_false] at hc
      rcases hc with rfl | rfl | rfl <;> rfl)).1

/-! ## The lock during `create_answer` -/

theorem well_locked_media_answer (agent : KmsSdpAgentPrivate) (media : GstSDPMedia)
    (rest : List AgentEvent) :
    well_locked false (create_media_answer_events agent media ++ rest) =
      well_locked false rest := by
  unfold create_media_answer_events
  cases lookup_handler agent media <;> simp [well_locked]

theorem well_locked_media_answers (agent : KmsSdpAgentPrivate) (medias : List GstSDPMedia) :
    well_locked false (medias.flatMap (create_media_answer_events agent)) = true := by
  induction medias with
  | nil => rfl
  | cons m rest ih => rw [List.flatMap_cons, well_locked_media_answer, ih]

/-- The session defaults with their events return what
`kms_sdp_agent_set_default_session_attributes` returns, and their events are a lock
and an unlock. -/
theorem set_default_session_attributes_traced_eq (model : GstSDPModel)
    (agent : KmsSdpAgentPrivate) (offer : GstSDPMessage) :
    kms_sdp_agent_set_default_session_attributes_traced model agent offer =
      (kms_sdp_agent_set_default_session_attributes model agent offer,
        set_default_session_attributes_events) := by
  unfold kms_sdp_agent_set_default_session_attributes_traced
    kms_sdp_agent_set_default_session_attributes set_default_session_attributes_events
  simp only []
  split_ifs <;> rfl

/-- The callback with its events returns what `create_media_answer` returns, and its
events are those of `create_media_answer_events`. -/
theorem create_media_answer_traced_eq (media : GstSDPMedia) (data : sdp_answer_data) :
    create_media_answer_traced media data =
      (create_media_answer media data, create_media_answer_events data.agent media) := by
  unfold create_media_answer_traced create_media_answer create_media_answer_events
    answer_media_of lookup_handler
  cases h1 : g_hash_table_lookup data.agent.medias (gst_sdp_media_get_media media) with
  | none => simp [h1]
  | some handlers =>
    cases h2 : g_hash_table_lookup handlers (gst_sdp_media_get_proto media) with
    | none => simp [h1, h2]
    | some handler => simp [h1, h2]

/-- The iteration with its events returns what the iteration returns, and its events
are those of the callback for every line in turn. -/
theorem for_each_media_traced_create_answer (ms : List GstSDPMedia) :
    ∀ data : sdp_answer_data,
      for_each_media_traced create_media_answer_traced ms data =
        (for_each_media_from create_media_answer ms data,
          ms.flatMap (create_media_answer_events data.agent)) := by
  induction ms with
  | nil => intro data; rfl
  | cons m rest ih =>
    intro data
    have hagent : (create_media_answer m data).1.agent = data.agent := rfl
    have htrue : (create_media_answer m data).2 = true := rfl
    unfold for_each_media_traced for_each_media_from
    rw [create_media_answer_traced_eq]
    simp only [htrue, if_true, ih, hagent, List.flatMap_cons]

/-- The function `kms_sdp_agent_create_answer_impl` with its events returns what
`kms_sdp_agent_create_answer_impl` returns, and its events are those of
`create_answer_events`. -/
theorem create_answer_impl_traced_eq (model : GstSDPModel) (agent : KmsSdpAgentPrivate)
    (offer : GstSDPMessage) :
    kms_sdp_agent_create_answer_impl_traced model agent offer =
      (kms_sdp_agent_create_answer_impl model agent offer,
        create_answer_events model agent offer) := by
  unfold kms_sdp_agent_create_answer_impl_traced kms_sdp_agent_create_answer_impl
    create_answer_events sdp_utils_for_each_media
  simp only [set_default_session_attributes_traced_eq, for_each_media_traced_create_answer,
    for_each_media_create_answer]
  cases hd : kms_sdp_agent_set_default_session_attributes model agent gst_sdp_message_new with
  | mk answer err =>
    cases err with
    | some e => simp
    | none => simp

/-- The lock in the events of one call of `create_answer`: the mutex is never locked while
held nor unlocked while free, every call of a handler's `create_answer` happens with
the mutex held, the mutex is free when `create_media_answer` is entered and when it
returns, and it is free at the end; when the session defaults succeed the lock is
taken once more than the offer has lines. -/
theorem create_answer_locks_per_line (model : GstSDPModel) (agent : KmsSdpAgentPrivate)
    (offer : GstSDPMessage) :
    well_locked false (create_answer_events model agent offer) = true ∧
    ((kms_sdp_agent_set_default_session_attributes model agent gst_sdp_message_new).2 = none →
      (create_answer_events model agent offer).count .lock = offer.medias.length + 1) := by
  unfold create_answer_events set_default_session_attributes_events
  refine ⟨?_, ?_⟩
  · cases (kms_sdp_agent_set_default_session_attributes model agent gst_sdp_message_new).2 with
    | some e => rfl
    | none =>
      simp only [List.cons_append, List.nil_append, well_locked, Bool.not_false,
        Bool.true_and]
      exact well_locked_media_answers agent offer.medias
  · intro h
    rw [h]
    simp only [List.cons_append, List.nil_append]
    have hcount : ∀ medias : List GstSDPMedia,
        (medias.flatMap (create_media_answer_events agent)).count .lock = medias.length := by
      intro medias
      induction medias with
      | nil => rfl
      | cons m rest ih =>
        rw [List.flatMap_cons, List.count_append, ih]
        unfold create_media_answer_events
        cases lookup_handler agent m <;> simp [List.count_cons] <;> omega
    rw [List.count_cons, List.count_cons, hcount]
    simp

/-- C21, the code at the failing input: `create_answer` of the audio agent for the sample
offer, which has an audio and a video line, returns what
`kms_sdp_agent_create_answer_impl` returns, and its events are a lock and an unlock
in the session defaults, then for the audio line a lock, the call of the handler and
an unlock, then for the video line a lock and an unlock.  The mutex is free when the
first line is entered, it is released twice before the last line is left, and so it
is not held from before the first line until after the last. -/
theorem lock_not_held_over_media_lines :
    (kms_sdp_agent_create_answer_impl_traced accepting_model audio_agent sample_offer).1 =
      kms_sdp_agent_create_answer_impl accepting_model audio_agent sample_offer ∧
    (kms_sdp_agent_create_answer_impl_traced accepting_model audio_agent sample_offer).2 =
      [.lock, .unlock,
       .enter_create_media_answer sample_audio, .lock, .handler_create_answer sample_audio,
       .unlock, .leave_create_media_answer sample_audio,
       .enter_create_media_answer sample_video, .lock, .unlock,
       .leave_create_media_answer sample_video] ∧
    lock_held_after false
      ((kms_sdp_agent_create_answer_impl_traced accepting_model audio_agent
        sample_offer).2.takeWhile (fun e => !e.is_media_boundary)) = false ∧
    (media_span (kms_sdp_agent_create_answer_impl_traced accepting_model audio_agent
      sample_offer).2).count .unlock = 2 ∧
    lock_held_over_media_lines
      (kms_sdp_agent_create_answer_impl_traced accepting_model audio_agent sample_offer).2 =
      false := by
  rw [create_answer_impl_traced_eq]
  exact ⟨rfl, by decide, by decide, by decide, by decide⟩


/-! ## The invariant of the registry -/

/-- A call of `add_handler` either leaves the handler list and the counter alone or appends
one entry with the counter value as id and advances the counter. -/
theorem add_proto_handler_step (agent : KmsSdpAgentPrivate) (media : String)
    (handler : KmsSdpMediaHandler) :
    ((kms_sdp_agent_add_proto_handler_impl agent media handler).1.handlers = agent.handlers ∧
      (kms_sdp_agent_add_proto_handler_impl agent media handler).1.hids = agent.hids) ∨
    ((kms_sdp_agent_add_proto_handler_impl agent media handler).1.handlers =
        agent.handlers ++ [⟨agent.hids % GUINT_MODULUS, media, handler⟩] ∧
      (kms_sdp_agent_add_proto_handler_impl agent media handler).1.hids =
        (agent.hids + 1) % GUINT_MODULUS) := by
  cases hp : handler.proto with
  | none =>
    left
    have : kms_sdp_agent_add_proto_handler_impl agent media handler = (agent, -1) := by
      unfold kms_sdp_agent_add_proto_handler_impl
      rw [hp]
    rw [this]
    exact ⟨rfl, rfl⟩
  | some proto =>
    cases hb : has_binding agent.medias media proto with
    | true =>
      obtain ⟨-, h2, h3⟩ := add_proto_handler_bound agent media proto handler hp hb
      exact Or.inl ⟨h3, h2⟩
    | false =>
      obtain ⟨-, h2, h3⟩ := add_proto_handler_unbound agent media proto handler hp hb
      exact Or.inr ⟨h3, h2⟩

theorem add_handler_to_group_handlers (agent : KmsSdpAgentPrivate) (gid hid : Nat) :
    (kms_sdp_agent_add_handler_to_group_impl agent gid hid).1.handlers = agent.handlers ∧
    (kms_sdp_agent_add_handler_to_group_impl agent gid hid).1.hids = agent.hids := by
  unfold kms_sdp_agent_add_handler_to_group_impl
  cases kms_sdp_agent_get_group agent gid with
  | none => exact ⟨rfl, rfl⟩
  | some group =>
    cases kms_sdp_agent_get_handler agent hid with
    | none => exact ⟨rfl, rfl⟩
    | some handler =>
      simp only []
      split_ifs <;> exact ⟨rfl, rfl⟩

theorem members_group_append_handler (gid : Nat) (handler : SdpHandler)
    (groups : List SdpHandlerGroup) (g : SdpHandlerGroup)
    (hg : g ∈ group_append_handler gid handler groups) (h : SdpHandler)
    (hh : h ∈ g.handlers) : h = handler ∨ ∃ g0 ∈ groups, h ∈ g0.handlers := by
  induction groups with
  | nil => simp [group_append_handler] at hg
  | cons g0 rest ih =>
    unfold group_append_handler at hg
    split_ifs at hg with h0
    · rw [List.mem_cons] at hg
      rcases hg with rfl | hg
      · simp only [List.mem_append, List.mem_singleton] at hh
        rcases hh with hh | hh
        · exact Or.inr ⟨g0, List.mem_cons_self _ _, hh⟩
        · exact Or.inl hh
      · exact Or.inr ⟨g, List.mem_cons_of_mem _ hg, hh⟩
    · rw [List.mem_cons] at hg
      rcases hg with rfl | hg
      · exact Or.inr ⟨g, List.mem_cons_self _ _, hh⟩
      · rcases ih hg with h1 | ⟨g1, hg1, hh1⟩
        · exact Or.inl h1
        · exact Or.inr ⟨g1, List.mem_cons_of_mem _ hg1, hh1⟩

theorem add_handler_to_group_members (agent : KmsSdpAgentPrivate) (gid hid : Nat)
    (hinv : ∀ g ∈ agent.groups, ∀ h ∈ g.handlers, h ∈ agent.handlers) :
    ∀ g ∈ (kms_sdp_agent_add_handler_to_group_impl agent gid hid).1.groups,
      ∀ h ∈ g.handlers, h ∈ agent.handlers := by
  unfold kms_sdp_agent_add_handler_to_group_impl
  cases kms_sdp_agent_get_group agent gid with
  | none => exact hinv
  | some group =>
    cases hh : kms_sdp_agent_get_handler agent hid with
    | none => exact hinv
    | some handler =>
      have hmem : handler ∈ agent.handlers := by
        unfold kms_sdp_agent_get_handler at hh
        exact List.mem_of_find?_eq_some hh
      simp only []
      split_ifs
      · exact hinv
      · intro g hg h hhm
        rcases members_group_append_handler gid handler agent.groups g hg h hhm with
          rfl | ⟨g0, hg0, hh0⟩
        · exact hmem
        · exact hinv g0 hg0 h hh0


theorem run_calls_append (a b : List AgentCall) :
    ∀ agent : KmsSdpAgentPrivate,
      run_calls agent (a ++ b) = run_calls (run_calls agent a) b := by
  induction a with
  | nil => intro agent; rfl
  | cons c rest ih => intro agent; exact ih (c.run agent)

/-- One call keeps the invariant of the registry when neither counter wraps in it, and
advances the handler counter only when it is `add_handler` and the group counter only
when it is `crate_bundle_group`, by one at most. -/
theorem run_registry_inv (agent : KmsSdpAgentPrivate) (call : AgentCall)
    (h : registry_inv agent)
    (hh : agent.hids + (if call.is_add_proto_handler then 1 else 0) < GUINT_MODULUS)
    (hg : agent.gids + (if call.is_crate_bundle_group then 1 else 0) < GUINT_MODULUS) :
    registry_inv (call.run agent) ∧
    (call.run agent).hids ≤ agent.hids + (if call.is_add_proto_handler then 1 else 0) ∧
    (call.run agent).gids ≤ agent.gids + (if call.is_crate_bundle_group then 1 else 0) := by
  obtain ⟨h1, h3, h5⟩ := h
  cases call with
  | add_proto_handler media handler =>
    simp only [AgentCall.is_add_proto_handler, AgentCall.is_crate_bundle_group, if_true,
      Bool.false_eq_true, if_false, Nat.add_zero] at hh hg ⊢
    obtain ⟨hgr, hgi⟩ := add_proto_handler_groups agent media handler
    simp only [AgentCall.run]
    rcases add_proto_handler_step agent media handler with ⟨hl, hc⟩ | ⟨hl, hc⟩
    · refine ⟨⟨?_, ?_, ?_⟩, ?_, ?_⟩
      · rw [hl, hc]; exact h1
      · rw [hgr, hgi]; exact h3
      · rw [hgr, hl]; exact h5
      · rw [hc]; omega
      · rw [hgi]
    · have hm1 : agent.hids % GUINT_MODULUS = agent.hids := Nat.mod_eq_of_lt (by omega)
      have hm2 : (agent.hids + 1) % GUINT_MODULUS = agent.hids + 1 := Nat.mod_eq_of_lt hh
      refine ⟨⟨?_, ?_, ?_⟩, ?_, ?_⟩
      · rw [hl, hc, hm1, hm2, List.map_append, h1, List.range_succ]
        rfl
      · rw [hgr, hgi]; exact h3
      · rw [hgr, hl]
        intro g hgm x hx
        exact List.mem_append_left _ (h5 g hgm x hx)
      · rw [hc, hm2]
      · rw [hgi]
  | crate_bundle_group =>
    simp only [AgentCall.is_add_proto_handler, AgentCall.is_crate_bundle_group, if_true,
      Bool.false_eq_true, if_false, Nat.add_zero] at hh hg ⊢
    have hm1 : agent.gids % GUINT_MODULUS = agent.gids := Nat.mod_eq_of_lt (by omega)
    have hm2 : (agent.gids + 1) % GUINT_MODULUS = agent.gids + 1 := Nat.mod_eq_of_lt hg
    simp only [AgentCall.run, kms_sdp_agent_create_bundle_group_impl, hm1, hm2]
    refine ⟨⟨h1, ?_, ?_⟩, Nat.le_refl _, Nat.le_refl _⟩
    · rw [List.map_append, h3, List.range_succ]
      rfl
    · intro g hgm x hx
      rw [List.mem_append, List.mem_singleton] at hgm
      rcases hgm with hgm | rfl
      · exact h5 g hgm x hx
      · simp [new_sdp_handler_group] at hx
  | add_handler_to_group gid hid =>
    simp only [AgentCall.is_add_proto_handler, AgentCall.is_crate_bundle_group,
      Bool.false_eq_true, if_false, Nat.add_zero] at hh hg ⊢
    obtain ⟨hl, hc⟩ := add_handler_to_group_handlers agent gid hid
    obtain ⟨hids, hgi⟩ := add_handler_to_group_ids agent gid hid
    simp only [AgentCall.run]
    refine ⟨⟨?_, ?_, ?_⟩, ?_, ?_⟩
    · rw [hl, hc]; exact h1
    · rw [hids, hgi]; exact h3
    · rw [hl]; exact add_handler_to_group_members agent gid hid h5
    · rw [hc]
    · rw [hgi]
  | set_property prop_id value =>
    cases prop_id <;> exact ⟨⟨h1, h3, h5⟩, Nat.le_add_right _ _, Nat.le_add_right _ _⟩
  | create_offer => exact ⟨⟨h1, h3, h5⟩, Nat.le_add_right _ _, Nat.le_add_right _ _⟩
  | create_answer model offer =>
    exact ⟨⟨h1, h3, h5⟩, Nat.le_add_right _ _, Nat.le_add_right _ _⟩
  | set_local_description d =>
    exact ⟨⟨h1, h3, h5⟩, Nat.le_add_right _ _, Nat.le_add_right _ _⟩
  | set_remote_description d =>
    exact ⟨⟨h1, h3, h5⟩, Nat.le_add_right _ _, Nat.le_add_right _ _⟩
  | get_property prop_id =>
    exact ⟨⟨h1, h3, h5⟩, Nat.le_add_right _ _, Nat.le_add_right _ _⟩

/-- A sequence of calls keeps the invariant of the registry when neither counter wraps in
it. -/
theorem run_calls_registry_inv (calls : List AgentCall) :
    ∀ agent : KmsSdpAgentPrivate, registry_inv agent →
      agent.hids + calls.countP AgentCall.is_add_proto_handler < GUINT_MODULUS →
      agent.gids + calls.countP AgentCall.is_crate_bundle_group < GUINT_MODULUS →
      registry_inv (run_calls agent calls) := by
  induction calls with
  | nil => intro agent h _ _; exact h
  | cons call rest ih =>
    intro agent h hh hg
    rw [List.countP_cons] at hh hg
    obtain ⟨i1, i2, i3⟩ := run_registry_inv agent call h (by omega) (by omega)
    rw [run_calls]
    apply ih _ i1
    · omega
    · omega


/-- C24, amended: in every state reached from a fresh agent by a sequence of public calls
with fewer than 2 ^ 32 calls of `add_handler` and fewer than 2 ^ 32 calls of
`crate_bundle_group`, every member of every group is an entry of the handler list with
an id below the handler counter, no group holds a handler id twice, every group id
is below the group counter, and no two groups and no two handler entries share an
id. -/
theorem registry_invariants_hold (calls : List AgentCall)
    (hh : calls.countP AgentCall.is_add_proto_handler < 4294967296)
    (hg : calls.countP AgentCall.is_crate_bundle_group < 4294967296) :
    (∀ g ∈ (run_calls kms_sdp_agent_new calls).groups, ∀ h ∈ g.handlers,
      h ∈ (run_calls kms_sdp_agent_new calls).handlers ∧
      h.id < (run_calls kms_sdp_agent_new calls).hids) ∧
    (∀ g ∈ (run_calls kms_sdp_agent_new calls).groups,
      (g.handlers.map (fun h => h.id)).Nodup) ∧
    (∀ g ∈ (run_calls kms_sdp_agent_new calls).groups,
      g.id < (run_calls kms_sdp_agent_new calls).gids) ∧
    ((run_calls kms_sdp_agent_new calls).groups.map (fun g => g.id)).Nodup ∧
    ((run_calls kms_sdp_agent_new calls).handlers.map (fun e => e.id)).Nodup := by
  have hinv : registry_inv (run_calls kms_sdp_agent_new calls) := by
    apply run_calls_registry_inv calls kms_sdp_agent_new
    · exact ⟨rfl, rfl, fun g hgm => by simp [kms_sdp_agent_new] at hgm⟩
    · have h0 : kms_sdp_agent_new.hids = 0 := rfl
      rw [h0, GUINT_MODULUS]
      omega
    · have h0 : kms_sdp_agent_new.gids = 0 := rfl
      rw [h0, GUINT_MODULUS]
      omega
  have hginv : groups_inv (run_calls kms_sdp_agent_new calls).groups :=
    run_calls_groups_inv calls kms_sdp_agent_new
      ⟨fun g hgm => by simp [kms_sdp_agent_new] at hgm, by simp [kms_sdp_agent_new]⟩
  obtain ⟨h1, h3, h5⟩ := hinv
  refine ⟨?_, hginv.1, ?_, ?_, ?_⟩
  · intro g hgm h hm
    refine ⟨h5 g hgm h hm, ?_⟩
    have : h.id ∈ (run_calls kms_sdp_agent_new calls).handlers.map (fun e => e.id) :=
      List.mem_map.mpr ⟨h, h5 g hgm h hm, rfl⟩
    rw [h1] at this
    exact List.mem_range.mp this
  · intro g hgm
    have : g.id ∈ (run_calls kms_sdp_agent_new calls).groups.map (fun g => g.id) :=
      List.mem_map.mpr ⟨g, hgm, rfl⟩
    rw [h3] at this
    exact List.mem_range.mp this
  · rw [h3]
    exact List.nodup_range _
  · rw [h1]
    exact List.nodup_range _

/-- After the calls that put the audio and the video handler into one group the ids of the
groups and of the handler entries are pairwise distinct. -/
theorem registry_invariants_hold_witness :
    ((run_calls kms_sdp_agent_new bundle_calls).groups.map (fun g => g.id)).Nodup ∧
    ((run_calls kms_sdp_agent_new bundle_calls).handlers.map (fun e => e.id)).Nodup ∧
    (run_calls kms_sdp_agent_new bundle_calls).hids = 2 ∧
    (run_calls kms_sdp_agent_new bundle_calls).gids = 1 :=
  ⟨(registry_invariants_hold bundle_calls (by decide) (by decide)).2.2.2.1,
    (registry_invariants_hold bundle_calls (by decide) (by decide)).2.2.2.2,
    by decide, by decide⟩

/-- C24 as stated fails: after 2 ^ 32 calls of `crate_bundle_group` on a fresh agent the
group counter is back at 0 while the group list holds a group with the id
4294967295, which is not below the counter. -/
theorem group_id_not_below_wrapped_counter :
    (∀ c ∈ wrapping_group_calls, c = AgentCall.crate_bundle_group) ∧
    (run_calls kms_sdp_agent_new wrapping_group_calls).gids = 0 ∧
    (∃ g ∈ (run_calls kms_sdp_agent_new wrapping_group_calls).groups, g.id = 4294967295) ∧
    ¬ (∀ g ∈ (run_calls kms_sdp_agent_new wrapping_group_calls).groups,
        g.id < (run_calls kms_sdp_agent_new wrapping_group_calls).gids) := by
  have hsplit : wrapping_group_calls =
      List.replicate 4294967295 AgentCall.crate_bundle_group ++
        [AgentCall.crate_bundle_group] := by
    unfold wrapping_group_calls
    rw [← List.replicate_succ']
  have hcount : (List.replicate 4294967295 AgentCall.crate_bundle_group).countP
      AgentCall.is_crate_bundle_group = 4294967295 := by
    rw [List.countP_replicate]
    rfl
  obtain ⟨hgids, -⟩ := run_calls_group_ids_below
    (List.replicate 4294967295 AgentCall.crate_bundle_group) kms_sdp_agent_new
    (by simp [kms_sdp_agent_new])
    (by rw [hcount]; decide)
  rw [hcount] at hgids
  have h0 : kms_sdp_agent_new.gids = 0 := rfl
  rw [h0, Nat.zero_add] at hgids
  have hrun : run_calls kms_sdp_agent_new wrapping_group_calls =
      (kms_sdp_agent_create_bundle_group_impl
        (run_calls kms_sdp_agent_new
          (List.replicate 4294967295 AgentCall.crate_bundle_group))).1 := by
    rw [hsplit, run_calls_append]
    rfl
  have hg0 : (run_calls kms_sdp_agent_new wrapping_group_calls).gids = 0 := by
    rw [hrun]
    simp only [kms_sdp_agent_create_bundle_group_impl, hgids]
    decide
  have hmem : ∃ g ∈ (run_calls kms_sdp_agent_new wrapping_group_calls).groups,
      g.id = 4294967295 := by
    rw [hrun]
    refine ⟨new_sdp_handler_group 4294967295, ?_, rfl⟩
    simp only [kms_sdp_agent_create_bundle_group_impl, hgids, List.mem_append,
      List.mem_singleton]
    right
    have : 4294967295 % GUINT_MODULUS = 4294967295 := by decide
    rw [this]
  refine ⟨?_, hg0, hmem, ?_⟩
  · intro c hc
    unfold wrapping_group_calls at hc
    exact List.eq_of_mem_replicate hc
  · intro hall
    obtain ⟨g, hgm, hgid⟩ := hmem
    have := hall g hgm
    rw [hg0, hgid] at this
    exact Nat.not_lt_zero _ this

end KmsSdp
